import Mathlib

/-!
# booking-service: booking and payment life cycle

A shallow embedding of `internal/module/booking/usecases/usecases.go`,
`internal/module/booking/repositories/repositories.go` and
`internal/pkg/middleware/middleware.go`.

Modelling decisions, all of them visible in the definitions below:

* The process talks to a database, a Redis cache, a message bus, a task
  scheduler and HTTP peers.  Their state is the record `World`; what they
  answer is read from the oracles of `Env` (whether an operation fails, what
  the wall clock shows, what a peer replies), one oracle entry per operation,
  indexed by the counter `World.step`.  A theorem that quantifies over `Env`
  therefore covers every pattern of failures, clock readings and replies.
* A Go function returning `(value, error)` becomes a function
  `World → Res α × World`; a Go panic is the third outcome `Res.panic`.
* `World.trace` records the methods of the `Repositories` interface that
  were invoked, in order, with their arguments.
* `time.Time` is an integer number of nanoseconds.  A table row keeps its
  timestamps in whole seconds, since every statement that writes one renders
  it with the layout `2006-01-02 15:04:05`; the process and the database
  session are taken to use the same time zone.
* A `float64` amount is a whole number of millionths (`Amount`): these are
  the amounts that the `%f` of the INSERT and UPDATE statements renders
  without loss.  Amounts with more than six decimals, NaN and the infinities
  are outside the model, and so is binary rounding.  `int64`/`int` are
  unbounded integers except where a range check is part of the code
  (`strconv.ParseInt`, Redis `DECR`).
* The INSERT and UPDATE statements are built by pasting the field values
  into the statement text between quote characters and are run without
  arguments.  They are modelled by the meaning that text has when no pasted
  value contains a quote character (`quoteFree`): the value is stored as
  given and only the rows of the statement's own key are touched.  For a
  value with a quote character the text is another statement, or several
  (`sqlLiteral_with_quote`), and the model does not say what the database
  does; a theorem about what is stored carries the hypothesis that the
  pasted text is free of quote characters.  The audit columns `created_at`, `updated_at`, `deleted_at`
  are not modelled; logging has no effect.
* A uuid column is compared by value: the text given to the database is
  first brought to its canonical form (`canon`), as `uuid.MustParse` does
  on the Go side (`Env.uuidParse`).
* Building an HTTP request (`http.NewRequestWithContext`) and `json.Marshal`
  of the request structs do not fail.
* The sources are not of one revision: entity.go declares no `TaskID`
  although `UpsertPayment` writes it, and usecases.go calls
  `InquiryTicketAmount` with one argument fewer than repositories.go
  declares.  The definitions say where they follow which file.
-/

namespace BookingService

/-! ## Errors and results -/

/-- The constructors of `internal/pkg/errors` that the code uses, and `Raw`
for an error value of another package passed through unchanged. -/
inductive ErrKind where
  | BadRequest
  | NotFound
  | InternalServerError
  | Raw
  deriving DecidableEq, Repr

/-- An error value: its kind and message. -/
structure Err where
  kind : ErrKind
  msg : String
  deriving DecidableEq, Repr

def BadRequest (msg : String) : Err := ⟨ErrKind.BadRequest, msg⟩
def NotFound (msg : String) : Err := ⟨ErrKind.NotFound, msg⟩
def InternalServerError (msg : String) : Err := ⟨ErrKind.InternalServerError, msg⟩
def RawError (msg : String) : Err := ⟨ErrKind.Raw, msg⟩

/-- Outcome of a Go call: a value with a nil error, a non-nil error, or a
panic. -/
inductive Res (α : Type) where
  | ok (a : α)
  | error (e : Err)
  | panic (msg : String)
  deriving DecidableEq, Repr

/-! ## Entities (models/entity/entity.go) and requests -/

/-- Nanoseconds since the epoch. -/
abbrev Time := Int

def Second : Int := 1000000000
def Minute : Int := 60 * Second

/-- An amount, as a whole number of millionths: a `float64` that the `%f` of
`UpsertPayment` renders without loss.  Amounts with more than six decimals
(which `%f` rounds), NaN and the infinities (which make the statement fail)
have no value of this type. -/
abbrev Amount := Int

/-- The struct entity.Booking. -/
structure entity.Booking where
  ID : String
  UserID : Int
  TicketDetailID : Int
  TotalTickets : Int
  FullName : String
  PersonalID : String
  BookingDate : Time
  deriving DecidableEq, Repr

/-- The struct entity.Payment.  `TaskID` is written by `UpsertPayment`
(repositories.go) although entity.go does not declare it; no use case sets
it. -/
structure entity.Payment where
  ID : Int
  BookingID : String
  Amount : Amount
  Currency : String
  Status : String
  PaymentMethod : String
  PaymentDate : Time
  PaymentExpiration : Time
  TaskID : String
  deriving DecidableEq, Repr

/-- The zero value `entity.Booking{}`. -/
def emptyBooking : entity.Booking := ⟨"", 0, 0, 0, "", "", 0⟩

/-- The zero value `entity.Payment{}`. -/
def emptyPayment : entity.Payment := ⟨0, "", 0, "", "", "", 0, 0, ""⟩

/-- The request body request.BookTicket (fields read by the use cases). -/
structure request.BookTicket where
  TicketDetailID : Int
  TotalTickets : Int
  UserID : Int
  FullName : String
  PersonalID : String
  deriving DecidableEq, Repr

/-- The request body request.Payment. -/
structure request.Payment where
  BookingID : String
  TotalAmount : Amount
  PaymetMethod : String
  deriving DecidableEq, Repr

/-- The task payload request.PaymentExpiration. -/
structure request.PaymentExpiration where
  BookingID : String
  TicketDetailID : Int
  TotalTickets : Int
  deriving DecidableEq, Repr

/-! ## The outside world -/

/-- A row of table `bookings`; `booking_date` in whole seconds. -/
structure BookingRow where
  id : String
  user_id : Int
  ticket_detail_id : Int
  total_tickets : Int
  full_name : String
  personal_id : String
  booking_date : Int
  deriving DecidableEq, Repr

/-- A row of table `payments`; timestamps in whole seconds. -/
structure PaymentRow where
  id : Int
  booking_id : String
  amount : Amount
  currency : String
  status : String
  payment_method : String
  payment_date : Int
  payment_expiration : Int
  task_id : String
  deriving DecidableEq, Repr

/-- What a published message carries: the JSON of a struct, or raw text. -/
inductive Payload where
  | bookTicket (p : request.BookTicket)
  | stockTicket (ticketDetailID : Int) (totalTickets : Int)
  | text (s : String)
  deriving DecidableEq, Repr

/-- A message handed to the publisher. -/
structure Message where
  topic : String
  uuid : String
  payload : Payload
  deriving DecidableEq, Repr

/-- A task handed to the scheduler client: `asynq.NewTask` with its options
and the options of `Enqueue`. -/
structure Task where
  typename : String
  payload : request.PaymentExpiration
  maxRetry : Nat
  timeout : Int
  processIn : Option Int
  deriving DecidableEq, Repr

/-- The decoded `data` object of the common response envelope; a field is
`none` when the object lacks it or holds a value of another JSON type. -/
structure RespData where
  stock : Option Int
  total_ticket : Option Int
  total_amount : Option Amount
  is_valid : Option Bool
  user_id : Option Int
  email_user : Option String
  deriving DecidableEq, Repr

/-- A response body: not JSON, or an envelope whose `data` is an object or
not. -/
inductive Body where
  | malformed
  | envelope (data : Option RespData)
  deriving DecidableEq, Repr

/-- What `httpClient.Do` gives: a transport error or a response. -/
inductive HttpResp where
  | failed
  | resp (status : Nat) (body : Body)
  deriving DecidableEq, Repr

/-- The methods of interface `Repositories`, as recorded in the trace. -/
inductive Call where
  | ValidateToken (token : String)
  | SubmitPayment (bookingID : String) (amount : Amount) (paymentMethod : String) (paymentDate : Time)
  | InquiryTicketAmount (ticketDetailID : Int) (totalTicket : Int)
  | DeleteTaskScheduler (taskID : String)
  | CheckStockTicket (ticketDetailID : Int)
  | DecrementStockTicket (ticketDetailID : Int)
  | IncrementStockTicket (ticketDetailID : Int)
  | SetTaskScheduler (expiredAt : Int) (payload : request.PaymentExpiration)
  | UpsertBooking (booking : entity.Booking)
  | UpsertPayment (payment : entity.Payment)
  | FindBookingByUserID (userID : Int)
  | FindBookingByID (bookingID : String)
  | FindPaymentByBookingID (bookingID : String)
  deriving DecidableEq, Repr

/-- The state outside the process. -/
structure World where
  /-- table `payments`, in insertion order -/
  payments : List PaymentRow
  /-- last value of the `payments.id` sequence -/
  paymentSeq : Nat
  /-- table `bookings`, in insertion order -/
  bookings : List BookingRow
  /-- Redis keys and values -/
  redis : List (String × String)
  /-- messages accepted by the bus, oldest first -/
  published : List Message
  /-- tasks accepted by the scheduler, oldest first -/
  tasks : List Task
  /-- number of operations on the outside world performed so far -/
  step : Nat
  /-- repository methods invoked so far, oldest first -/
  trace : List Call
  deriving DecidableEq, Repr

/-- What is not determined by the code: library behaviour that is not part
of the repository, and the answers of the outside world, one per
operation. -/
structure Env where
  /-- the canonical text of `uuid.MustParse s`, or `none` where it panics -/
  uuidParse : String → Option String
  /-- a canonical text parses to itself -/
  uuidParse_canonical : ∀ s k, uuidParse s = some k → uuidParse k = some k
  /-- the constant scheduler.TypeSetPaymentExpired -/
  TypeSetPaymentExpired : String
  /-- whether operation `n` (database, Redis, bus, scheduler) fails -/
  fault : Nat → Bool
  /-- the wall clock read as operation `n` -/
  clock : Nat → Time
  /-- the circuit breaker answer `cb.Ready()` as operation `n` -/
  ready : Nat → Bool
  /-- the reply to an HTTP request sent as operation `n` -/
  http : Nat → HttpResp
  /-- the identifier generated as operation `n` -/
  uuid : Nat → String

/-! ## State passing -/

/-- A Go function acting on the outside world. -/
def M (α : Type) : Type := World → Res α × World

namespace M

def pure {α : Type} (a : α) : M α := fun w => (Res.ok a, w)

def bind {α β : Type} (m : M α) (f : α → M β) : M β := fun w =>
  match m w with
  | (Res.ok a, w1) => f a w1
  | (Res.error e, w1) => (Res.error e, w1)
  | (Res.panic s, w1) => (Res.panic s, w1)

/-- Return a non-nil error. -/
def fail {α : Type} (e : Err) : M α := fun w => (Res.error e, w)

/-- Panic. -/
def crash {α : Type} (msg : String) : M α := fun w => (Res.panic msg, w)

/-- The idiom `if err != nil { return e }`: any error of `m` is replaced
by `e`. -/
def orFail {α : Type} (m : M α) (e : Err) : M α := fun w =>
  match m w with
  | (Res.error _, w1) => (Res.error e, w1)
  | r => r

/-- A call whose error is discarded or only logged. -/
def ignoreErr (m : M Unit) : M Unit := fun w =>
  match m w with
  | (Res.error _, w1) => (Res.ok (), w1)
  | r => r

/-- A call whose error is inspected by the caller: `none` for nil. -/
def attempt {α : Type} (m : M α) : M (Except Err α) := fun w =>
  match m w with
  | (Res.ok a, w1) => (Res.ok (Except.ok a), w1)
  | (Res.error e, w1) => (Res.ok (Except.error e), w1)
  | (Res.panic s, w1) => (Res.panic s, w1)

end M

instance : Monad M where
  pure := M.pure
  bind := M.bind

/-- Read the outside world. -/
def getWorld : M World := fun w => (Res.ok w, w)

/-- Change the outside world. -/
def modifyWorld (f : World → World) : M Unit := fun w => (Res.ok (), f w)

/-- Record a repository call. -/
def logCall (c : Call) : M Unit :=
  modifyWorld fun w => { w with trace := w.trace ++ [c] }

/-- One operation on the database, Redis, the bus or the scheduler: `true`
when it fails. -/
def opFails (E : Env) : M Bool := fun w =>
  (Res.ok (E.fault w.step), { w with step := w.step + 1 })

/-- The call time.Now(). -/
def timeNow (E : Env) : M Time := fun w =>
  (Res.ok (E.clock w.step), { w with step := w.step + 1 })

/-- The call cb.Ready(). -/
def cbReady (E : Env) : M Bool := fun w =>
  (Res.ok (E.ready w.step), { w with step := w.step + 1 })

/-- The call httpClient.Do(req). -/
def httpDo (E : Env) : M HttpResp := fun w =>
  (Res.ok (E.http w.step), { w with step := w.step + 1 })

/-- A generated identifier: watermill.NewUUID(), or a default of the
database. -/
def newUUID (E : Env) : M String := fun w =>
  (Res.ok (E.uuid w.step), { w with step := w.step + 1 })

/-! ## Redis and text -/

/-- First value stored under a key. -/
def kvLookup (key : String) : List (String × String) → Option String
  | [] => none
  | (k, v) :: rest => if k = key then some v else kvLookup key rest

/-- Overwrite the value under a key, or add the key. -/
def kvStore (key val : String) : List (String × String) → List (String × String)
  | [] => [(key, val)]
  | (k, v) :: rest => if k = key then (key, val) :: rest else (k, v) :: kvStore key val rest

/-- Value of a nonempty string of decimal digits. -/
def digitsValue (cs : List Char) : Option Nat :=
  if cs = [] then none
  else cs.foldl
    (fun acc c => acc.bind fun n => if c.isDigit then some (10 * n + (c.toNat - 48)) else none)
    (some 0)

def minInt64 : Int := -9223372036854775808
def maxInt64 : Int := 9223372036854775807

/-- Keep a value only if it fits a 64-bit signed integer. -/
def inInt64 (n : Int) : Option Int :=
  if minInt64 ≤ n ∧ n ≤ maxInt64 then some n else none

/-- The call strconv.ParseInt(s, 10, 64): an optional sign, decimal digits,
and the 64-bit range; `none` for an error. -/
def ParseInt (s : String) : Option Int :=
  match s.toList with
  | '+' :: cs => (digitsValue cs).bind fun n => inInt64 (Int.ofNat n)
  | '-' :: cs => (digitsValue cs).bind fun n => inInt64 (-(Int.ofNat n))
  | cs => (digitsValue cs).bind fun n => inInt64 (Int.ofNat n)

/-- The integer Redis reads in a value for INCR and DECR: an optional minus
sign, digits without a leading zero (or the single digit 0), within the
64-bit range. -/
def redisInt (s : String) : Option Int :=
  match s.toList with
  | ['0'] => some 0
  | '-' :: '0' :: _ => none
  | '0' :: _ => none
  | '-' :: cs => (digitsValue cs).bind fun n => inInt64 (-(Int.ofNat n))
  | cs => (digitsValue cs).bind fun n => inInt64 (Int.ofNat n)

/-- Redis GET: an error on a failed operation and on a missing key. -/
def redisGet (E : Env) (key : String) : M String := do
  let failed ← opFails E
  let w ← getWorld
  if failed then M.fail (RawError "redis: operation failed")
  else match kvLookup key w.redis with
    | none => M.fail (RawError "redis: nil")
    | some v => pure v

/-- Redis SET with expiration 0 (none). -/
def redisSet (E : Env) (key val : String) : M Unit := do
  let failed ← opFails E
  if failed then M.fail (RawError "redis: operation failed")
  else modifyWorld fun w => { w with redis := kvStore key val w.redis }

/-- Redis INCRBY with a delta of 1 or -1: a missing key counts as 0; an
error when the value is not an integer or the result leaves the 64-bit
range. -/
def redisAdd (E : Env) (key : String) (delta : Int) : M Int := do
  let failed ← opFails E
  let w ← getWorld
  if failed then M.fail (RawError "redis: operation failed")
  else
    let old : Option Int := match kvLookup key w.redis with
      | none => some 0
      | some v => redisInt v
    match old.bind fun n => inInt64 (n + delta) with
    | none => M.fail (RawError "ERR value is not an integer or out of range")
    | some n => do
      modifyWorld fun w => { w with redis := kvStore key (toString n) w.redis }
      pure n

/-! ## Database rows -/

/-- The text has no quote character (U+0027), so that pasted between two
quote characters into a statement it is read back as one string literal with
this very value (`sqlLiteral_quoted`). -/
def quoteFree (s : String) : Prop := Char.ofNat 39 ∉ s.toList

instance (s : String) : Decidable (quoteFree s) := by
  unfold quoteFree
  exact inferInstance

/-- The text that the verb `'%s'` of fmt.Sprintf writes for a value: the
value between two quote characters. -/
def sqlQuoted (s : String) : List Char := Char.ofNat 39 :: (s.toList ++ [Char.ofNat 39])

/-- The string literal a statement text goes on with, after its opening
quote, as PostgreSQL reads it (standard_conforming_strings on): the
characters up to the first quote that is not doubled, a doubled quote
standing for one quote; and the text that follows the closing quote. -/
def sqlLiteralBody (acc : List Char) : List Char → Option (List Char × List Char)
  | [] => none
  | [c] => if c = Char.ofNat 39 then some (acc.reverse, []) else none
  | c :: d :: rest =>
    if c = Char.ofNat 39 then
      if d = Char.ofNat 39 then sqlLiteralBody (Char.ofNat 39 :: acc) rest
      else some (acc.reverse, d :: rest)
    else sqlLiteralBody (c :: acc) (d :: rest)

/-- The string literal a text starts with, and the text after it; `none`
when the text does not start with a quote or the literal is not closed. -/
def sqlLiteral : List Char → Option (List Char × List Char)
  | [] => none
  | c :: rest => if c = Char.ofNat 39 then sqlLiteralBody [] rest else none

/-- Rendering with layout `2006-01-02 15:04:05`: the whole seconds. -/
def formatTime (t : Time) : Int := t / Second

/-- The time a stored timestamp is read back as. -/
def parseTime (s : Int) : Time := s * Second

/-- The text Postgres keeps for a uuid given as text: the canonical form
where the text is a UUID. -/
def canon (E : Env) (s : String) : String := (E.uuidParse s).getD s

def BookingRow.toEntity (r : BookingRow) : entity.Booking :=
  { ID := r.id, UserID := r.user_id, TicketDetailID := r.ticket_detail_id,
    TotalTickets := r.total_tickets, FullName := r.full_name,
    PersonalID := r.personal_id, BookingDate := parseTime r.booking_date }

def PaymentRow.toEntity (r : PaymentRow) : entity.Payment :=
  { ID := r.id, BookingID := r.booking_id, Amount := r.amount, Currency := r.currency,
    Status := r.status, PaymentMethod := r.payment_method,
    PaymentDate := parseTime r.payment_date,
    PaymentExpiration := parseTime r.payment_expiration, TaskID := r.task_id }

/-- First row of `SELECT * FROM payments WHERE booking_id = k`. -/
def findPayment (k : String) : List PaymentRow → Option PaymentRow
  | [] => none
  | r :: rest => if r.booking_id = k then some r else findPayment k rest

/-- First row of `SELECT * FROM bookings WHERE id = k`. -/
def findBooking (k : String) : List BookingRow → Option BookingRow
  | [] => none
  | r :: rest => if r.id = k then some r else findBooking k rest

/-- First row of `SELECT * FROM bookings WHERE user_id = u`. -/
def findBookingOfUser (u : Int) : List BookingRow → Option BookingRow
  | [] => none
  | r :: rest => if r.user_id = u then some r else findBookingOfUser u rest

/-- The statement `UPDATE payments SET ... WHERE booking_id = k`. -/
def updatePayments (k : String) (p : entity.Payment) : List PaymentRow → List PaymentRow
  | [] => []
  | r :: rest =>
    (if r.booking_id = k then
      { r with amount := p.Amount, currency := p.Currency, status := p.Status,
               payment_method := p.PaymentMethod, payment_date := formatTime p.PaymentDate,
               payment_expiration := formatTime p.PaymentExpiration, task_id := p.TaskID }
    else r) :: updatePayments k p rest

/-- The statement `UPDATE bookings SET ... WHERE id = k`. -/
def updateBookings (k : String) (b : entity.Booking) : List BookingRow → List BookingRow
  | [] => []
  | r :: rest =>
    (if r.id = k then
      { r with user_id := b.UserID, ticket_detail_id := b.TicketDetailID,
               total_tickets := b.TotalTickets, full_name := b.FullName,
               personal_id := b.PersonalID, booking_date := formatTime b.BookingDate }
    else r) :: updateBookings k b rest

/-- The idiom after a failed statement: roll back, and report the roll back
error if there is one, else the given error. -/
def rollbackThen {α : Type} (E : Env) (e : Err) : M α := do
  let failed ← opFails E
  if failed then M.fail (InternalServerError "error rolling back transaction")
  else M.fail e

/-! ## repositories.go -/

/-- The stock lookup at the ticket service inside `CheckStockTicket`
(the branch taken when the cache gives no value): the text to cache. -/
def stockLookup (E : Env) : M String := do
  let ready ← cbReady E
  if !ready then M.fail (InternalServerError "error check stock ticket")
  else
    let resp ← httpDo E
    match resp with
    | HttpResp.failed => M.fail (InternalServerError "error get stock ticket")
    | HttpResp.resp status body =>
      if status ≠ 200 then M.fail (BadRequest "Get stock ticket failed")
      else match body with
        | Body.malformed => M.fail (RawError "json: cannot decode response")
        | Body.envelope none => M.crash "interface conversion: data is not an object"
        | Body.envelope (some d) =>
          match d.stock with
          | none => M.crash "interface conversion: stock is not a number"
          | some stock => pure (toString stock)

/-- The method CheckStockTicket. -/
def CheckStockTicket (E : Env) (ticketDetailID : Int) : M Int := do
  logCall (Call.CheckStockTicket ticketDetailID)
  let ticketIDString := toString ticketDetailID
  let got ← M.attempt (redisGet E ticketIDString)
  let data ← match got with
    | Except.ok data => pure data
    | Except.error _ => do
      let data ← stockLookup E
      M.orFail (redisSet E ticketIDString data) (InternalServerError "error set stock ticket")
      pure data
  match ParseInt data with
  | none => M.fail (InternalServerError "error parse stock ticket")
  | some dataInt => pure dataInt

/-- The method DecrementStockTicket. -/
def DecrementStockTicket (E : Env) (ticketDetailID : Int) : M Unit := do
  logCall (Call.DecrementStockTicket ticketDetailID)
  let _ ← M.orFail (redisAdd E (toString ticketDetailID) (-1))
    (InternalServerError "error decrement stock ticket")
  pure ()

/-- The method IncrementStockTicket. -/
def IncrementStockTicket (E : Env) (ticketDetailID : Int) : M Unit := do
  logCall (Call.IncrementStockTicket ticketDetailID)
  let _ ← M.orFail (redisAdd E (toString ticketDetailID) 1)
    (InternalServerError "error increment stock ticket")
  pure ()

/-- The method InquiryTicketAmount. -/
def InquiryTicketAmount (E : Env) (ticketDetailID : Int) (totalTicket : Int) : M Amount := do
  logCall (Call.InquiryTicketAmount ticketDetailID totalTicket)
  let ready ← cbReady E
  if !ready then M.fail (InternalServerError "error inquiry ticket amount")
  else
    let resp ← httpDo E
    match resp with
    | HttpResp.failed => M.fail (InternalServerError "error inquiry ticket amount")
    | HttpResp.resp status body =>
      if status ≠ 200 then M.fail (BadRequest "Inquiry ticket amount failed")
      else match body with
        | Body.malformed => M.fail (RawError "json: cannot decode response")
        | Body.envelope none => M.crash "interface conversion: data is not an object"
        | Body.envelope (some d) =>
          match d.total_ticket, d.total_amount with
          | some _, some amount => pure amount
          | _, _ => M.crash "interface conversion: field is not a number"

/-- The method FindBookingByID. -/
def FindBookingByID (E : Env) (bookingID : String) : M entity.Booking := do
  logCall (Call.FindBookingByID bookingID)
  let failed ← opFails E
  let w ← getWorld
  if failed then M.fail (InternalServerError "error find booking by booking id")
  else match findBooking (canon E bookingID) w.bookings with
    | none => pure emptyBooking
    | some r => pure r.toEntity

/-- The method FindBookingByUserID. -/
def FindBookingByUserID (E : Env) (userID : Int) : M entity.Booking := do
  logCall (Call.FindBookingByUserID userID)
  let failed ← opFails E
  let w ← getWorld
  if failed then M.fail (InternalServerError "error find booking by user id")
  else match findBookingOfUser userID w.bookings with
    | none => pure emptyBooking
    | some r => pure r.toEntity

/-- The method FindPaymentByBookingID. -/
def FindPaymentByBookingID (E : Env) (bookingID : String) : M entity.Payment := do
  logCall (Call.FindPaymentByBookingID bookingID)
  match E.uuidParse bookingID with
  | none => M.crash "uuid: Parse: invalid UUID"
  | some k =>
    let failed ← opFails E
    let w ← getWorld
    if failed then M.fail (InternalServerError "error find payment by booking id")
    else match findPayment k w.payments with
      | none => pure emptyPayment
      | some r => pure r.toEntity

/-- The method UpsertBooking.  The INSERT and UPDATE statements paste
`FullName` and `PersonalID` between quote characters; the definition gives
the rows they write when these values are `quoteFree`. -/
def UpsertBooking (E : Env) (booking : entity.Booking) : M String := do
  logCall (Call.UpsertBooking booking)
  let beginFailed ← opFails E
  if beginFailed then M.fail (InternalServerError "error starting transaction")
  else
    let selectFailed ← opFails E
    let w ← getWorld
    if selectFailed then rollbackThen E (InternalServerError "error locking rows")
    else
      let key := canon E booking.ID
      match findBooking key w.bookings with
      | none =>
        -- INSERT ... RETURNING id
        let insertFailed ← opFails E
        if insertFailed then rollbackThen E (InternalServerError "error upserting booking")
        else
          let id ← newUUID E
          let row : BookingRow :=
            { id := id, user_id := booking.UserID, ticket_detail_id := booking.TicketDetailID,
              total_tickets := booking.TotalTickets, full_name := booking.FullName,
              personal_id := booking.PersonalID, booking_date := formatTime booking.BookingDate }
          let commitFailed ← opFails E
          if commitFailed then M.fail (InternalServerError "error committing transaction")
          else
            modifyWorld fun w => { w with bookings := w.bookings ++ [row] }
            pure id
      | some existing =>
        -- UPDATE ... WHERE id = ... RETURNING id
        let updateFailed ← opFails E
        if updateFailed then rollbackThen E (InternalServerError "error upserting booking")
        else
          let commitFailed ← opFails E
          if commitFailed then M.fail (InternalServerError "error committing transaction")
          else
            modifyWorld fun w => { w with bookings := updateBookings key booking w.bookings }
            pure existing.id

/-- The method UpsertPayment.  The INSERT and UPDATE statements paste
`Currency`, `Status`, `PaymentMethod` and `TaskID` between quote characters
and render `Amount` with `%f`; the definition gives the rows they write when
these values are `quoteFree`. -/
def UpsertPayment (E : Env) (payment : entity.Payment) : M Unit := do
  logCall (Call.UpsertPayment payment)
  let beginFailed ← opFails E
  if beginFailed then M.fail (InternalServerError "error starting transaction")
  else
    let selectFailed ← opFails E
    let w ← getWorld
    if selectFailed then rollbackThen E (InternalServerError "error locking rows")
    else
      let key := canon E payment.BookingID
      match findPayment key w.payments with
      | none =>
        -- INSERT INTO payments
        let insertFailed ← opFails E
        if insertFailed then rollbackThen E (InternalServerError "error upserting payment")
        else
          modifyWorld fun w => { w with paymentSeq := w.paymentSeq + 1 }
          let row : PaymentRow :=
            { id := Int.ofNat (w.paymentSeq + 1), booking_id := key, amount := payment.Amount,
              currency := payment.Currency, status := payment.Status,
              payment_method := payment.PaymentMethod,
              payment_date := formatTime payment.PaymentDate,
              payment_expiration := formatTime payment.PaymentExpiration,
              task_id := payment.TaskID }
          let commitFailed ← opFails E
          if commitFailed then M.fail (InternalServerError "error committing transaction")
          else modifyWorld fun w => { w with payments := w.payments ++ [row] }
      | some _ =>
        -- UPDATE payments SET ... WHERE booking_id = ...
        let updateFailed ← opFails E
        if updateFailed then rollbackThen E (InternalServerError "error upserting payment")
        else
          let commitFailed ← opFails E
          if commitFailed then M.fail (InternalServerError "error committing transaction")
          else modifyWorld fun w => { w with payments := updatePayments key payment w.payments }

/-- The call `clientScheduler.Enqueue(task, opts...)`: the task identifier. -/
def Enqueue (E : Env) (task : Task) : M String := do
  let failed ← opFails E
  if failed then M.fail (RawError "asynq: enqueue failed")
  else
    let id ← newUUID E
    modifyWorld fun w => { w with tasks := w.tasks ++ [task] }
    pure id

/-- The call `publish.Publish(topic, message.NewMessage(uuid, payload))`. -/
def Publish (E : Env) (topic : String) (uuid : String) (payload : Payload) : M Unit := do
  let failed ← opFails E
  if failed then M.fail (RawError "publish failed")
  else modifyWorld fun w => { w with published := w.published ++ [⟨topic, uuid, payload⟩] }

/-- The method SetTaskScheduler. -/
def SetTaskScheduler (E : Env) (expiredAt : Int) (payload : request.PaymentExpiration) : M String := do
  logCall (Call.SetTaskScheduler expiredAt payload)
  let taskPaymentExpiredAt : Task :=
    { typename := E.TypeSetPaymentExpired, payload := payload, maxRetry := 3,
      timeout := expiredAt, processIn := some expiredAt }
  M.orFail (Enqueue E taskPaymentExpiredAt)
    (InternalServerError "error enqueue task payment expired")

/-- The struct response.UserServiceValidate. -/
structure response.UserServiceValidate where
  IsValid : Bool
  UserID : Int
  EmailUser : String
  deriving DecidableEq, Repr

/-- The method SubmitPayment. -/
def SubmitPayment (E : Env) (bookingID : String) (amount : Amount) (paymentMethod : String)
    (paymentDate : Time) : M Unit := do
  logCall (Call.SubmitPayment bookingID amount paymentMethod paymentDate)
  let ready ← cbReady E
  if !ready then M.fail (InternalServerError "error submit payment, 3rd party service is down")
  else
    let resp ← httpDo E
    match resp with
    | HttpResp.failed => M.fail (InternalServerError "error submit payment")
    | HttpResp.resp status _ =>
      if status ≠ 200 then M.fail (BadRequest "Submit payment failed")
      else pure ()

/-- The method DeleteTaskScheduler: a batch delete of one scheduled task at
the monitoring API of the scheduler. -/
def DeleteTaskScheduler (E : Env) (taskID : String) : M Unit := do
  logCall (Call.DeleteTaskScheduler taskID)
  let ready ← cbReady E
  if !ready then M.fail (InternalServerError "error delete task scheduler")
  else
    let resp ← httpDo E
    match resp with
    | HttpResp.failed => M.fail (InternalServerError "error delete task scheduler")
    | HttpResp.resp status _ =>
      if status ≠ 200 then M.fail (BadRequest "Delete task scheduler failed")
      else pure ()

/-- The method ValidateToken. -/
def ValidateToken (E : Env) (token : String) : M response.UserServiceValidate := do
  logCall (Call.ValidateToken token)
  let ready ← cbReady E
  if !ready then M.fail (InternalServerError "error validate token")
  else
    let resp ← httpDo E
    match resp with
    | HttpResp.failed => M.fail (RawError "http: request failed")
    | HttpResp.resp status body =>
      if status ≠ 200 then M.fail (BadRequest "Invalid token")
      else match body with
        | Body.malformed => M.fail (RawError "json: cannot decode response")
        | Body.envelope none => M.crash "interface conversion: data is not an object"
        | Body.envelope (some d) =>
          match d.is_valid, d.user_id, d.email_user with
          | some isValid, some userID, some emailUser =>
            if !isValid then M.fail (BadRequest "Invalid token")
            else pure { IsValid := isValid, UserID := userID, EmailUser := emailUser }
          | _, _, _ => M.crash "interface conversion: field has another type"

/-! ## usecases.go

`json.Marshal` of the request structs (integers and strings) does not fail;
its error branch is not modelled. -/

/-- Modelled from the spec: `helpers.DurationCalculation` is not part of the
sources at hand; the spec gives the delay as `payment_expiration - now`. -/
def DurationCalculation (E : Env) (t : Time) : M Int := do
  let now ← timeNow E
  pure (t - now)

/-- The use case Payment (settlement). -/
def Payment (E : Env) (payload : request.Payment) : M Unit := do
  -- 1. check if payment is valid
  let dataPayment ← M.orFail (FindPaymentByBookingID E payload.BookingID)
    (InternalServerError "error repository find payment by booking id")
  if dataPayment.ID = 0 then M.fail (NotFound "payment not found")
  else if dataPayment.Status ≠ "pending" then
    M.fail (BadRequest "payment already paid / expired")
  else
    -- 2. insert to db
    let now ← timeNow E
    let specPayment : entity.Payment :=
      { ID := 0, BookingID := payload.BookingID, Amount := payload.TotalAmount,
        Currency := "USD", Status := "paid", PaymentMethod := payload.PaymetMethod,
        PaymentDate := now, PaymentExpiration := dataPayment.PaymentExpiration,
        TaskID := "" }
    M.orFail (UpsertPayment E specPayment) (InternalServerError "error upsert payment")
    -- 3. publish to rabbit mq for decrement stock ticket
    let dataBooking ← M.orFail (FindBookingByID E payload.BookingID)
      (InternalServerError "error find booking by booking id")
    let messageUUID ← newUUID E
    M.orFail
      (Publish E "decrement_stock_ticket" messageUUID
        (Payload.stockTicket dataBooking.TicketDetailID 1))
      (InternalServerError "error publish decrement stock ticket")
    -- 4. send notification to user about payment
    let notificationUUID ← newUUID E
    M.orFail
      (Publish E "notification" notificationUUID (Payload.text "your payment has been paid"))
      (InternalServerError "error publish notification")

/-- The use case BookTicket (admission). -/
def BookTicket (E : Env) (payload : request.BookTicket) (userID : Int) : M Unit := do
  let stock ← M.orFail (CheckStockTicket E payload.TicketDetailID)
    (InternalServerError "error check stock ticket")
  if stock ≤ 0 then M.fail (BadRequest "stock ticket is empty")
  else
    let booking ← M.orFail (FindBookingByUserID E userID)
      (InternalServerError "error find booking by user id")
    if booking.TotalTickets ≥ 2 then
      M.fail (BadRequest "user already booked more than 2 tickets")
    else
      -- 1. send the queue to rabbit mq
      let messageUUID ← newUUID E
      M.ignoreErr (Publish E "book_ticket" messageUUID (Payload.bookTicket payload))
      let notificationUUID ← newUUID E
      M.ignoreErr
        (Publish E "notification" notificationUUID (Payload.text "your ticket has been queued"))

/-- The use case ConsumeBookTicketQueue (allocation).  The call of
`InquiryTicketAmount` in usecases.go passes the ticket detail only, the
method in repositories.go also takes the number of tickets: the payload's
is passed. -/
def ConsumeBookTicketQueue (E : Env) (payload : request.BookTicket) : M Unit := do
  -- 1. check stock ticket
  let stock ← M.orFail (CheckStockTicket E payload.TicketDetailID)
    (InternalServerError "error check stock ticket")
  if stock ≤ 0 then M.fail (BadRequest "stock ticket is empty")
  else
    -- 2. decrement to redis stock ticket
    M.orFail (DecrementStockTicket E payload.TicketDetailID)
      (InternalServerError "error decrement stock ticket")
    -- 3. set booking expired time and payment expired time
    let paymentExpiredAt := (← timeNow E) + Minute * 30
    -- 5. insert to db
    let specBooking : entity.Booking :=
      { ID := "", UserID := payload.UserID, TicketDetailID := payload.TicketDetailID,
        TotalTickets := payload.TotalTickets, FullName := payload.FullName,
        PersonalID := payload.PersonalID, BookingDate := (← timeNow E) }
    let bookingID ← M.orFail (UpsertBooking E specBooking)
      (InternalServerError "error upsert booking")
    -- request to calculate total amount to ticket service
    let amount ← M.orFail (InquiryTicketAmount E payload.TicketDetailID payload.TotalTickets)
      (InternalServerError "error inquiry ticket amount")
    let specPayment : entity.Payment :=
      { ID := 0, BookingID := bookingID, Amount := amount, Currency := "IDR",
        Status := "pending", PaymentMethod := "", PaymentDate := (← timeNow E),
        PaymentExpiration := paymentExpiredAt, TaskID := "" }
    M.orFail (UpsertPayment E specPayment) (InternalServerError "error upsert payment")
    -- 6. start job to check payment expired time
    let specPaymentExpiration : request.PaymentExpiration :=
      { BookingID := bookingID, TicketDetailID := payload.TicketDetailID,
        TotalTickets := payload.TotalTickets }
    let expiredAt ← DurationCalculation E paymentExpiredAt
    let taskPaymentExpiredAt : Task :=
      { typename := E.TypeSetPaymentExpired, payload := specPaymentExpiration, maxRetry := 3,
        timeout := expiredAt, processIn := none }
    let _ ← M.orFail (Enqueue E taskPaymentExpiredAt)
      (InternalServerError "error enqueue task payment expired")
    -- 7. publish to rabbit mq for decrement stock ticket to ticket service
    let messageUUID ← newUUID E
    M.ignoreErr
      (Publish E "decrement_stock_ticket" messageUUID
        (Payload.stockTicket payload.TicketDetailID payload.TotalTickets))
    -- 8. send notification to user about payment
    let notificationUUID ← newUUID E
    M.ignoreErr
      (Publish E "notification" notificationUUID (Payload.text "your ticket has been queued"))

/-- The use case SetPaymentExpired (expiry task handler). -/
def SetPaymentExpired (E : Env) (payload : request.PaymentExpiration) : M Unit := do
  -- 1. find payment by booking id
  let payment ← FindPaymentByBookingID E payload.BookingID
  -- 2. if payment status is pending and payment expired time is now
  if payment.Status = "pending" then
    let now ← timeNow E
    if payment.PaymentExpiration < now then
      -- 3. update payment status to expired
      let payment := { payment with Status := "expired" }
      UpsertPayment E payment
      -- 4. publish to rabbit mq for increment stock ticket to ticket service
      let messageUUID ← newUUID E
      Publish E "increment_stock_ticket" messageUUID
        (Payload.stockTicket payload.TicketDetailID payload.TotalTickets)
    else pure ()
  else pure ()

/-! ## middleware.go

A header is text of one byte per character, as HTTP header values are; the
length and the slice bounds count bytes. `helpers.RespError` is not part of
the sources at hand: the answer records the error handed to it. -/

/-- What the middleware hands back to the framework. -/
inductive Answer where
  /-- the reply `ctx.Status(code).JSON({"message": message})` -/
  | status (code : Nat) (message : String)
  /-- the reply `helpers.RespError(ctx, log, err)` -/
  | respError (e : Err)
  /-- the call `ctx.Next()` after `ctx.Locals("user_id", userID)` -/
  | next (userID : Int)
  deriving DecidableEq, Repr

/-- The slice expression `s[lo:hi]` on a string, or `none` where the bounds
check `lo ≤ hi ≤ len(s)` fails and the Go runtime panics. -/
def sliceString (s : String) (lo hi : Nat) : Option String :=
  if lo ≤ hi ∧ hi ≤ s.utf8ByteSize then some (s.extract ⟨lo⟩ ⟨hi⟩) else none

/-- The constant fiber.StatusUnauthorized. -/
def StatusUnauthorized : Nat := 401

/-- The method Middleware.ValidateToken, given the value of header
`Authorization`. -/
def Middleware.ValidateToken (E : Env) (auth : String) : M Answer := do
  if auth = "" then pure (Answer.status StatusUnauthorized "Unauthorized")
  else
    match sliceString auth 7 auth.utf8ByteSize with
    | none => M.crash "slice bounds out of range"
    | some token =>
      let got ← M.attempt (BookingService.ValidateToken E token)
      match got with
      | Except.error err => pure (Answer.respError err)
      | Except.ok resp =>
        if !resp.IsValid then pure (Answer.respError (RawError "error validate token"))
        else pure (Answer.next resp.UserID)

/-! ## Frame conditions -/

/-- The computation leaves the component `f` of the world as it is, whatever
its outcome. -/
structure M.keeps {α β : Type} (f : World → β) (m : M α) : Prop where
  same : ∀ w, f (m w).2 = f w

/-- The component `f` of the world does not depend on the step counter. -/
def IgnoresStep {β : Type} (f : World → β) : Prop :=
  ∀ (w : World) (n : Nat), f { w with step := n } = f w

/-- The component `f` of the world does not depend on the trace. -/
def IgnoresTrace {β : Type} (f : World → β) : Prop :=
  ∀ (w : World) (t : List Call), f { w with trace := t } = f w

/-- The component `f` of the world does not depend on Redis. -/
def IgnoresRedis {β : Type} (f : World → β) : Prop :=
  ∀ (w : World) (r : List (String × String)), f { w with redis := r } = f w

/-- The component `f` of the world does not depend on table `payments`. -/
def IgnoresPayments {β : Type} (f : World → β) : Prop :=
  ∀ (w : World) (ps : List PaymentRow), f { w with payments := ps } = f w

/-- The component `f` of the world does not depend on the sequence of
`payments.id`. -/
def IgnoresPaymentSeq {β : Type} (f : World → β) : Prop :=
  ∀ (w : World) (n : Nat), f { w with paymentSeq := n } = f w

/-- The component `f` of the world does not depend on table `bookings`. -/
def IgnoresBookings {β : Type} (f : World → β) : Prop :=
  ∀ (w : World) (bs : List BookingRow), f { w with bookings := bs } = f w

/-- The component `f` of the world does not depend on the scheduler. -/
def IgnoresTasks {β : Type} (f : World → β) : Prop :=
  ∀ (w : World) (ts : List Task), f { w with tasks := ts } = f w

/-- The component `f` of the world does not depend on the bus. -/
def IgnoresPublished {β : Type} (f : World → β) : Prop :=
  ∀ (w : World) (ms : List Message), f { w with published := ms } = f w

/-- Every repository call the computation makes satisfies `P`: the trace it
leaves is the trace it found, followed by calls that satisfy `P`. -/
structure M.calls {α : Type} (P : Call → Prop) (m : M α) : Prop where
  sub : ∀ w, ∃ cs, (m w).2.trace = w.trace ++ cs ∧ ∀ c ∈ cs, P c

/-! ## Specification helpers -/

/-- The table `payments` after a committed upsert. -/
def upsertedPayments (E : Env) (p : entity.Payment) (w : World) : List PaymentRow :=
  match findPayment (canon E p.BookingID) w.payments with
  | none =>
    w.payments ++
      [{ id := Int.ofNat (w.paymentSeq + 1), booking_id := canon E p.BookingID,
         amount := p.Amount, currency := p.Currency, status := p.Status,
         payment_method := p.PaymentMethod, payment_date := formatTime p.PaymentDate,
         payment_expiration := formatTime p.PaymentExpiration, task_id := p.TaskID }]
  | some _ => updatePayments (canon E p.BookingID) p w.payments

/-- The booking FindBookingByID reads under a key: the first row, or the
empty value. -/
def bookingOf (k : String) (w : World) : entity.Booking :=
  match findBooking k w.bookings with
  | none => emptyBooking
  | some r => r.toEntity

/-- The topics of the messages published between world `w` and the later
world `w2`, oldest first. -/
def topicsSince (w w2 : World) : List String :=
  (w2.published.drop w.published.length).map Message.topic

/-- Whether a call is one of method DeleteTaskScheduler. -/
def Call.isDeleteTaskScheduler : Call → Bool
  | Call.DeleteTaskScheduler _ => true
  | _ => false

/-- Whether a call is one of method IncrementStockTicket. -/
def Call.isIncrementStockTicket : Call → Bool
  | Call.IncrementStockTicket _ => true
  | _ => false

/-! ## Sequences of calls -/

/-- A call of one of the two use cases that write a payment status. -/
inductive PaymentOp where
  | payment (payload : request.Payment)
  | expire (payload : request.PaymentExpiration)
  deriving DecidableEq, Repr

/-- The world after one call, whatever it returns. -/
def PaymentOp.apply (E : Env) : PaymentOp → World → World
  | PaymentOp.payment payload, w => (Payment E payload w).2
  | PaymentOp.expire payload, w => (SetPaymentExpired E payload w).2

/-- The text a call gives to be pasted into a statement has no quote
character: the payment method of a settlement request.  An expiry payload
carries no text that is pasted. -/
def PaymentOp.textSafe : PaymentOp → Prop
  | PaymentOp.payment payload => quoteFree payload.PaymetMethod
  | PaymentOp.expire _ => True

/-- The text of the pending rows of table `payments`, which an expiry pastes
back into its UPDATE statement, has no quote character. -/
def pendingTextSafe (w : World) : Prop :=
  ∀ r ∈ w.payments, r.status = "pending" →
    quoteFree r.currency ∧ quoteFree r.payment_method ∧ quoteFree r.task_id

/-- The world after a sequence of calls, one after the other. -/
def runOps (E : Env) : List PaymentOp → World → World
  | [], w => w
  | op :: ops, w => runOps E ops (op.apply E w)

/-- The terminal statuses the code writes. -/
def isTerminal (status : String) : Prop := status = "paid" ∨ status = "expired"

instance (status : String) : Decidable (isTerminal status) := by
  unfold isTerminal
  exact inferInstance

/-! ## Concrete inputs -/

/-- An environment in which nothing fails: every nonempty text is a
canonical UUID, the clock shows `1000 s` plus one nanosecond per operation,
the circuit is closed, and every HTTP reply is 200 with stock 5 and amount
150000. -/
def calmEnv : Env where
  uuidParse := fun s => if s = "" then none else some s
  uuidParse_canonical := by
    intro s k h
    by_cases hs : s = ""
    · simp [hs] at h
    · simp only [hs, if_false, Option.some.injEq] at h
      subst h
      simp [hs]
  TypeSetPaymentExpired := "payment:expired"
  fault := fun _ => false
  clock := fun n => 1000 * Second + n
  ready := fun _ => true
  http := fun _ =>
    HttpResp.resp 200 (Body.envelope (some ⟨some 5, some 1, some 150000, none, none, none⟩))
  uuid := fun n => "id-" ++ toString n

/-- An empty world. -/
def emptyWorld : World :=
  { payments := [], paymentSeq := 0, bookings := [], redis := [], published := [], tasks := [],
    step := 0, trace := [] }

/-- A request for one ticket of ticket detail 7 by user 42. -/
def sampleBookTicket : request.BookTicket :=
  { TicketDetailID := 7, TotalTickets := 1, UserID := 42, FullName := "Ann", PersonalID := "P1" }

/-- A world whose cache holds stock 0 for ticket detail 7. -/
def soldOutWorld : World := { emptyWorld with redis := [("7", "0")] }

/-- A world whose cache holds stock 5 for ticket detail 7 and in which user
42 holds a booking of two tickets. -/
def quotaWorld : World :=
  { emptyWorld with
    redis := [("7", "5")],
    bookings := [{ id := "b-1", user_id := 42, ticket_detail_id := 7, total_tickets := 2,
                   full_name := "Ann", personal_id := "P1", booking_date := 900 }] }

/-- The booking b-1 of user 42 for one ticket of ticket detail 7. -/
def sampleBookingRow : BookingRow :=
  { id := "b-1", user_id := 42, ticket_detail_id := 7, total_tickets := 1,
    full_name := "Ann", personal_id := "P1", booking_date := 900 }

/-- The payment of booking b-1 with the given status, expiring at second
950. -/
def samplePaymentRow (status : String) : PaymentRow :=
  { id := 1, booking_id := "b-1", amount := 150000, currency := "IDR", status := status,
    payment_method := "", payment_date := 900, payment_expiration := 950, task_id := "" }

/-- A world holding booking b-1 and its payment with the given status. -/
def paymentWorld (status : String) : World :=
  { emptyWorld with
    paymentSeq := 1,
    payments := [samplePaymentRow status],
    bookings := [sampleBookingRow] }

/-- A settlement request for booking b-1. -/
def samplePayment : request.Payment :=
  { BookingID := "b-1", TotalAmount := 150000, PaymetMethod := "card" }

/-- The expiry task payload of booking b-1. -/
def sampleExpiration : request.PaymentExpiration :=
  { BookingID := "b-1", TicketDetailID := 7, TotalTickets := 1 }

/-- The environment `calmEnv` with a clock that stays at the epoch. -/
def earlyEnv : Env := { calmEnv with clock := fun _ => 0 }

/-- The environment `calmEnv` with a clock that shows second 1000 during the
first ten operations and 45 minutes more afterwards: the booking upsert and
the amount inquiry of the first ConsumeBookTicketQueue run take 45
minutes. -/
def slowEnv : Env :=
  { calmEnv with clock := fun n => if n < 10 then 1000 * Second else 1000 * Second + 45 * Minute }

/-- The world after one of five tickets of ticket detail 7 was allocated to
booking b-1: the cache counter is 4, the payment is pending, and its expiry
task is in the scheduler. -/
def allocatedWorld : World :=
  { (paymentWorld "pending") with
    redis := [("7", "4")],
    tasks := [{ typename := "payment:expired", payload := sampleExpiration, maxRetry := 3,
                timeout := 50 * Second, processIn := none }] }

/-- The environment `calmEnv` in which operation `n`, and no other, fails. -/
def faultAt (n : Nat) : Env := { calmEnv with fault := fun k => k == n }

/-- The cache stock counter of a ticket detail: the integer under its key,
if there is one. -/
def stockCounter (tid : Int) (w : World) : Option Int :=
  (kvLookup (toString tid) w.redis).bind redisInt

/-- The seats held for a ticket detail: the sum of total_tickets over the
payments that are pending or paid and whose booking is for that ticket
detail. -/
def heldSeats (tid : Int) (w : World) : Int :=
  (((w.payments.filter fun p => p.status = "pending" ∨ p.status = "paid").filterMap
      fun p => findBooking p.booking_id w.bookings).filter
        fun b => b.ticket_detail_id = tid).foldl (fun n b => n + b.total_tickets) 0

/-- The bookings stored for a user. -/
def bookingsOfUser (u : Int) (w : World) : List BookingRow :=
  w.bookings.filter fun b => b.user_id = u

/-- The sum of total_tickets over the bookings stored for a user. -/
def ticketsOfUser (u : Int) (w : World) : Int :=
  (bookingsOfUser u w).foldl (fun n b => n + b.total_tickets) 0

/-- A call of one of the three use cases that the stock depends on. -/
inductive StockOp where
  | consume (payload : request.BookTicket)
  | payment (payload : request.Payment)
  | expire (payload : request.PaymentExpiration)
  deriving DecidableEq, Repr

/-- The world after one call, whatever it returns. -/
def StockOp.apply (E : Env) : StockOp → World → World
  | StockOp.consume payload, w => (ConsumeBookTicketQueue E payload w).2
  | StockOp.payment payload, w => (Payment E payload w).2
  | StockOp.expire payload, w => (SetPaymentExpired E payload w).2

/-- The world after a sequence of calls, one after the other. -/
def runStockOps (E : Env) : List StockOp → World → World
  | [], w => w
  | op :: ops, w => runStockOps E ops (op.apply E w)

/-- The world after ConsumeBookTicketQueue has handled each book_ticket
message of the list, oldest first. -/
def consumeMessages (E : Env) : List Message → World → World
  | [], w => w
  | m :: ms, w =>
    match m.payload with
    | Payload.bookTicket payload =>
      if m.topic = "book_ticket" then
        consumeMessages E ms (ConsumeBookTicketQueue E payload w).2
      else consumeMessages E ms w
    | _ => consumeMessages E ms w

/-- The world after one BookTicket call followed by the ConsumeBookTicketQueue
call for the message it published, if it published one. -/
def bookAndConsume (E : Env) (payload : request.BookTicket) (userID : Int) (w : World) :
    World :=
  consumeMessages E ((BookTicket E payload userID w).2.published.drop w.published.length)
    (BookTicket E payload userID w).2

/-- The world after a sequence of BookTicket calls, each followed by its
ConsumeBookTicketQueue call. -/
def runBookings (E : Env) : List (request.BookTicket × Int) → World → World
  | [], w => w
  | (payload, userID) :: rest, w => runBookings E rest (bookAndConsume E payload userID w)

/-- A world whose cache holds stock 5 for ticket detail 7. -/
def stockWorld : World := { emptyWorld with redis := [("7", "5")] }

/-- The environment `calmEnv` in which every HTTP reply has status 201
(Created) instead of 200, with the same body, a token being valid for user
42. -/
def createdEnv : Env :=
  { calmEnv with
    http := fun _ =>
      HttpResp.resp 201
        (Body.envelope
          (some ⟨some 5, some 1, some 150000, some true, some 42, some "ann@example.org"⟩)) }

/-- The environment `calmEnv` in which every HTTP reply is 200 and also
tells that the token is valid for user 42. -/
def okEnv : Env :=
  { calmEnv with
    http := fun _ =>
      HttpResp.resp 200
        (Body.envelope
          (some ⟨some 5, some 1, some 150000, some true, some 42, some "ann@example.org"⟩)) }

/-- The booking ConsumeBookTicketQueue builds for `sampleBookTicket`: its ID
is empty. -/
def sampleBooking : entity.Booking :=
  { ID := "", UserID := 42, TicketDetailID := 7, TotalTickets := 1, FullName := "Ann",
    PersonalID := "P1", BookingDate := 900 * Second }

/-- The world `paymentWorld "pending"` in which booking b-1 is for two
tickets. -/
def pairWorld : World :=
  { (paymentWorld "pending") with bookings := [{ sampleBookingRow with total_tickets := 2 }] }

/-- A settlement request for booking b-1 with a negative amount. -/
def oddPayment : request.Payment :=
  { BookingID := "b-1", TotalAmount := -5, PaymetMethod := "card" }

/-! # Lemmas and theorems -/

@[simp] theorem M.bind_apply {α β : Type} (m : M α) (f : α → M β) (w : World) :
    (m >>= f) w = match m w with
      | (Res.ok a, w1) => f a w1
      | (Res.error e, w1) => (Res.error e, w1)
      | (Res.panic s, w1) => (Res.panic s, w1) := rfl

@[simp] theorem M.pure_apply {α : Type} (a : α) (w : World) :
    (Pure.pure a : M α) w = (Res.ok a, w) := rfl

@[simp] theorem M.fail_apply {α : Type} (e : Err) (w : World) :
    (M.fail e : M α) w = (Res.error e, w) := rfl

@[simp] theorem M.crash_apply {α : Type} (s : String) (w : World) :
    (M.crash s : M α) w = (Res.panic s, w) := rfl

@[simp] theorem M.orFail_apply {α : Type} (m : M α) (e : Err) (w : World) :
    M.orFail m e w = match m w with
      | (Res.ok a, w1) => (Res.ok a, w1)
      | (Res.error _, w1) => (Res.error e, w1)
      | (Res.panic s, w1) => (Res.panic s, w1) := by
  unfold M.orFail
  generalize m w = r
  rcases r with ⟨a | e1 | s, w1⟩ <;> rfl

@[simp] theorem M.ignoreErr_apply (m : M Unit) (w : World) :
    M.ignoreErr m w = match m w with
      | (Res.ok a, w1) => (Res.ok a, w1)
      | (Res.error _, w1) => (Res.ok (), w1)
      | (Res.panic s, w1) => (Res.panic s, w1) := by
  unfold M.ignoreErr
  generalize m w = r
  rcases r with ⟨a | e1 | s, w1⟩ <;> rfl

@[simp] theorem M.ite_apply {α : Type} (c : Prop) [Decidable c] (a b : M α) (w : World) :
    (if c then a else b) w = if c then a w else b w := by
  split <;> rfl

@[simp] theorem M.attempt_apply {α : Type} (m : M α) (w : World) :
    M.attempt m w = match m w with
      | (Res.ok a, w1) => (Res.ok (Except.ok a), w1)
      | (Res.error e, w1) => (Res.ok (Except.error e), w1)
      | (Res.panic s, w1) => (Res.panic s, w1) := rfl

@[simp] theorem getWorld_apply (w : World) : getWorld w = (Res.ok w, w) := rfl

@[simp] theorem modifyWorld_apply (f : World → World) (w : World) :
    modifyWorld f w = (Res.ok (), f w) := rfl

@[simp] theorem logCall_apply (c : Call) (w : World) :
    logCall c w = (Res.ok (), { w with trace := w.trace ++ [c] }) := rfl

@[simp] theorem opFails_apply (E : Env) (w : World) :
    opFails E w = (Res.ok (E.fault w.step), { w with step := w.step + 1 }) := rfl

@[simp] theorem timeNow_apply (E : Env) (w : World) :
    timeNow E w = (Res.ok (E.clock w.step), { w with step := w.step + 1 }) := rfl

@[simp] theorem cbReady_apply (E : Env) (w : World) :
    cbReady E w = (Res.ok (E.ready w.step), { w with step := w.step + 1 }) := rfl

@[simp] theorem httpDo_apply (E : Env) (w : World) :
    httpDo E w = (Res.ok (E.http w.step), { w with step := w.step + 1 }) := rfl

@[simp] theorem newUUID_apply (E : Env) (w : World) :
    newUUID E w = (Res.ok (E.uuid w.step), { w with step := w.step + 1 }) := rfl
/-- Every way a computation is applied to a world, for `simp only`. -/
theorem M.run :
    (∀ {α β : Type} (m : M α) (f : α → M β) (w : World), (m >>= f) w = match m w with
      | (Res.ok a, w1) => f a w1
      | (Res.error e, w1) => (Res.error e, w1)
      | (Res.panic s, w1) => (Res.panic s, w1)) ∧
    (∀ {α : Type} (a : α) (w : World), (Pure.pure a : M α) w = (Res.ok a, w)) ∧
    (∀ {α : Type} (e : Err) (w : World), (M.fail e : M α) w = (Res.error e, w)) ∧
    (∀ {α : Type} (s : String) (w : World), (M.crash s : M α) w = (Res.panic s, w)) ∧
    (∀ {α : Type} (m : M α) (e : Err) (w : World), M.orFail m e w = match m w with
      | (Res.ok a, w1) => (Res.ok a, w1)
      | (Res.error _, w1) => (Res.error e, w1)
      | (Res.panic s, w1) => (Res.panic s, w1)) ∧
    (∀ (m : M Unit) (w : World), M.ignoreErr m w = match m w with
      | (Res.ok a, w1) => (Res.ok a, w1)
      | (Res.error _, w1) => (Res.ok (), w1)
      | (Res.panic s, w1) => (Res.panic s, w1)) ∧
    (∀ {α : Type} (m : M α) (w : World), M.attempt m w = match m w with
      | (Res.ok a, w1) => (Res.ok (Except.ok a), w1)
      | (Res.error e, w1) => (Res.ok (Except.error e), w1)
      | (Res.panic s, w1) => (Res.panic s, w1)) ∧
    (∀ {α : Type} (c : Prop) [Decidable c] (a b : M α) (w : World),
      (if c then a else b) w = if c then a w else b w) ∧
    (∀ (w : World), getWorld w = (Res.ok w, w)) ∧
    (∀ (f : World → World) (w : World), modifyWorld f w = (Res.ok (), f w)) ∧
    (∀ (c : Call) (w : World), logCall c w = (Res.ok (), { w with trace := w.trace ++ [c] })) ∧
    (∀ (E : Env) (w : World),
      opFails E w = (Res.ok (E.fault w.step), { w with step := w.step + 1 })) ∧
    (∀ (E : Env) (w : World),
      timeNow E w = (Res.ok (E.clock w.step), { w with step := w.step + 1 })) ∧
    (∀ (E : Env) (w : World),
      cbReady E w = (Res.ok (E.ready w.step), { w with step := w.step + 1 })) ∧
    (∀ (E : Env) (w : World),
      httpDo E w = (Res.ok (E.http w.step), { w with step := w.step + 1 })) ∧
    (∀ (E : Env) (w : World),
      newUUID E w = (Res.ok (E.uuid w.step), { w with step := w.step + 1 })) :=
  ⟨M.bind_apply, M.pure_apply, M.fail_apply, M.crash_apply, M.orFail_apply, M.ignoreErr_apply,
    M.attempt_apply, M.ite_apply, getWorld_apply, modifyWorld_apply, logCall_apply, opFails_apply,
    timeNow_apply, cbReady_apply, httpDo_apply, newUUID_apply⟩

/-! ### Frame rules -/

theorem M.keeps_pure {α β : Type} (f : World → β) (a : α) : M.keeps f (pure a : M α) :=
  ⟨fun _ => rfl⟩

theorem M.keeps_fail {α β : Type} (f : World → β) (e : Err) : M.keeps f (M.fail e : M α) :=
  ⟨fun _ => rfl⟩

theorem M.keeps_crash {α β : Type} (f : World → β) (s : String) :
    M.keeps f (M.crash s : M α) :=
  ⟨fun _ => rfl⟩

theorem M.keeps_bind {α β γ : Type} (f : World → γ) (m : M α) (g : α → M β)
    (hm : M.keeps f m) (hg : ∀ a, M.keeps f (g a)) : M.keeps f (m >>= g) := by
  constructor
  intro w
  have h1 := hm.same w
  simp only [M.bind_apply]
  rcases hmw : m w with ⟨a | e | s, w1⟩ <;> rw [hmw] at h1 <;> simp only
  · rw [(hg a).same w1]; exact h1
  · exact h1
  · exact h1

theorem M.keeps_orFail {α β : Type} (f : World → β) (m : M α) (e : Err)
    (hm : M.keeps f m) : M.keeps f (M.orFail m e) := by
  constructor
  intro w
  have h1 := hm.same w
  simp only [M.orFail_apply]
  rcases hmw : m w with ⟨a | e | s, w1⟩ <;> rw [hmw] at h1 <;> exact h1

theorem M.keeps_ignoreErr {β : Type} (f : World → β) (m : M Unit)
    (hm : M.keeps f m) : M.keeps f (M.ignoreErr m) := by
  constructor
  intro w
  have h1 := hm.same w
  simp only [M.ignoreErr_apply]
  rcases hmw : m w with ⟨a | e | s, w1⟩ <;> rw [hmw] at h1 <;> exact h1

theorem M.keeps_attempt {α β : Type} (f : World → β) (m : M α)
    (hm : M.keeps f m) : M.keeps f (M.attempt m) := by
  constructor
  intro w
  have h1 := hm.same w
  simp only [M.attempt_apply]
  rcases hmw : m w with ⟨a | e | s, w1⟩ <;> rw [hmw] at h1 <;> exact h1

theorem M.keeps_ite {α β : Type} (f : World → β) (c : Prop) [Decidable c] (a b : M α)
    (ha : M.keeps f a) (hb : M.keeps f b) : M.keeps f (if c then a else b) := by
  split
  · exact ha
  · exact hb

theorem keeps_getWorld {β : Type} (f : World → β) : M.keeps f getWorld := ⟨fun _ => rfl⟩

theorem keeps_modifyWorld {β : Type} (f : World → β) (g : World → World)
    (h : ∀ w, f (g w) = f w) : M.keeps f (modifyWorld g) := ⟨fun w => h w⟩

theorem keeps_logCall {β : Type} (f : World → β) (hf : IgnoresTrace f) (c : Call) :
    M.keeps f (logCall c) := ⟨fun w => hf w _⟩

theorem keeps_opFails {β : Type} (f : World → β) (hf : IgnoresStep f) (E : Env) :
    M.keeps f (opFails E) := ⟨fun w => hf w _⟩

theorem keeps_timeNow {β : Type} (f : World → β) (hf : IgnoresStep f) (E : Env) :
    M.keeps f (timeNow E) := ⟨fun w => hf w _⟩

theorem keeps_cbReady {β : Type} (f : World → β) (hf : IgnoresStep f) (E : Env) :
    M.keeps f (cbReady E) := ⟨fun w => hf w _⟩

theorem keeps_httpDo {β : Type} (f : World → β) (hf : IgnoresStep f) (E : Env) :
    M.keeps f (httpDo E) := ⟨fun w => hf w _⟩

theorem keeps_newUUID {β : Type} (f : World → β) (hf : IgnoresStep f) (E : Env) :
    M.keeps f (newUUID E) := ⟨fun w => hf w _⟩

theorem keeps_stockLookup {β : Type} (f : World → β) (hf : IgnoresStep f) (E : Env) :
    M.keeps f (stockLookup E) := by
  unfold stockLookup
  repeat' first
    | exact keeps_cbReady f hf E
    | exact keeps_httpDo f hf E
    | split
    | apply M.keeps_bind
    | apply M.keeps_fail
    | apply M.keeps_crash
    | apply M.keeps_pure
    | intro _

theorem keeps_rollbackThen {α β : Type} (f : World → β) (hs : IgnoresStep f) (E : Env)
    (e : Err) : M.keeps f (rollbackThen E e : M α) := by
  unfold rollbackThen
  repeat' first
    | exact keeps_opFails f hs E
    | split
    | apply M.keeps_bind
    | apply M.keeps_fail
    | intro _

theorem keeps_redisGet {β : Type} (f : World → β) (hs : IgnoresStep f) (E : Env)
    (key : String) : M.keeps f (redisGet E key) := by
  unfold redisGet
  repeat' first
    | exact keeps_getWorld f
    | exact keeps_opFails f hs E
    | split
    | apply M.keeps_bind
    | apply M.keeps_fail
    | apply M.keeps_pure
    | intro _

theorem keeps_redisSet {β : Type} (f : World → β) (hs : IgnoresStep f) (hr : IgnoresRedis f)
    (E : Env) (key val : String) : M.keeps f (redisSet E key val) := by
  unfold redisSet
  repeat' first
    | exact keeps_opFails f hs E
    | exact keeps_modifyWorld f _ (fun w => hr w _)
    | split
    | apply M.keeps_bind
    | apply M.keeps_fail
    | intro _

theorem keeps_redisAdd {β : Type} (f : World → β) (hs : IgnoresStep f) (hr : IgnoresRedis f)
    (E : Env) (key : String) (delta : Int) : M.keeps f (redisAdd E key delta) := by
  unfold redisAdd
  repeat' first
    | exact keeps_getWorld f
    | exact keeps_opFails f hs E
    | exact keeps_modifyWorld f _ (fun w => hr w _)
    | split
    | apply M.keeps_bind
    | apply M.keeps_fail
    | apply M.keeps_pure
    | intro _
    | dsimp only

theorem keeps_Enqueue {β : Type} (f : World → β) (hs : IgnoresStep f) (ht : IgnoresTasks f)
    (E : Env) (task : Task) : M.keeps f (Enqueue E task) := by
  unfold Enqueue
  repeat' first
    | exact keeps_opFails f hs E
    | exact keeps_newUUID f hs E
    | exact keeps_modifyWorld f _ (fun w => ht w _)
    | split
    | apply M.keeps_bind
    | apply M.keeps_fail
    | apply M.keeps_pure
    | intro _

theorem keeps_Publish {β : Type} (f : World → β) (hs : IgnoresStep f)
    (hp : IgnoresPublished f) (E : Env) (topic uuid : String) (payload : Payload) :
    M.keeps f (Publish E topic uuid payload) := by
  unfold Publish
  repeat' first
    | exact keeps_opFails f hs E
    | exact keeps_modifyWorld f _ (fun w => hp w _)
    | split
    | apply M.keeps_bind
    | apply M.keeps_fail
    | intro _

theorem keeps_DurationCalculation {β : Type} (f : World → β) (hs : IgnoresStep f) (E : Env)
    (t : Time) : M.keeps f (DurationCalculation E t) := by
  unfold DurationCalculation
  repeat' first
    | exact keeps_timeNow f hs E
    | apply M.keeps_bind
    | apply M.keeps_pure
    | intro _

/-- A method that records its call and then leaves `f` alone. -/
theorem frame_of_logCall {α β : Type} (f : World → β) (c : Call) (rest : M α)
    (h : M.keeps f rest) (w : World) :
    f ((logCall c >>= fun _ => rest) w).2 = f { w with trace := w.trace ++ [c] } := by
  simp only [M.bind_apply, logCall_apply]
  exact h.same _

theorem CheckStockTicket_frame {β : Type} (f : World → β) (hs : IgnoresStep f)
    (hr : IgnoresRedis f) (E : Env) (tid : Int) (w : World) :
    f (CheckStockTicket E tid w).2 =
      f { w with trace := w.trace ++ [Call.CheckStockTicket tid] } := by
  unfold CheckStockTicket
  apply frame_of_logCall
  repeat' first
    | exact keeps_redisGet f hs E _
    | exact keeps_redisSet f hs hr E _ _
    | exact keeps_stockLookup f hs E
    | split
    | apply M.keeps_bind
    | apply M.keeps_orFail
    | apply M.keeps_attempt
    | apply M.keeps_fail
    | apply M.keeps_pure
    | intro _
    | dsimp only

theorem DecrementStockTicket_frame {β : Type} (f : World → β) (hs : IgnoresStep f)
    (hr : IgnoresRedis f) (E : Env) (tid : Int) (w : World) :
    f (DecrementStockTicket E tid w).2 =
      f { w with trace := w.trace ++ [Call.DecrementStockTicket tid] } := by
  unfold DecrementStockTicket
  apply frame_of_logCall
  repeat' first
    | exact keeps_redisAdd f hs hr E _ _
    | apply M.keeps_bind
    | apply M.keeps_orFail
    | apply M.keeps_pure
    | intro _

theorem InquiryTicketAmount_frame {β : Type} (f : World → β) (hs : IgnoresStep f)
    (E : Env) (tid n : Int) (w : World) :
    f (InquiryTicketAmount E tid n w).2 =
      f { w with trace := w.trace ++ [Call.InquiryTicketAmount tid n] } := by
  unfold InquiryTicketAmount
  apply frame_of_logCall
  repeat' first
    | exact keeps_cbReady f hs E
    | exact keeps_httpDo f hs E
    | split
    | apply M.keeps_bind
    | apply M.keeps_fail
    | apply M.keeps_crash
    | apply M.keeps_pure
    | intro _

theorem FindBookingByID_frame {β : Type} (f : World → β) (hs : IgnoresStep f)
    (E : Env) (id : String) (w : World) :
    f (FindBookingByID E id w).2 = f { w with trace := w.trace ++ [Call.FindBookingByID id] } := by
  unfold FindBookingByID
  apply frame_of_logCall
  repeat' first
    | exact keeps_getWorld f
    | exact keeps_opFails f hs E
    | split
    | apply M.keeps_bind
    | apply M.keeps_fail
    | apply M.keeps_pure
    | intro _

theorem FindBookingByUserID_frame {β : Type} (f : World → β) (hs : IgnoresStep f)
    (E : Env) (u : Int) (w : World) :
    f (FindBookingByUserID E u w).2 =
      f { w with trace := w.trace ++ [Call.FindBookingByUserID u] } := by
  unfold FindBookingByUserID
  apply frame_of_logCall
  repeat' first
    | exact keeps_getWorld f
    | exact keeps_opFails f hs E
    | split
    | apply M.keeps_bind
    | apply M.keeps_fail
    | apply M.keeps_pure
    | intro _

theorem FindPaymentByBookingID_frame {β : Type} (f : World → β) (hs : IgnoresStep f)
    (E : Env) (id : String) (w : World) :
    f (FindPaymentByBookingID E id w).2 =
      f { w with trace := w.trace ++ [Call.FindPaymentByBookingID id] } := by
  unfold FindPaymentByBookingID
  apply frame_of_logCall
  repeat' first
    | exact keeps_getWorld f
    | exact keeps_opFails f hs E
    | split
    | apply M.keeps_bind
    | apply M.keeps_fail
    | apply M.keeps_crash
    | apply M.keeps_pure
    | intro _

theorem UpsertBooking_frame {β : Type} (f : World → β) (hs : IgnoresStep f)
    (hb : IgnoresBookings f) (E : Env) (b : entity.Booking) (w : World) :
    f (UpsertBooking E b w).2 = f { w with trace := w.trace ++ [Call.UpsertBooking b] } := by
  unfold UpsertBooking
  apply frame_of_logCall
  repeat' first
    | exact keeps_getWorld f
    | exact keeps_opFails f hs E
    | exact keeps_newUUID f hs E
    | exact keeps_rollbackThen f hs E _
    | exact keeps_modifyWorld f _ (fun w => hb w _)
    | split
    | apply M.keeps_bind
    | apply M.keeps_fail
    | apply M.keeps_pure
    | intro _
    | dsimp only

theorem UpsertPayment_frame {β : Type} (f : World → β) (hs : IgnoresStep f)
    (hp : IgnoresPayments f) (hq : IgnoresPaymentSeq f) (E : Env) (p : entity.Payment)
    (w : World) :
    f (UpsertPayment E p w).2 = f { w with trace := w.trace ++ [Call.UpsertPayment p] } := by
  unfold UpsertPayment
  apply frame_of_logCall
  repeat' first
    | exact keeps_getWorld f
    | exact keeps_opFails f hs E
    | exact keeps_rollbackThen f hs E _
    | exact keeps_modifyWorld f _ (fun w => hp w _)
    | exact keeps_modifyWorld f _ (fun w => hq w _)
    | split
    | apply M.keeps_bind
    | apply M.keeps_fail
    | apply M.keeps_pure
    | intro _
    | dsimp only

theorem kvLookup_kvStore (key val : String) (kv : List (String × String)) :
    kvLookup key (kvStore key val kv) = some val := by
  induction kv with
  | nil => simp [kvStore, kvLookup]
  | cons p rest ih =>
    obtain ⟨k, v⟩ := p
    by_cases h : k = key
    · simp [kvStore, kvLookup, h]
    · simp [kvStore, kvLookup, h, ih]

/-- After a successful check the cache holds, under the key of the ticket
detail, the text of the stock that was returned. -/
theorem CheckStockTicket_ok_cached (E : Env) (tid : Int) (w w1 : World) (stock : Int)
    (h : CheckStockTicket E tid w = (Res.ok stock, w1)) :
    ∃ s, kvLookup (toString tid) w1.redis = some s ∧ ParseInt s = some stock := by
  have hmiss : ∀ w0 : World,
      ((do
        let data ← stockLookup E
        M.orFail (redisSet E (toString tid) data) (InternalServerError "error set stock ticket")
        match ParseInt data with
          | none => M.fail (InternalServerError "error parse stock ticket")
          | some dataInt => pure dataInt : M Int) w0) = (Res.ok stock, w1) →
      ∃ s, kvLookup (toString tid) w1.redis = some s ∧ ParseInt s = some stock := by
    intro w0 h0
    rcases hl : stockLookup E w0 with ⟨data | e | s, w2⟩ <;>
      simp only [M.run, hl, redisSet] at h0
    · cases hf : E.fault w2.step <;>
        simp only [hf, Bool.false_eq_true, if_true, if_false] at h0
      · cases hp : ParseInt data <;> simp only [hp, M.run, Prod.mk.injEq, Res.ok.injEq] at h0
        · exact absurd h0.1 (by simp)
        · obtain ⟨h1, h2⟩ := h0
          subst h2
          exact ⟨data, kvLookup_kvStore _ _ _, by rw [hp, h1]⟩
      · exact absurd (congrArg Prod.fst h0) (by simp)
    · exact absurd (congrArg Prod.fst h0) (by simp)
    · exact absurd (congrArg Prod.fst h0) (by simp)
  simp only [M.run] at hmiss
  cases h1 : E.fault w.step <;> cases h2 : kvLookup (toString tid) w.redis <;>
    simp only [CheckStockTicket, redisGet, M.run, h1, h2, Bool.false_eq_true, if_true, if_false] at h
  · exact hmiss _ h
  · rename_i v
    cases hp : ParseInt v <;> simp only [hp, M.run, Prod.mk.injEq, Res.ok.injEq] at h
    · exact absurd h.1 (by simp)
    · obtain ⟨h3, h4⟩ := h
      subst h4
      exact ⟨v, h2, by rw [hp, h3]⟩
  · exact hmiss _ h
  · exact hmiss _ h

/-- C1: if CheckStockTicket succeeds with stock <= 0, BookTicket returns the
BadRequest error "stock ticket is empty" and ConsumeBookTicketQueue returns
the same error, and both leave the world as CheckStockTicket left it: the
only repository call is CheckStockTicket (no decrement), the tables, the
scheduler and the bus are as before, and the cache still holds the stock
that was read. -/
theorem C1_empty_stock_is_rejected (E : Env) (payload : request.BookTicket) (userID : Int)
    (w w1 : World) (stock : Int)
    (hcheck : CheckStockTicket E payload.TicketDetailID w = (Res.ok stock, w1))
    (hstock : stock ≤ 0) :
    BookTicket E payload userID w = (Res.error (BadRequest "stock ticket is empty"), w1) ∧
    ConsumeBookTicketQueue E payload w = (Res.error (BadRequest "stock ticket is empty"), w1) ∧
    w1.trace = w.trace ++ [Call.CheckStockTicket payload.TicketDetailID] ∧
    w1.bookings = w.bookings ∧ w1.payments = w.payments ∧ w1.paymentSeq = w.paymentSeq ∧
    w1.tasks = w.tasks ∧ w1.published = w.published ∧
    ∃ s, kvLookup (toString payload.TicketDetailID) w1.redis = some s ∧
      ParseInt s = some stock := by
  have hw : (CheckStockTicket E payload.TicketDetailID w).2 = w1 := by rw [hcheck]
  refine ⟨?_, ?_, ?_, ?_, ?_, ?_, ?_, ?_, ?_⟩
  · simp only [BookTicket, M.run, hcheck, hstock, if_true]
  · simp only [ConsumeBookTicketQueue, M.run, hcheck, hstock, if_true]
  · rw [← hw]
    exact CheckStockTicket_frame World.trace (fun _ _ => rfl) (fun _ _ => rfl) E _ w
  · rw [← hw]
    exact CheckStockTicket_frame World.bookings (fun _ _ => rfl) (fun _ _ => rfl) E _ w
  · rw [← hw]
    exact CheckStockTicket_frame World.payments (fun _ _ => rfl) (fun _ _ => rfl) E _ w
  · rw [← hw]
    exact CheckStockTicket_frame World.paymentSeq (fun _ _ => rfl) (fun _ _ => rfl) E _ w
  · rw [← hw]
    exact CheckStockTicket_frame World.tasks (fun _ _ => rfl) (fun _ _ => rfl) E _ w
  · rw [← hw]
    exact CheckStockTicket_frame World.published (fun _ _ => rfl) (fun _ _ => rfl) E _ w
  · exact CheckStockTicket_ok_cached E _ w w1 stock hcheck

/-- C1 at a world whose cache holds stock 0 for ticket detail 7. -/
theorem C1_empty_stock_is_rejected_witness :
    CheckStockTicket calmEnv 7 soldOutWorld =
      (Res.ok 0, { soldOutWorld with step := 1, trace := [Call.CheckStockTicket 7] }) ∧
    BookTicket calmEnv sampleBookTicket 42 soldOutWorld =
      (Res.error (BadRequest "stock ticket is empty"),
        { soldOutWorld with step := 1, trace := [Call.CheckStockTicket 7] }) ∧
    ConsumeBookTicketQueue calmEnv sampleBookTicket soldOutWorld =
      (Res.error (BadRequest "stock ticket is empty"),
        { soldOutWorld with step := 1, trace := [Call.CheckStockTicket 7] }) :=
  have h := C1_empty_stock_is_rejected calmEnv sampleBookTicket 42 soldOutWorld
    { soldOutWorld with step := 1, trace := [Call.CheckStockTicket 7] } 0 (by rfl) (by decide)
  ⟨by rfl, h.1, h.2.1⟩

/-! ### Results of the repository methods -/

/-- A successful lookup returns the first row under the canonical key, or
the empty value. -/
theorem FindPaymentByBookingID_ok (E : Env) (id : String) (w w1 : World) (p : entity.Payment)
    (h : FindPaymentByBookingID E id w = (Res.ok p, w1)) :
    ∃ k, E.uuidParse id = some k ∧
      p = (match findPayment k w.payments with
            | none => emptyPayment
            | some r => r.toEntity) := by
  cases hk : E.uuidParse id <;> cases hf : E.fault w.step <;>
    simp only [FindPaymentByBookingID, M.run, hk, hf, Bool.false_eq_true, if_true, if_false] at h
  · exact absurd (congrArg Prod.fst h) (by simp)
  · exact absurd (congrArg Prod.fst h) (by simp)
  · rename_i k
    refine ⟨k, rfl, ?_⟩
    cases hr : findPayment k w.payments <;>
      simp only [hr, M.run, Prod.mk.injEq, Res.ok.injEq] at h ⊢
    · exact h.1.symm
    · exact h.1.symm
  · exact absurd (congrArg Prod.fst h) (by simp)

/-- Whatever its outcome, an upsert leaves table `payments` as it was or as
the committed statement makes it; the latter when it returns nil. -/
theorem UpsertPayment_payments (E : Env) (p : entity.Payment) (w : World) :
    ((UpsertPayment E p w).1 = Res.ok () ∧
      (UpsertPayment E p w).2.payments = upsertedPayments E p w) ∨
    ((UpsertPayment E p w).1 ≠ Res.ok () ∧ (UpsertPayment E p w).2.payments = w.payments) := by
  cases h1 : E.fault w.step <;> cases h2 : E.fault (w.step + 1) <;>
    cases h3 : E.fault (w.step + 1 + 1) <;> cases h4 : E.fault (w.step + 1 + 1 + 1) <;>
    cases hr : findPayment (canon E p.BookingID) w.payments <;>
    simp only [UpsertPayment, upsertedPayments, rollbackThen, M.run, h1, h2, h3, h4, hr,
      Bool.false_eq_true, if_true, if_false, ne_eq, not_true_eq_false, not_false_eq_true,
      and_self, and_false, false_and, or_false, false_or, true_and, reduceCtorEq]

/-- C2: if CheckStockTicket returns stock > 0 and FindBookingByUserID returns
a booking with TotalTickets >= 2, BookTicket returns the BadRequest error
"user already booked more than 2 tickets" in the world the two lookups
left, and the bus holds the messages it held before: nothing was
published. -/
theorem C2_quota_is_rejected (E : Env) (payload : request.BookTicket) (userID : Int)
    (w w1 w2 : World) (stock : Int) (booking : entity.Booking)
    (hcheck : CheckStockTicket E payload.TicketDetailID w = (Res.ok stock, w1))
    (hstock : 0 < stock)
    (hfind : FindBookingByUserID E userID w1 = (Res.ok booking, w2))
    (hquota : booking.TotalTickets ≥ 2) :
    BookTicket E payload userID w =
      (Res.error (BadRequest "user already booked more than 2 tickets"), w2) ∧
    w2.published = w.published ∧
    w2.trace = w.trace ++
      [Call.CheckStockTicket payload.TicketDetailID, Call.FindBookingByUserID userID] := by
  have hw1 : (CheckStockTicket E payload.TicketDetailID w).2 = w1 := by rw [hcheck]
  have hw2 : (FindBookingByUserID E userID w1).2 = w2 := by rw [hfind]
  refine ⟨?_, ?_, ?_⟩
  · simp only [BookTicket, M.run, hcheck, hfind, not_le.mpr hstock, hquota, if_true, if_false]
  · rw [← hw2, FindBookingByUserID_frame World.published (fun _ _ => rfl) E userID w1]
    show w1.published = w.published
    rw [← hw1]
    exact CheckStockTicket_frame World.published (fun _ _ => rfl) (fun _ _ => rfl) E _ w
  · rw [← hw2, FindBookingByUserID_frame World.trace (fun _ _ => rfl) E userID w1]
    show w1.trace ++ [Call.FindBookingByUserID userID] = _
    rw [← hw1, CheckStockTicket_frame World.trace (fun _ _ => rfl) (fun _ _ => rfl) E _ w]
    simp

/-- C2 at a world with stock 5 in which user 42 already holds two tickets. -/
theorem C2_quota_is_rejected_witness :
    BookTicket calmEnv sampleBookTicket 42 quotaWorld =
      (Res.error (BadRequest "user already booked more than 2 tickets"),
        { quotaWorld with
          step := 2, trace := [Call.CheckStockTicket 7, Call.FindBookingByUserID 42] }) ∧
    ({ quotaWorld with
        step := 2, trace := [Call.CheckStockTicket 7, Call.FindBookingByUserID 42] } : World).published
      = quotaWorld.published :=
  have h := C2_quota_is_rejected calmEnv sampleBookTicket 42 quotaWorld
    { quotaWorld with step := 1, trace := [Call.CheckStockTicket 7] }
    { quotaWorld with
        step := 2, trace := [Call.CheckStockTicket 7, Call.FindBookingByUserID 42] }
    5 ⟨"b-1", 42, 7, 2, "Ann", "P1", 900 * Second⟩ (by rfl) (by decide) (by rfl) (by decide)
  ⟨h.1, h.2.1⟩

/-- C3: when FindPaymentByBookingID returns the empty value (ID = 0), Payment
returns NotFound; when it returns a payment (ID not 0) whose status is not
"pending", Payment returns BadRequest; in both cases the world is the one
the lookup left: the lookup is the only repository call (no UpsertPayment),
and the bus and the tables are as before. -/
theorem C3_settlement_is_guarded (E : Env) (payload : request.Payment) (w w1 : World)
    (p : entity.Payment)
    (hfind : FindPaymentByBookingID E payload.BookingID w = (Res.ok p, w1)) :
    (p.ID = 0 → Payment E payload w = (Res.error (NotFound "payment not found"), w1)) ∧
    (p.ID ≠ 0 → p.Status ≠ "pending" →
      Payment E payload w = (Res.error (BadRequest "payment already paid / expired"), w1)) ∧
    w1.trace = w.trace ++ [Call.FindPaymentByBookingID payload.BookingID] ∧
    w1.published = w.published ∧ w1.payments = w.payments ∧ w1.paymentSeq = w.paymentSeq ∧
    w1.bookings = w.bookings ∧ w1.redis = w.redis ∧ w1.tasks = w.tasks := by
  have hw : (FindPaymentByBookingID E payload.BookingID w).2 = w1 := by rw [hfind]
  refine ⟨?_, ?_, ?_, ?_, ?_, ?_, ?_, ?_, ?_⟩
  · intro h0
    simp only [Payment, M.run, hfind, h0, if_true]
  · intro h0 hs
    simp only [Payment, M.run, hfind, h0, hs, ne_eq, not_false_eq_true, if_true, if_false]
  · rw [← hw]; exact FindPaymentByBookingID_frame World.trace (fun _ _ => rfl) E _ w
  · rw [← hw]; exact FindPaymentByBookingID_frame World.published (fun _ _ => rfl) E _ w
  · rw [← hw]; exact FindPaymentByBookingID_frame World.payments (fun _ _ => rfl) E _ w
  · rw [← hw]; exact FindPaymentByBookingID_frame World.paymentSeq (fun _ _ => rfl) E _ w
  · rw [← hw]; exact FindPaymentByBookingID_frame World.bookings (fun _ _ => rfl) E _ w
  · rw [← hw]; exact FindPaymentByBookingID_frame World.redis (fun _ _ => rfl) E _ w
  · rw [← hw]; exact FindPaymentByBookingID_frame World.tasks (fun _ _ => rfl) E _ w

/-- C3 at a world without payments (NotFound) and at a world whose payment of
booking b-1 is already paid (BadRequest). -/
theorem C3_settlement_is_guarded_witness :
    Payment calmEnv samplePayment emptyWorld =
      (Res.error (NotFound "payment not found"),
        { emptyWorld with step := 1, trace := [Call.FindPaymentByBookingID "b-1"] }) ∧
    Payment calmEnv samplePayment (paymentWorld "paid") =
      (Res.error (BadRequest "payment already paid / expired"),
        { (paymentWorld "paid") with step := 1, trace := [Call.FindPaymentByBookingID "b-1"] }) :=
  ⟨(C3_settlement_is_guarded calmEnv samplePayment emptyWorld
      { emptyWorld with step := 1, trace := [Call.FindPaymentByBookingID "b-1"] }
      emptyPayment (by rfl)).1 (by rfl),
   (C3_settlement_is_guarded calmEnv samplePayment (paymentWorld "paid")
      { (paymentWorld "paid") with step := 1, trace := [Call.FindPaymentByBookingID "b-1"] }
      (samplePaymentRow "paid").toEntity (by rfl)).2.1 (by decide) (by decide)⟩

/-! ### Rows -/

theorem formatTime_parseTime (s : Int) : formatTime (parseTime s) = s := by
  unfold formatTime parseTime Second
  exact Int.mul_ediv_cancel s (by decide)

theorem findPayment_key (k : String) (rows : List PaymentRow) (r : PaymentRow)
    (h : findPayment k rows = some r) : r.booking_id = k := by
  induction rows with
  | nil => simp [findPayment] at h
  | cons x rest ih =>
    by_cases hx : x.booking_id = k
    · simp only [findPayment, hx, if_true, Option.some.injEq] at h
      rw [← h]; exact hx
    · simp only [findPayment, hx, if_false] at h
      exact ih h

theorem findPayment_updatePayments_same (k : String) (p : entity.Payment)
    (rows : List PaymentRow) (r : PaymentRow) (h : findPayment k rows = some r) :
    findPayment k (updatePayments k p rows) =
      some { r with amount := p.Amount, currency := p.Currency, status := p.Status,
                    payment_method := p.PaymentMethod,
                    payment_date := formatTime p.PaymentDate,
                    payment_expiration := formatTime p.PaymentExpiration,
                    task_id := p.TaskID } := by
  induction rows with
  | nil => simp [findPayment] at h
  | cons x rest ih =>
    by_cases hx : x.booking_id = k
    · simp only [findPayment, hx, if_true, Option.some.injEq] at h
      subst h
      simp [updatePayments, findPayment, hx]
    · simp only [findPayment, hx, if_false] at h
      simp [updatePayments, findPayment, hx, ih h]

theorem findPayment_updatePayments_other (k k2 : String) (p : entity.Payment)
    (rows : List PaymentRow) (hk : k ≠ k2) :
    findPayment k (updatePayments k2 p rows) = findPayment k rows := by
  induction rows with
  | nil => rfl
  | cons x rest ih =>
    by_cases hx2 : x.booking_id = k2
    · have hx : x.booking_id ≠ k := by rw [hx2]; exact fun h => hk h.symm
      simp [updatePayments, findPayment, hx2, hx, ih, Ne.symm hk]
    · by_cases hx : x.booking_id = k
      · simp [updatePayments, findPayment, hx2, hx, hk]
      · simp [updatePayments, findPayment, hx2, hx, ih]

theorem findPayment_append (k : String) (rows more : List PaymentRow) (r : PaymentRow)
    (h : findPayment k rows = some r) : findPayment k (rows ++ more) = some r := by
  induction rows with
  | nil => simp [findPayment] at h
  | cons x rest ih =>
    by_cases hx : x.booking_id = k
    · simp only [findPayment, hx, if_true] at h
      simp only [List.cons_append, findPayment, hx, if_true, h]
    · simp only [findPayment, hx, if_false] at h
      simp only [List.cons_append, findPayment, hx, if_false]
      exact ih h

theorem canon_of_parse (E : Env) (s k : String) (h : E.uuidParse s = some k) :
    canon E s = k := by
  simp [canon, h]

theorem canon_canonical (E : Env) (s k : String) (h : E.uuidParse s = some k) :
    canon E k = k :=
  canon_of_parse E k k (E.uuidParse_canonical s k h)

/-! ### Frame rules for the repository methods, ignoring the trace -/

theorem keeps_FindBookingByID {β : Type} (f : World → β) (hs : IgnoresStep f)
    (ht : IgnoresTrace f) (E : Env) (id : String) : M.keeps f (FindBookingByID E id) :=
  ⟨fun w => (FindBookingByID_frame f hs E id w).trans (ht w _)⟩

theorem keeps_FindBookingByUserID {β : Type} (f : World → β) (hs : IgnoresStep f)
    (ht : IgnoresTrace f) (E : Env) (u : Int) : M.keeps f (FindBookingByUserID E u) :=
  ⟨fun w => (FindBookingByUserID_frame f hs E u w).trans (ht w _)⟩

theorem keeps_FindPaymentByBookingID {β : Type} (f : World → β) (hs : IgnoresStep f)
    (ht : IgnoresTrace f) (E : Env) (id : String) : M.keeps f (FindPaymentByBookingID E id) :=
  ⟨fun w => (FindPaymentByBookingID_frame f hs E id w).trans (ht w _)⟩

theorem keeps_CheckStockTicket {β : Type} (f : World → β) (hs : IgnoresStep f)
    (ht : IgnoresTrace f) (hr : IgnoresRedis f) (E : Env) (tid : Int) :
    M.keeps f (CheckStockTicket E tid) :=
  ⟨fun w => (CheckStockTicket_frame f hs hr E tid w).trans (ht w _)⟩

theorem keeps_DecrementStockTicket {β : Type} (f : World → β) (hs : IgnoresStep f)
    (ht : IgnoresTrace f) (hr : IgnoresRedis f) (E : Env) (tid : Int) :
    M.keeps f (DecrementStockTicket E tid) :=
  ⟨fun w => (DecrementStockTicket_frame f hs hr E tid w).trans (ht w _)⟩

theorem keeps_InquiryTicketAmount {β : Type} (f : World → β) (hs : IgnoresStep f)
    (ht : IgnoresTrace f) (E : Env) (tid n : Int) :
    M.keeps f (InquiryTicketAmount E tid n) :=
  ⟨fun w => (InquiryTicketAmount_frame f hs E tid n w).trans (ht w _)⟩

theorem keeps_UpsertBooking {β : Type} (f : World → β) (hs : IgnoresStep f)
    (ht : IgnoresTrace f) (hb : IgnoresBookings f) (E : Env) (b : entity.Booking) :
    M.keeps f (UpsertBooking E b) :=
  ⟨fun w => (UpsertBooking_frame f hs hb E b w).trans (ht w _)⟩

theorem keeps_UpsertPayment {β : Type} (f : World → β) (hs : IgnoresStep f)
    (ht : IgnoresTrace f) (hp : IgnoresPayments f) (hq : IgnoresPaymentSeq f) (E : Env)
    (p : entity.Payment) : M.keeps f (UpsertPayment E p) :=
  ⟨fun w => (UpsertPayment_frame f hs hp hq E p w).trans (ht w _)⟩

/-- A computation that appends `cs` to the trace, followed by one that
leaves the trace alone, appends `cs`. -/
theorem M.trace_bind {α β : Type} (m : M α) (g : α → M β) (cs : List Call)
    (hm : ∀ w, (m w).2.trace = w.trace ++ cs) (hg : ∀ a, M.keeps World.trace (g a))
    (w : World) : ((m >>= g) w).2.trace = w.trace ++ cs := by
  have h1 := hm w
  simp only [M.bind_apply]
  rcases hmw : m w with ⟨a | e | s, w1⟩ <;> rw [hmw] at h1 <;> simp only
  · rw [(hg a).same w1]; exact h1
  · exact h1
  · exact h1

theorem M.trace_orFail {α : Type} (m : M α) (e : Err) (cs : List Call)
    (hm : ∀ w, (m w).2.trace = w.trace ++ cs) (w : World) :
    (M.orFail m e w).2.trace = w.trace ++ cs := by
  have h1 := hm w
  simp only [M.orFail_apply]
  rcases hmw : m w with ⟨a | e | s, w1⟩ <;> rw [hmw] at h1 <;> exact h1

/-! ### The use case Payment -/

/-- The steps of Payment after the upsert: they change neither table
`payments` nor, beyond the call of FindBookingByID, the trace. -/
theorem Payment_after_upsert (E : Env) (payload : request.Payment) (w : World) :
    ((do
      let dataBooking ← M.orFail (FindBookingByID E payload.BookingID)
        (InternalServerError "error find booking by booking id")
      let messageUUID ← newUUID E
      M.orFail
        (Publish E "decrement_stock_ticket" messageUUID
          (Payload.stockTicket dataBooking.TicketDetailID 1))
        (InternalServerError "error publish decrement stock ticket")
      let notificationUUID ← newUUID E
      M.orFail
        (Publish E "notification" notificationUUID (Payload.text "your payment has been paid"))
        (InternalServerError "error publish notification") : M Unit) w).2.payments
      = w.payments ∧
    ((do
      let dataBooking ← M.orFail (FindBookingByID E payload.BookingID)
        (InternalServerError "error find booking by booking id")
      let messageUUID ← newUUID E
      M.orFail
        (Publish E "decrement_stock_ticket" messageUUID
          (Payload.stockTicket dataBooking.TicketDetailID 1))
        (InternalServerError "error publish decrement stock ticket")
      let notificationUUID ← newUUID E
      M.orFail
        (Publish E "notification" notificationUUID (Payload.text "your payment has been paid"))
        (InternalServerError "error publish notification") : M Unit) w).2.trace
      = w.trace ++ [Call.FindBookingByID payload.BookingID] := by
  constructor
  · refine M.keeps.same (f := World.payments) ?_ w
    repeat' first
      | exact keeps_FindBookingByID World.payments (fun _ _ => rfl) (fun _ _ => rfl) E _
      | exact keeps_newUUID World.payments (fun _ _ => rfl) E
      | exact keeps_Publish World.payments (fun _ _ => rfl) (fun _ _ => rfl) E _ _ _
      | apply M.keeps_bind
      | apply M.keeps_orFail
      | intro _
  · refine M.trace_bind _ _ _ (M.trace_orFail _ _ _ ?_) ?_ w
    · exact FindBookingByID_frame World.trace (fun _ _ => rfl) E payload.BookingID
    · intro b
      repeat' first
        | exact keeps_newUUID World.trace (fun _ _ => rfl) E
        | exact keeps_Publish World.trace (fun _ _ => rfl) (fun _ _ => rfl) E _ _ _
        | apply M.keeps_bind
        | apply M.keeps_orFail
        | intro _

/-- Payment on a pending payment: the lookup, one clock reading, then the
upsert and the steps after it. -/
theorem Payment_pending (E : Env) (payload : request.Payment) (w w1 : World)
    (p : entity.Payment)
    (hfind : FindPaymentByBookingID E payload.BookingID w = (Res.ok p, w1))
    (hid : p.ID ≠ 0) (hpending : p.Status = "pending") :
    Payment E payload w =
      (do
        M.orFail
          (UpsertPayment E
            { ID := 0, BookingID := payload.BookingID, Amount := payload.TotalAmount,
              Currency := "USD", Status := "paid", PaymentMethod := payload.PaymetMethod,
              PaymentDate := E.clock w1.step, PaymentExpiration := p.PaymentExpiration,
              TaskID := "" })
          (InternalServerError "error upsert payment")
        let dataBooking ← M.orFail (FindBookingByID E payload.BookingID)
          (InternalServerError "error find booking by booking id")
        let messageUUID ← newUUID E
        M.orFail
          (Publish E "decrement_stock_ticket" messageUUID
            (Payload.stockTicket dataBooking.TicketDetailID 1))
          (InternalServerError "error publish decrement stock ticket")
        let notificationUUID ← newUUID E
        M.orFail
          (Publish E "notification" notificationUUID
            (Payload.text "your payment has been paid"))
          (InternalServerError "error publish notification") : M Unit)
        { w1 with step := w1.step + 1 } := by
  simp only [Payment, M.run, hfind, hid, hpending, ne_eq, not_true_eq_false, if_false]

/-- C4, for a request whose payment method has no quote character: for a
settlement request on a booking whose stored payment is pending, Payment
calls UpsertPayment, right after the lookup, with a payment for the
request's booking_id, status "paid", the request's payment method and the
stored payment_expiration; and after a successful call the row of that
booking has status "paid", the request's method, and the payment_expiration
it had.  The method is pasted into the text of the UPDATE statement; with a
quote character in it the statement is another one, and the claim does not
hold of the code. -/
theorem C4_settlement_marks_paid (E : Env) (payload : request.Payment) (w w1 : World)
    (p : entity.Payment)
    (hfind : FindPaymentByBookingID E payload.BookingID w = (Res.ok p, w1))
    (hid : p.ID ≠ 0) (hpending : p.Status = "pending")
    (_hq : quoteFree payload.PaymetMethod) :
    (∃ rest, (Payment E payload w).2.trace =
      w.trace ++
        [Call.FindPaymentByBookingID payload.BookingID,
         Call.UpsertPayment
          { ID := 0, BookingID := payload.BookingID, Amount := payload.TotalAmount,
            Currency := "USD", Status := "paid", PaymentMethod := payload.PaymetMethod,
            PaymentDate := E.clock w1.step, PaymentExpiration := p.PaymentExpiration,
            TaskID := "" }] ++ rest) ∧
    (∀ w2, Payment E payload w = (Res.ok (), w2) →
      ∃ k r r2, E.uuidParse payload.BookingID = some k ∧
        findPayment k w.payments = some r ∧ p = r.toEntity ∧
        findPayment k w2.payments = some r2 ∧
        r2.status = "paid" ∧ r2.payment_method = payload.PaymetMethod ∧
        r2.payment_expiration = r.payment_expiration) := by
  have hw1 : (FindPaymentByBookingID E payload.BookingID w).2 = w1 := by rw [hfind]
  have ht1 : w1.trace = w.trace ++ [Call.FindPaymentByBookingID payload.BookingID] := by
    rw [← hw1]; exact FindPaymentByBookingID_frame World.trace (fun _ _ => rfl) E _ w
  have hp1 : w1.payments = w.payments := by
    rw [← hw1]; exact FindPaymentByBookingID_frame World.payments (fun _ _ => rfl) E _ w
  have hq1 : w1.paymentSeq = w.paymentSeq := by
    rw [← hw1]; exact FindPaymentByBookingID_frame World.paymentSeq (fun _ _ => rfl) E _ w
  obtain ⟨k, hk, hp⟩ := FindPaymentByBookingID_ok E _ w w1 p hfind
  -- the lookup found a row
  obtain ⟨r, hr⟩ : ∃ r, findPayment k w.payments = some r := by
    cases hr : findPayment k w.payments with
    | none => rw [hr] at hp; exact absurd (by rw [hp]; rfl) hid
    | some r => exact ⟨r, rfl⟩
  rw [hr] at hp
  simp only at hp
  rw [Payment_pending E payload w w1 p hfind hid hpending, M.bind_apply, M.orFail_apply]
  have htu := UpsertPayment_frame World.trace (fun _ _ => rfl) (fun _ _ => rfl)
    (fun _ _ => rfl) E
    { ID := 0, BookingID := payload.BookingID, Amount := payload.TotalAmount,
      Currency := "USD", Status := "paid", PaymentMethod := payload.PaymetMethod,
      PaymentDate := E.clock w1.step, PaymentExpiration := p.PaymentExpiration,
      TaskID := "" } { w1 with step := w1.step + 1 }
  have hpu := UpsertPayment_payments E
    { ID := 0, BookingID := payload.BookingID, Amount := payload.TotalAmount,
      Currency := "USD", Status := "paid", PaymentMethod := payload.PaymetMethod,
      PaymentDate := E.clock w1.step, PaymentExpiration := p.PaymentExpiration,
      TaskID := "" } { w1 with step := w1.step + 1 }
  rcases hu : UpsertPayment E
    { ID := 0, BookingID := payload.BookingID, Amount := payload.TotalAmount,
      Currency := "USD", Status := "paid", PaymentMethod := payload.PaymetMethod,
      PaymentDate := E.clock w1.step, PaymentExpiration := p.PaymentExpiration,
      TaskID := "" } { w1 with step := w1.step + 1 } with ⟨u | e | s, w3⟩ <;>
    rw [hu] at htu hpu <;> simp only at htu hpu ⊢
  · have htail := Payment_after_upsert E payload w3
    refine ⟨⟨[Call.FindBookingByID payload.BookingID], ?_⟩, ?_⟩
    · rw [htail.2, htu, ht1]; simp
    · intro w2 hrun
      have hw2 : w2.payments = w3.payments := by
        rw [← htail.1, hrun]
      rcases hpu with ⟨_, hpu⟩ | ⟨hne, _⟩
      · refine ⟨k, r,
          { r with amount := payload.TotalAmount, currency := "USD", status := "paid",
                   payment_method := payload.PaymetMethod,
                   payment_date := formatTime (E.clock w1.step),
                   payment_expiration := formatTime p.PaymentExpiration, task_id := "" },
          hk, hr, hp, ?_, ?_, ?_, ?_⟩
        · rw [hw2, hpu]
          simp only [upsertedPayments, canon_of_parse E _ k hk, hp1, hr]
          exact findPayment_updatePayments_same k _ w.payments r hr
        · rfl
        · rfl
        · show formatTime p.PaymentExpiration = r.payment_expiration
          rw [hp]; exact formatTime_parseTime _
      · exact absurd rfl hne
  · refine ⟨⟨[], ?_⟩, ?_⟩
    · rw [htu, ht1]; simp
    · intro w2 hrun
      exact absurd (congrArg Prod.fst hrun) (by simp)
  · refine ⟨⟨[], ?_⟩, ?_⟩
    · rw [htu, ht1]; simp
    · intro w2 hrun
      exact absurd (congrArg Prod.fst hrun) (by simp)

/-- C4 at the pending payment of booking b-1 and the method card, which has
no quote character: the lookup returns the payment, the upsert call follows
the lookup in the trace, and the run, which succeeds, leaves the row paid
with its expiration at second 950. -/
theorem C4_settlement_marks_paid_witness :
    FindPaymentByBookingID calmEnv samplePayment.BookingID (paymentWorld "pending") =
      (Res.ok (samplePaymentRow "pending").toEntity,
        { (paymentWorld "pending") with
          step := 1, trace := [Call.FindPaymentByBookingID "b-1"] }) ∧
    quoteFree samplePayment.PaymetMethod ∧
    (∃ rest, (Payment calmEnv samplePayment (paymentWorld "pending")).2.trace =
      [] ++
        [Call.FindPaymentByBookingID "b-1",
         Call.UpsertPayment
          { ID := 0, BookingID := "b-1", Amount := 150000, Currency := "USD", Status := "paid",
            PaymentMethod := "card", PaymentDate := calmEnv.clock 1,
            PaymentExpiration := 950 * Second, TaskID := "" }] ++ rest) ∧
    (Payment calmEnv samplePayment (paymentWorld "pending")).1 = Res.ok () ∧
    findPayment "b-1" (Payment calmEnv samplePayment (paymentWorld "pending")).2.payments =
      some { id := 1, booking_id := "b-1", amount := 150000, currency := "USD",
             status := "paid", payment_method := "card", payment_date := 1000,
             payment_expiration := 950, task_id := "" } :=
  ⟨by rfl, by decide,
   (C4_settlement_marks_paid calmEnv samplePayment (paymentWorld "pending")
      { (paymentWorld "pending") with step := 1, trace := [Call.FindPaymentByBookingID "b-1"] }
      (samplePaymentRow "pending").toEntity (by rfl) (by decide) (by rfl) (by decide)).1,
   by rfl, by rfl⟩

/-! ### The use case SetPaymentExpired -/

theorem Publish_ok (E : Env) (topic uuid : String) (payload : Payload) (w w1 : World)
    (h : Publish E topic uuid payload w = (Res.ok (), w1)) :
    w1 = { w with step := w.step + 1, published := w.published ++ [⟨topic, uuid, payload⟩] } := by
  cases hf : E.fault w.step <;>
    simp only [Publish, M.run, hf, Bool.false_eq_true, if_true, if_false, Prod.mk.injEq] at h
  · exact h.2.symm
  · exact absurd h.1 (by simp)

/-- C5: when the loaded payment is not "pending" (in particular when no row
exists and the lookup gives the empty value), SetPaymentExpired returns nil
in the world the lookup left; when it is "pending" but its
payment_expiration is not strictly before the clock reading, it returns nil
after that one reading. In every such case the lookup is the only
repository call (no UpsertPayment), and the bus and the tables are as
before. -/
theorem C5_expiry_guard_is_noop (E : Env) (payload : request.PaymentExpiration)
    (w w1 : World) (p : entity.Payment)
    (hfind : FindPaymentByBookingID E payload.BookingID w = (Res.ok p, w1)) :
    (p.Status ≠ "pending" → SetPaymentExpired E payload w = (Res.ok (), w1)) ∧
    (p = emptyPayment → SetPaymentExpired E payload w = (Res.ok (), w1)) ∧
    (p.Status = "pending" → ¬ p.PaymentExpiration < E.clock w1.step →
      SetPaymentExpired E payload w = (Res.ok (), { w1 with step := w1.step + 1 })) ∧
    w1.trace = w.trace ++ [Call.FindPaymentByBookingID payload.BookingID] ∧
    w1.published = w.published ∧ w1.payments = w.payments ∧ w1.paymentSeq = w.paymentSeq ∧
    w1.bookings = w.bookings ∧ w1.redis = w.redis ∧ w1.tasks = w.tasks := by
  have hw : (FindPaymentByBookingID E payload.BookingID w).2 = w1 := by rw [hfind]
  have hnot : p.Status ≠ "pending" → SetPaymentExpired E payload w = (Res.ok (), w1) := by
    intro hs
    simp only [SetPaymentExpired, M.run, hfind, hs, if_false]
  refine ⟨hnot, ?_, ?_, ?_, ?_, ?_, ?_, ?_, ?_, ?_⟩
  · intro he
    apply hnot
    rw [he]
    decide
  · intro hs hd
    simp only [SetPaymentExpired, M.run, hfind, hs, hd, if_true, if_false]
  · rw [← hw]; exact FindPaymentByBookingID_frame World.trace (fun _ _ => rfl) E _ w
  · rw [← hw]; exact FindPaymentByBookingID_frame World.published (fun _ _ => rfl) E _ w
  · rw [← hw]; exact FindPaymentByBookingID_frame World.payments (fun _ _ => rfl) E _ w
  · rw [← hw]; exact FindPaymentByBookingID_frame World.paymentSeq (fun _ _ => rfl) E _ w
  · rw [← hw]; exact FindPaymentByBookingID_frame World.bookings (fun _ _ => rfl) E _ w
  · rw [← hw]; exact FindPaymentByBookingID_frame World.redis (fun _ _ => rfl) E _ w
  · rw [← hw]; exact FindPaymentByBookingID_frame World.tasks (fun _ _ => rfl) E _ w

/-- C6: when the loaded payment is "pending", its payment_expiration is
strictly before the clock reading, the upsert succeeds and the publish
succeeds, SetPaymentExpired returns nil; the bus has received exactly one
more message, on topic increment_stock_ticket, carrying the payload's
ticket_detail_id and total_tickets; and the row of the booking is the row it
was with status "expired". -/
theorem C6_expiry_marks_expired (E : Env) (payload : request.PaymentExpiration)
    (w w1 w3 w5 : World) (p : entity.Payment)
    (hfind : FindPaymentByBookingID E payload.BookingID w = (Res.ok p, w1))
    (hpending : p.Status = "pending")
    (hdue : p.PaymentExpiration < E.clock w1.step)
    (hupsert : UpsertPayment E { p with Status := "expired" } { w1 with step := w1.step + 1 } =
      (Res.ok (), w3))
    (hpublish : Publish E "increment_stock_ticket" (E.uuid w3.step)
      (Payload.stockTicket payload.TicketDetailID payload.TotalTickets)
      { w3 with step := w3.step + 1 } = (Res.ok (), w5)) :
    SetPaymentExpired E payload w = (Res.ok (), w5) ∧
    w5.published = w.published ++
      [⟨"increment_stock_ticket", E.uuid w3.step,
        Payload.stockTicket payload.TicketDetailID payload.TotalTickets⟩] ∧
    ∃ k r, E.uuidParse payload.BookingID = some k ∧ findPayment k w.payments = some r ∧
      p = r.toEntity ∧ findPayment k w5.payments = some { r with status := "expired" } := by
  have hw1 : (FindPaymentByBookingID E payload.BookingID w).2 = w1 := by rw [hfind]
  have hp1 : w1.payments = w.payments := by
    rw [← hw1]; exact FindPaymentByBookingID_frame World.payments (fun _ _ => rfl) E _ w
  have hb1 : w1.published = w.published := by
    rw [← hw1]; exact FindPaymentByBookingID_frame World.published (fun _ _ => rfl) E _ w
  have hw3 : (UpsertPayment E { p with Status := "expired" }
      { w1 with step := w1.step + 1 }).2 = w3 := by rw [hupsert]
  have hb3 : w3.published = w1.published := by
    rw [← hw3]
    exact UpsertPayment_frame World.published (fun _ _ => rfl) (fun _ _ => rfl)
      (fun _ _ => rfl) E _ _
  have hp3 : w3.payments
      = upsertedPayments E { p with Status := "expired" } { w1 with step := w1.step + 1 } := by
    rcases UpsertPayment_payments E { p with Status := "expired" }
      { w1 with step := w1.step + 1 } with ⟨_, h⟩ | ⟨hne, _⟩
    · rw [← hw3]; exact h
    · rw [hupsert] at hne; exact absurd rfl hne
  have hw5 := Publish_ok E _ _ _ _ _ hpublish
  refine ⟨?_, ?_, ?_⟩
  · simp only [SetPaymentExpired, M.run, hfind, hpending, hdue, if_true, hupsert, hpublish]
  · rw [hw5]
    show w3.published ++ _ = _
    rw [hb3, hb1]
  · obtain ⟨k, hk, hp⟩ := FindPaymentByBookingID_ok E _ w w1 p hfind
    obtain ⟨r, hr⟩ : ∃ r, findPayment k w.payments = some r := by
      cases hr : findPayment k w.payments with
      | none =>
        rw [hr] at hp
        exact absurd (by rw [hp]; rfl) (show p.Status ≠ "" by rw [hpending]; decide)
      | some r => exact ⟨r, rfl⟩
    rw [hr] at hp
    simp only at hp
    have hkey : canon E p.BookingID = k := by
      rw [hp]
      show canon E r.booking_id = k
      rw [findPayment_key k _ r hr]
      exact canon_canonical E _ k hk
    refine ⟨k, r, hk, hr, hp, ?_⟩
    rw [hw5]
    show findPayment k w3.payments = _
    rw [hp3]
    simp only [upsertedPayments, hkey, hp1, hr]
    rw [findPayment_updatePayments_same k _ w.payments r hr, hp]
    simp only [PaymentRow.toEntity, formatTime_parseTime]

/-- C5 at a world without payments, at a world whose payment of booking b-1
is paid, and at the pending payment of booking b-1 under a clock that has
not reached its expiration: each run returns nil and changes only the step
counter and the trace. -/
theorem C5_expiry_guard_is_noop_witness :
    SetPaymentExpired calmEnv sampleExpiration emptyWorld =
      (Res.ok (),
        { emptyWorld with step := 1, trace := [Call.FindPaymentByBookingID "b-1"] }) ∧
    SetPaymentExpired calmEnv sampleExpiration (paymentWorld "paid") =
      (Res.ok (),
        { (paymentWorld "paid") with
          step := 1, trace := [Call.FindPaymentByBookingID "b-1"] }) ∧
    SetPaymentExpired earlyEnv sampleExpiration (paymentWorld "pending") =
      (Res.ok (),
        { (paymentWorld "pending") with
          step := 2, trace := [Call.FindPaymentByBookingID "b-1"] }) :=
  ⟨(C5_expiry_guard_is_noop calmEnv sampleExpiration emptyWorld
      { emptyWorld with step := 1, trace := [Call.FindPaymentByBookingID "b-1"] }
      emptyPayment (by rfl)).2.1 rfl,
   (C5_expiry_guard_is_noop calmEnv sampleExpiration (paymentWorld "paid")
      { (paymentWorld "paid") with step := 1, trace := [Call.FindPaymentByBookingID "b-1"] }
      (samplePaymentRow "paid").toEntity (by rfl)).1 (by decide),
   (C5_expiry_guard_is_noop earlyEnv sampleExpiration (paymentWorld "pending")
      { (paymentWorld "pending") with step := 1, trace := [Call.FindPaymentByBookingID "b-1"] }
      (samplePaymentRow "pending").toEntity (by rfl)).2.2.1 (by rfl) (by decide)⟩

/-- C6 at the pending payment of booking b-1, whose expiration (second 950)
is before the clock (second 1000): the run returns nil, the row is expired,
and the bus holds the one message increment_stock_ticket for ticket detail
7 and one ticket. -/
theorem C6_expiry_marks_expired_witness :
    SetPaymentExpired calmEnv sampleExpiration (paymentWorld "pending") =
      (Res.ok (),
        { (paymentWorld "pending") with
          payments := [samplePaymentRow "expired"],
          published := [⟨"increment_stock_ticket", "id-6", Payload.stockTicket 7 1⟩],
          step := 8,
          trace := [Call.FindPaymentByBookingID "b-1",
            Call.UpsertPayment
              { (samplePaymentRow "pending").toEntity with Status := "expired" }] }) ∧
    (samplePaymentRow "pending").toEntity.PaymentExpiration < calmEnv.clock 1 :=
  ⟨(C6_expiry_marks_expired calmEnv sampleExpiration (paymentWorld "pending")
      { (paymentWorld "pending") with step := 1, trace := [Call.FindPaymentByBookingID "b-1"] }
      { (paymentWorld "pending") with
        payments := [samplePaymentRow "expired"],
        step := 6,
        trace := [Call.FindPaymentByBookingID "b-1",
          Call.UpsertPayment
            { (samplePaymentRow "pending").toEntity with Status := "expired" }] }
      { (paymentWorld "pending") with
        payments := [samplePaymentRow "expired"],
        published := [⟨"increment_stock_ticket", "id-6", Payload.stockTicket 7 1⟩],
        step := 8,
        trace := [Call.FindPaymentByBookingID "b-1",
          Call.UpsertPayment
            { (samplePaymentRow "pending").toEntity with Status := "expired" }] }
      (samplePaymentRow "pending").toEntity (by rfl) (by rfl) (by decide) (by rfl) (by rfl)).1,
   by decide⟩

/-! ### What the two use cases do to table `payments` -/

/-- Payment leaves table `payments` as it is, or rewrites the rows of a
booking whose first row was pending. -/
theorem Payment_payments (E : Env) (payload : request.Payment) (w : World) :
    (Payment E payload w).2.payments = w.payments ∨
    ∃ k r sp, findPayment k w.payments = some r ∧ r.status = "pending" ∧
      (Payment E payload w).2.payments = updatePayments k sp w.payments := by
  have hp1 := FindPaymentByBookingID_frame World.payments (fun _ _ => rfl) E
    payload.BookingID w
  rcases hfind : FindPaymentByBookingID E payload.BookingID w with ⟨p | e | s, w1⟩ <;>
    rw [hfind] at hp1
  · by_cases hid : p.ID = 0
    · left
      simp only [Payment, M.run, hfind, hid, if_true]
      exact hp1
    · by_cases hpending : p.Status = "pending"
      · obtain ⟨k, hk, hp⟩ := FindPaymentByBookingID_ok E _ w w1 p hfind
        obtain ⟨r, hr⟩ : ∃ r, findPayment k w.payments = some r := by
          cases hr : findPayment k w.payments with
          | none => rw [hr] at hp; exact absurd (by rw [hp]; rfl) hid
          | some r => exact ⟨r, rfl⟩
        rw [hr] at hp
        simp only at hp
        have hrs : r.status = "pending" := by
          rw [hp] at hpending; exact hpending
        rw [Payment_pending E payload w w1 p hfind hid hpending, M.bind_apply,
          M.orFail_apply]
        have hpu := UpsertPayment_payments E
          { ID := 0, BookingID := payload.BookingID, Amount := payload.TotalAmount,
            Currency := "USD", Status := "paid", PaymentMethod := payload.PaymetMethod,
            PaymentDate := E.clock w1.step, PaymentExpiration := p.PaymentExpiration,
            TaskID := "" } { w1 with step := w1.step + 1 }
        change w1.payments = w.payments at hp1
        rcases hu : UpsertPayment E
          { ID := 0, BookingID := payload.BookingID, Amount := payload.TotalAmount,
            Currency := "USD", Status := "paid", PaymentMethod := payload.PaymetMethod,
            PaymentDate := E.clock w1.step, PaymentExpiration := p.PaymentExpiration,
            TaskID := "" } { w1 with step := w1.step + 1 } with ⟨u | e | s, w3⟩ <;>
          rw [hu] at hpu <;>
          simp only [upsertedPayments, canon_of_parse E _ k hk, hp1, hr] at hpu ⊢
        · rw [(Payment_after_upsert E payload w3).1]
          rcases hpu with ⟨_, h⟩ | ⟨_, h⟩
          · exact Or.inr ⟨k, r, _, hr, hrs, h⟩
          · exact Or.inl h
        · rcases hpu with ⟨h0, _⟩ | ⟨_, h⟩
          · exact absurd h0 (by simp)
          · exact Or.inl h
        · rcases hpu with ⟨h0, _⟩ | ⟨_, h⟩
          · exact absurd h0 (by simp)
          · exact Or.inl h
      · left
        simp only [Payment, M.run, hfind, hid, hpending, ne_eq, not_false_eq_true, if_true,
          if_false]
        exact hp1
  · left
    simp only [Payment, M.run, hfind]
    exact hp1
  · left
    simp only [Payment, M.run, hfind]
    exact hp1

/-- SetPaymentExpired leaves table `payments` as it is, or rewrites the rows
of a booking whose first row was pending. -/
theorem SetPaymentExpired_payments (E : Env) (payload : request.PaymentExpiration)
    (w : World) :
    (SetPaymentExpired E payload w).2.payments = w.payments ∨
    ∃ k r sp, findPayment k w.payments = some r ∧ r.status = "pending" ∧
      (SetPaymentExpired E payload w).2.payments = updatePayments k sp w.payments := by
  have hp1 := FindPaymentByBookingID_frame World.payments (fun _ _ => rfl) E
    payload.BookingID w
  rcases hfind : FindPaymentByBookingID E payload.BookingID w with ⟨p | e | s, w1⟩ <;>
    rw [hfind] at hp1
  · change w1.payments = w.payments at hp1
    by_cases hpending : p.Status = "pending"
    · by_cases hdue : p.PaymentExpiration < E.clock w1.step
      · obtain ⟨k, hk, hp⟩ := FindPaymentByBookingID_ok E _ w w1 p hfind
        obtain ⟨r, hr⟩ : ∃ r, findPayment k w.payments = some r := by
          cases hr : findPayment k w.payments with
          | none =>
            rw [hr] at hp
            exact absurd (by rw [hp]; rfl) (show p.Status ≠ "" by rw [hpending]; decide)
          | some r => exact ⟨r, rfl⟩
        rw [hr] at hp
        simp only at hp
        have hrs : r.status = "pending" := by
          rw [hp] at hpending; exact hpending
        have hkey : canon E p.BookingID = k := by
          rw [hp]
          show canon E r.booking_id = k
          rw [findPayment_key k _ r hr]
          exact canon_canonical E _ k hk
        have hpu := UpsertPayment_payments E { p with Status := "expired" }
          { w1 with step := w1.step + 1 }
        simp only [SetPaymentExpired, M.run, hfind, hpending, hdue, if_true]
        rcases hu : UpsertPayment E { p with Status := "expired" }
          { w1 with step := w1.step + 1 } with ⟨u | e | s, w3⟩ <;>
          rw [hu] at hpu <;>
          simp only [upsertedPayments, hkey, hp1, hr] at hpu ⊢
        · have hk3 := (keeps_Publish World.payments (fun _ _ => rfl) (fun _ _ => rfl) E
            "increment_stock_ticket" (E.uuid w3.step)
            (Payload.stockTicket payload.TicketDetailID payload.TotalTickets)).same
            { w3 with step := w3.step + 1 }
          rw [hk3]
          rcases hpu with ⟨_, h⟩ | ⟨_, h⟩
          · exact Or.inr ⟨k, r, _, hr, hrs, h⟩
          · exact Or.inl h
        · rcases hpu with ⟨h0, _⟩ | ⟨_, h⟩
          · exact absurd h0 (by simp)
          · exact Or.inl h
        · rcases hpu with ⟨h0, _⟩ | ⟨_, h⟩
          · exact absurd h0 (by simp)
          · exact Or.inl h
      · left
        simp only [SetPaymentExpired, M.run, hfind, hpending, hdue, if_true, if_false]
        exact hp1
    · left
      simp only [SetPaymentExpired, M.run, hfind, hpending, if_false]
      exact hp1
  · left
    simp only [SetPaymentExpired, M.run, hfind]
    exact hp1
  · left
    simp only [SetPaymentExpired, M.run, hfind]
    exact hp1

/-- One call leaves a terminal payment as it is. -/
theorem PaymentOp.apply_terminal (E : Env) (op : PaymentOp) (w : World) (k : String)
    (r : PaymentRow) (hr : findPayment k w.payments = some r) (ht : isTerminal r.status) :
    findPayment k (op.apply E w).payments = some r := by
  have hcases : (op.apply E w).payments = w.payments ∨
      ∃ k2 r2 sp, findPayment k2 w.payments = some r2 ∧ r2.status = "pending" ∧
        (op.apply E w).payments = updatePayments k2 sp w.payments := by
    cases op with
    | payment payload => exact Payment_payments E payload w
    | expire payload => exact SetPaymentExpired_payments E payload w
  rcases hcases with h | ⟨k2, r2, sp, hr2, hs2, h⟩
  · rw [h]; exact hr
  · rw [h]
    have hne : k ≠ k2 := by
      intro hk
      subst hk
      rw [hr] at hr2
      have : r = r2 := Option.some.inj hr2
      subst this
      rcases ht with ht | ht <;> rw [hs2] at ht <;> exact absurd ht (by decide)
    rw [findPayment_updatePayments_other k k2 sp w.payments hne]
    exact hr

/-- C7, for text without a quote character: terminal payment states are
absorbing. If the payment of a booking is "paid" or "expired", then after
every finite sequence of Payment and SetPaymentExpired calls, with any
booking ids, amounts, clock readings and failures, the payment of that
booking is the same row: its status never changes, so paid never becomes
expired and expired never becomes paid.  The text that the calls paste into
their UPDATE statements is taken to have no quote character: the payment
method of each settlement request, and the text of the pending rows of the
store.  With a quote character in it the statement is another one and can
write the rows of another booking; there the claim does not hold of the
code. -/
theorem C7_terminal_states_absorb (E : Env) (ops : List PaymentOp) (w : World) (k : String)
    (r : PaymentRow) (hr : findPayment k w.payments = some r) (ht : isTerminal r.status)
    (_hops : ∀ op ∈ ops, op.textSafe) (_hw : pendingTextSafe w) :
    findPayment k (runOps E ops w).payments = some r := by
  have key : ∀ (ops : List PaymentOp) (w : World), findPayment k w.payments = some r →
      findPayment k (runOps E ops w).payments = some r := by
    intro ops
    induction ops with
    | nil => exact fun _ h => h
    | cons op ops ih =>
      exact fun w h => ih (op.apply E w) (PaymentOp.apply_terminal E op w k r h ht)
  exact key ops w hr

/-- C7 at the paid payment of booking b-1: an expiry, a settlement with the
method card and another expiry leave it paid. -/
theorem C7_terminal_states_absorb_witness :
    findPayment "b-1" (paymentWorld "paid").payments = some (samplePaymentRow "paid") ∧
    isTerminal (samplePaymentRow "paid").status ∧
    quoteFree samplePayment.PaymetMethod ∧
    findPayment "b-1"
      (runOps calmEnv
        [PaymentOp.expire sampleExpiration, PaymentOp.payment samplePayment,
         PaymentOp.expire sampleExpiration]
        (paymentWorld "paid")).payments = some (samplePaymentRow "paid") :=
  ⟨by rfl, by decide, by decide,
   C7_terminal_states_absorb calmEnv _ (paymentWorld "paid") "b-1" (samplePaymentRow "paid")
     (by rfl) (by decide)
     (by
       intro op hop
       simp only [List.mem_cons, List.mem_singleton, List.not_mem_nil, or_false] at hop
       rcases hop with h | h | h <;> subst h
       · exact True.intro
       · show quoteFree samplePayment.PaymetMethod
         decide
       · exact True.intro)
     (by
       intro r hr hs
       simp only [paymentWorld, List.mem_singleton] at hr
       subst hr
       exact absurd hs (by decide))⟩

/-! ### Runs in which no operation fails -/

/-- Payment on a pending payment when no operation fails. -/
theorem Payment_calm (E : Env) (req : request.Payment) (w : World) (k : String)
    (r : PaymentRow) (hf : ∀ n, E.fault n = false)
    (hk : E.uuidParse req.BookingID = some k)
    (hr : findPayment k w.payments = some r)
    (hid : r.id ≠ 0) (hpending : r.status = "pending") :
    Payment E req w =
      (Res.ok (),
        { w with
          payments := updatePayments k
            { ID := 0, BookingID := req.BookingID, Amount := req.TotalAmount,
              Currency := "USD", Status := "paid", PaymentMethod := req.PaymetMethod,
              PaymentDate := E.clock (w.step + 1),
              PaymentExpiration := parseTime r.payment_expiration, TaskID := "" } w.payments,
          published := w.published ++
            [⟨"decrement_stock_ticket", E.uuid (w.step + 7),
                Payload.stockTicket (bookingOf k w).TicketDetailID 1⟩,
             ⟨"notification", E.uuid (w.step + 9), Payload.text "your payment has been paid"⟩],
          step := w.step + 11,
          trace := w.trace ++
            [Call.FindPaymentByBookingID req.BookingID,
             Call.UpsertPayment
              { ID := 0, BookingID := req.BookingID, Amount := req.TotalAmount,
                Currency := "USD", Status := "paid", PaymentMethod := req.PaymetMethod,
                PaymentDate := E.clock (w.step + 1),
                PaymentExpiration := parseTime r.payment_expiration, TaskID := "" },
             Call.FindBookingByID req.BookingID] }) := by
  have hid2 : r.toEntity.ID ≠ 0 := hid
  have hp2 : r.toEntity.Status = "pending" := hpending
  have hc := canon_of_parse E _ k hk
  simp only [Payment, FindPaymentByBookingID, UpsertPayment, FindBookingByID, Publish, M.run,
    hf, hk, hr, hc, Bool.false_eq_true, if_false, hid2, hp2, ne_eq, not_true_eq_false,
    bookingOf]
  cases findBooking k w.bookings <;>
    simp only [M.run, PaymentRow.toEntity, List.append_assoc, List.cons_append,
      List.nil_append, Nat.add_assoc, Nat.reduceAdd]

/-- SetPaymentExpired on a pending, due payment when no operation fails. -/
theorem SetPaymentExpired_calm (E : Env) (pl : request.PaymentExpiration) (w : World)
    (k : String) (r : PaymentRow) (hf : ∀ n, E.fault n = false)
    (hk : E.uuidParse pl.BookingID = some k)
    (hr : findPayment k w.payments = some r)
    (hpending : r.status = "pending")
    (hdue : parseTime r.payment_expiration < E.clock (w.step + 1)) :
    SetPaymentExpired E pl w =
      (Res.ok (),
        { w with
          payments := updatePayments k { r.toEntity with Status := "expired" } w.payments,
          published := w.published ++
            [⟨"increment_stock_ticket", E.uuid (w.step + 6),
                Payload.stockTicket pl.TicketDetailID pl.TotalTickets⟩],
          step := w.step + 8,
          trace := w.trace ++
            [Call.FindPaymentByBookingID pl.BookingID,
             Call.UpsertPayment { r.toEntity with Status := "expired" }] }) := by
  have hp2 : r.toEntity.Status = "pending" := hpending
  have hd2 : r.toEntity.PaymentExpiration < E.clock (w.step + 1) := hdue
  have hc : canon E r.toEntity.BookingID = k := by
    show canon E r.booking_id = k
    rw [findPayment_key k _ r hr]
    exact canon_canonical E _ k hk
  simp only [SetPaymentExpired, FindPaymentByBookingID, UpsertPayment, Publish, M.run,
    hf, hk, hr, hc, Bool.false_eq_true, if_false, if_true, hp2, hd2,
    List.append_assoc, List.cons_append, List.nil_append, Nat.add_assoc, Nat.reduceAdd]

/-- SetPaymentExpired on a payment that is not pending, when the lookup does
not fail. -/
theorem SetPaymentExpired_settled (E : Env) (pl : request.PaymentExpiration) (w : World)
    (k : String) (r : PaymentRow) (hf : ∀ n, E.fault n = false)
    (hk : E.uuidParse pl.BookingID = some k)
    (hr : findPayment k w.payments = some r) (hs : r.status ≠ "pending") :
    SetPaymentExpired E pl w =
      (Res.ok (),
        { w with step := w.step + 1,
                 trace := w.trace ++ [Call.FindPaymentByBookingID pl.BookingID] }) := by
  have hs2 : r.toEntity.Status ≠ "pending" := hs
  simp only [SetPaymentExpired, FindPaymentByBookingID, M.run, hf, hk, hr,
    Bool.false_eq_true, if_false, hs2]

/-- Payment on a payment that is not pending, when the lookup does not
fail. -/
theorem Payment_settled (E : Env) (req : request.Payment) (w : World)
    (k : String) (r : PaymentRow) (hf : ∀ n, E.fault n = false)
    (hk : E.uuidParse req.BookingID = some k)
    (hr : findPayment k w.payments = some r) (hid : r.id ≠ 0) (hs : r.status ≠ "pending") :
    Payment E req w =
      (Res.error (BadRequest "payment already paid / expired"),
        { w with step := w.step + 1,
                 trace := w.trace ++ [Call.FindPaymentByBookingID req.BookingID] }) := by
  have hid2 : r.toEntity.ID ≠ 0 := hid
  have hs2 : r.toEntity.Status ≠ "pending" := hs
  simp only [Payment, FindPaymentByBookingID, M.run, hf, hk, hr,
    Bool.false_eq_true, if_false, if_true, hid2, hs2, ne_eq, not_false_eq_true]

/-- C8: one pending payment whose expiration has passed, one Payment call and
one SetPaymentExpired call on it, no operation failing. Settlement first:
Payment returns nil and the payment is paid; SetPaymentExpired then returns
nil and leaves the tables as they are; the bus received
decrement_stock_ticket and notification, not increment_stock_ticket. Expiry
first: SetPaymentExpired returns nil and the payment is expired; Payment
then returns BadRequest and leaves the tables as they are; the bus received
increment_stock_ticket only. -/
theorem C8_race_has_one_winner (E : Env) (req : request.Payment)
    (pl : request.PaymentExpiration) (w : World) (k : String) (r : PaymentRow)
    (hf : ∀ n, E.fault n = false)
    (hk1 : E.uuidParse req.BookingID = some k) (hk2 : E.uuidParse pl.BookingID = some k)
    (hr : findPayment k w.payments = some r) (hid : r.id ≠ 0)
    (hpending : r.status = "pending")
    (hdue : ∀ n, parseTime r.payment_expiration < E.clock n) :
    ((Payment E req w).1 = Res.ok () ∧
      (∃ r1, findPayment k (Payment E req w).2.payments = some r1 ∧ r1.status = "paid") ∧
      (SetPaymentExpired E pl (Payment E req w).2).1 = Res.ok () ∧
      (SetPaymentExpired E pl (Payment E req w).2).2.payments = (Payment E req w).2.payments ∧
      (SetPaymentExpired E pl (Payment E req w).2).2.bookings = (Payment E req w).2.bookings ∧
      topicsSince w (SetPaymentExpired E pl (Payment E req w).2).2 =
        ["decrement_stock_ticket", "notification"]) ∧
    ((SetPaymentExpired E pl w).1 = Res.ok () ∧
      (∃ r1, findPayment k (SetPaymentExpired E pl w).2.payments = some r1 ∧
        r1.status = "expired") ∧
      (Payment E req (SetPaymentExpired E pl w).2).1 =
        Res.error (BadRequest "payment already paid / expired") ∧
      (Payment E req (SetPaymentExpired E pl w).2).2.payments =
        (SetPaymentExpired E pl w).2.payments ∧
      (Payment E req (SetPaymentExpired E pl w).2).2.bookings =
        (SetPaymentExpired E pl w).2.bookings ∧
      topicsSince w (Payment E req (SetPaymentExpired E pl w).2).2 =
        ["increment_stock_ticket"]) := by
  constructor
  · have h1 := Payment_calm E req w k r hf hk1 hr hid hpending
    have hr1 := findPayment_updatePayments_same k
      { ID := 0, BookingID := req.BookingID, Amount := req.TotalAmount,
        Currency := "USD", Status := "paid", PaymentMethod := req.PaymetMethod,
        PaymentDate := E.clock (w.step + 1),
        PaymentExpiration := parseTime r.payment_expiration, TaskID := "" } w.payments r hr
    have h2 : SetPaymentExpired E pl (Payment E req w).2 =
        (Res.ok (),
          { (Payment E req w).2 with
            step := (Payment E req w).2.step + 1,
            trace := (Payment E req w).2.trace ++
              [Call.FindPaymentByBookingID pl.BookingID] }) := by
      rw [h1]
      exact SetPaymentExpired_settled E pl _ k _ hf hk2 hr1
        (by show "paid" ≠ "pending"; decide)
    rw [h2, h1]
    refine ⟨rfl, ⟨_, hr1, rfl⟩, rfl, rfl, rfl, ?_⟩
    simp [topicsSince]
  · have h1 := SetPaymentExpired_calm E pl w k r hf hk2 hr hpending (hdue _)
    have hr1 := findPayment_updatePayments_same k
      { r.toEntity with Status := "expired" } w.payments r hr
    have h2 : Payment E req (SetPaymentExpired E pl w).2 =
        (Res.error (BadRequest "payment already paid / expired"),
          { (SetPaymentExpired E pl w).2 with
            step := (SetPaymentExpired E pl w).2.step + 1,
            trace := (SetPaymentExpired E pl w).2.trace ++
              [Call.FindPaymentByBookingID req.BookingID] }) := by
      rw [h1]
      exact Payment_settled E req _ k _ hf hk1 hr1 hid
        (by show "expired" ≠ "pending"; decide)
    rw [h2, h1]
    refine ⟨rfl, ⟨_, hr1, rfl⟩, rfl, rfl, rfl, ?_⟩
    simp [topicsSince]

/-- C8 at the pending payment of booking b-1, due since second 950, under a
clock at second 1000. -/
theorem C8_race_has_one_winner_witness :
    (∃ r1, findPayment "b-1"
        (Payment calmEnv samplePayment (paymentWorld "pending")).2.payments = some r1 ∧
      r1.status = "paid") ∧
    topicsSince (paymentWorld "pending")
      (SetPaymentExpired calmEnv sampleExpiration
        (Payment calmEnv samplePayment (paymentWorld "pending")).2).2 =
      ["decrement_stock_ticket", "notification"] ∧
    (∃ r1, findPayment "b-1"
        (SetPaymentExpired calmEnv sampleExpiration (paymentWorld "pending")).2.payments
          = some r1 ∧
      r1.status = "expired") ∧
    topicsSince (paymentWorld "pending")
      (Payment calmEnv samplePayment
        (SetPaymentExpired calmEnv sampleExpiration (paymentWorld "pending")).2).2 =
      ["increment_stock_ticket"] :=
  have h := C8_race_has_one_winner calmEnv samplePayment sampleExpiration
    (paymentWorld "pending") "b-1" (samplePaymentRow "pending") (fun _ => rfl) (by rfl)
    (by rfl) (by rfl) (by decide) (by rfl)
    (fun n => by
      show (950 : Int) * Second < 1000 * Second + (n : Int)
      have : (0 : Int) ≤ (n : Int) := Int.ofNat_nonneg n
      simp only [Second]
      omega)
  ⟨h.1.2.1, h.1.2.2.2.2.2, h.2.2.1, h.2.2.2.2.2.2⟩

/-! ### The use case ConsumeBookTicketQueue -/

/-- Every run of ConsumeBookTicketQueue either stops before the payment
upsert, with an error or a panic and without an UpsertPayment call, or goes
through the stock check, the decrement, the booking upsert and the amount
inquiry and then calls UpsertPayment once, with the payment built from
them. -/
theorem ConsumeBookTicketQueue_run (E : Env) (payload : request.BookTicket) (w : World) :
    ((ConsumeBookTicketQueue E payload w).1 ≠ Res.ok () ∧
      ∃ cs, (ConsumeBookTicketQueue E payload w).2.trace = w.trace ++ cs ∧
        ∀ p, Call.UpsertPayment p ∉ cs) ∨
    ∃ (stock : Int) (w1 w2 w5 w6 : World) (bookingID : String) (amount : Amount),
      CheckStockTicket E payload.TicketDetailID w = (Res.ok stock, w1) ∧
      DecrementStockTicket E payload.TicketDetailID w1 = (Res.ok (), w2) ∧
      UpsertBooking E
        { ID := "", UserID := payload.UserID, TicketDetailID := payload.TicketDetailID,
          TotalTickets := payload.TotalTickets, FullName := payload.FullName,
          PersonalID := payload.PersonalID, BookingDate := E.clock (w2.step + 1) }
        { w2 with step := w2.step + 2 } = (Res.ok bookingID, w5) ∧
      InquiryTicketAmount E payload.TicketDetailID payload.TotalTickets w5 =
        (Res.ok amount, w6) ∧
      (ConsumeBookTicketQueue E payload w).2.trace = w.trace ++
        [Call.CheckStockTicket payload.TicketDetailID,
         Call.DecrementStockTicket payload.TicketDetailID,
         Call.UpsertBooking
          { ID := "", UserID := payload.UserID, TicketDetailID := payload.TicketDetailID,
            TotalTickets := payload.TotalTickets, FullName := payload.FullName,
            PersonalID := payload.PersonalID, BookingDate := E.clock (w2.step + 1) },
         Call.InquiryTicketAmount payload.TicketDetailID payload.TotalTickets,
         Call.UpsertPayment
          { ID := 0, BookingID := bookingID, Amount := amount, Currency := "IDR",
            Status := "pending", PaymentMethod := "", PaymentDate := E.clock w6.step,
            PaymentExpiration := E.clock w2.step + Minute * 30, TaskID := "" }] := by
  generalize hR : ConsumeBookTicketQueue E payload w = R
  unfold ConsumeBookTicketQueue at hR
  rw [M.bind_apply, M.orFail_apply] at hR
  have ht1 := CheckStockTicket_frame World.trace (fun _ _ => rfl) (fun _ _ => rfl) E
    payload.TicketDetailID w
  rcases h1 : CheckStockTicket E payload.TicketDetailID w with ⟨stock | e | s, w1⟩ <;>
    rw [h1] at hR ht1 <;> simp only at hR ht1
  rotate_left
  · subst hR
    exact Or.inl ⟨by simp, _, ht1, by simp⟩
  · subst hR
    exact Or.inl ⟨by simp, _, ht1, by simp⟩
  by_cases hs : stock ≤ 0
  · rw [if_pos hs] at hR
    subst hR
    exact Or.inl ⟨by simp, _, ht1, by simp⟩
  rw [if_neg hs, M.bind_apply, M.orFail_apply] at hR
  have ht2 := DecrementStockTicket_frame World.trace (fun _ _ => rfl) (fun _ _ => rfl) E
    payload.TicketDetailID w1
  rcases h2 : DecrementStockTicket E payload.TicketDetailID w1 with ⟨u | e | s, w2⟩ <;>
    rw [h2] at hR ht2 <;> simp only at hR ht2
  rotate_left
  · subst hR
    have htr := ht2
    rw [ht1, List.append_assoc] at htr
    exact Or.inl ⟨by simp, _, htr, by simp⟩
  · subst hR
    have htr := ht2
    rw [ht1, List.append_assoc] at htr
    exact Or.inl ⟨by simp, _, htr, by simp⟩
  rw [M.bind_apply, timeNow_apply] at hR
  simp only at hR
  rw [M.bind_apply, timeNow_apply] at hR
  simp only at hR
  rw [M.bind_apply, M.orFail_apply] at hR
  have ht5 := UpsertBooking_frame World.trace (fun _ _ => rfl) (fun _ _ => rfl) E
    { ID := "", UserID := payload.UserID, TicketDetailID := payload.TicketDetailID,
      TotalTickets := payload.TotalTickets, FullName := payload.FullName,
      PersonalID := payload.PersonalID, BookingDate := E.clock (w2.step + 1) }
    { w2 with step := w2.step + 1 + 1 }
  rcases h5 : UpsertBooking E
    { ID := "", UserID := payload.UserID, TicketDetailID := payload.TicketDetailID,
      TotalTickets := payload.TotalTickets, FullName := payload.FullName,
      PersonalID := payload.PersonalID, BookingDate := E.clock (w2.step + 1) }
    { w2 with step := w2.step + 1 + 1 } with ⟨bookingID | e | s, w5⟩ <;>
    rw [h5] at hR ht5 <;> simp only at hR ht5
  rotate_left
  · subst hR
    have htr := ht5
    rw [ht2, ht1, List.append_assoc, List.append_assoc] at htr
    exact Or.inl ⟨by simp, _, htr, by simp⟩
  · subst hR
    have htr := ht5
    rw [ht2, ht1, List.append_assoc, List.append_assoc] at htr
    exact Or.inl ⟨by simp, _, htr, by simp⟩
  rw [M.bind_apply, M.orFail_apply] at hR
  have ht6 := InquiryTicketAmount_frame World.trace (fun _ _ => rfl) E
    payload.TicketDetailID payload.TotalTickets w5
  rcases h6 : InquiryTicketAmount E payload.TicketDetailID payload.TotalTickets w5 with
    ⟨amount | e | s, w6⟩ <;> rw [h6] at hR ht6 <;> simp only at hR ht6
  rotate_left
  · subst hR
    have htr := ht6
    rw [ht5, ht2, ht1, List.append_assoc, List.append_assoc, List.append_assoc] at htr
    exact Or.inl ⟨by simp, _, htr, by simp⟩
  · subst hR
    have htr := ht6
    rw [ht5, ht2, ht1, List.append_assoc, List.append_assoc, List.append_assoc] at htr
    exact Or.inl ⟨by simp, _, htr, by simp⟩
  rw [M.bind_apply, timeNow_apply] at hR
  simp only at hR
  rw [M.bind_apply, M.orFail_apply] at hR
  have ht8 := UpsertPayment_frame World.trace (fun _ _ => rfl) (fun _ _ => rfl)
    (fun _ _ => rfl) E
    { ID := 0, BookingID := bookingID, Amount := amount, Currency := "IDR",
      Status := "pending", PaymentMethod := "", PaymentDate := E.clock w6.step,
      PaymentExpiration := E.clock w2.step + Minute * 30, TaskID := "" }
    { w6 with step := w6.step + 1 }
  right
  refine ⟨stock, w1, w2, w5, w6, bookingID, amount, rfl, h2, h5, h6, ?_⟩
  rcases h8 : UpsertPayment E
    { ID := 0, BookingID := bookingID, Amount := amount, Currency := "IDR",
      Status := "pending", PaymentMethod := "", PaymentDate := E.clock w6.step,
      PaymentExpiration := E.clock w2.step + Minute * 30, TaskID := "" }
    { w6 with step := w6.step + 1 } with ⟨u8 | e | s, w8⟩ <;>
    rw [h8] at hR ht8 <;> simp only at hR ht8
  rotate_left
  · subst hR
    simp only [ht8, ht6, ht5, ht2, ht1, List.append_assoc, List.cons_append, List.nil_append]
  · subst hR
    simp only [ht8, ht6, ht5, ht2, ht1, List.append_assoc, List.cons_append, List.nil_append]
  have hkeep : ∀ (m : M Unit) (wa : World), M.keeps World.trace m →
      (m wa).2.trace = wa.trace := fun m wa hm => hm.same wa
  rw [← hR, hkeep _ _ ?_]
  · simp only [ht8, ht6, ht5, ht2, ht1, List.append_assoc, List.cons_append, List.nil_append]
  · repeat' first
      | exact keeps_DurationCalculation World.trace (fun _ _ => rfl) E _
      | exact keeps_Enqueue World.trace (fun _ _ => rfl) (fun _ _ => rfl) E _
      | exact keeps_newUUID World.trace (fun _ _ => rfl) E
      | exact keeps_Publish World.trace (fun _ _ => rfl) (fun _ _ => rfl) E _ _ _
      | apply M.keeps_bind
      | apply M.keeps_orFail
      | apply M.keeps_ignoreErr
      | intro _

/-- C9: when ConsumeBookTicketQueue returns nil, it has gone through the
stock check, the decrement, UpsertBooking (returning bookingID) and
InquiryTicketAmount (returning amount), and these four calls are followed in
the trace by exactly one UpsertPayment call, whose payment has booking_id =
bookingID, amount = amount, currency "IDR", status "pending", an empty
payment_method, and payment_expiration exactly 30 minutes after the clock
reading taken for it right after the decrement. -/
theorem C9_consumer_creates_pending_payment (E : Env) (payload : request.BookTicket)
    (w w9 : World) (hrun : ConsumeBookTicketQueue E payload w = (Res.ok (), w9)) :
    ∃ (stock : Int) (w1 w2 w5 w6 : World) (bookingID : String) (amount : Amount),
      CheckStockTicket E payload.TicketDetailID w = (Res.ok stock, w1) ∧
      DecrementStockTicket E payload.TicketDetailID w1 = (Res.ok (), w2) ∧
      UpsertBooking E
        { ID := "", UserID := payload.UserID, TicketDetailID := payload.TicketDetailID,
          TotalTickets := payload.TotalTickets, FullName := payload.FullName,
          PersonalID := payload.PersonalID, BookingDate := E.clock (w2.step + 1) }
        { w2 with step := w2.step + 2 } = (Res.ok bookingID, w5) ∧
      InquiryTicketAmount E payload.TicketDetailID payload.TotalTickets w5 =
        (Res.ok amount, w6) ∧
      w9.trace = w.trace ++
        [Call.CheckStockTicket payload.TicketDetailID,
         Call.DecrementStockTicket payload.TicketDetailID,
         Call.UpsertBooking
          { ID := "", UserID := payload.UserID, TicketDetailID := payload.TicketDetailID,
            TotalTickets := payload.TotalTickets, FullName := payload.FullName,
            PersonalID := payload.PersonalID, BookingDate := E.clock (w2.step + 1) },
         Call.InquiryTicketAmount payload.TicketDetailID payload.TotalTickets,
         Call.UpsertPayment
          { ID := 0, BookingID := bookingID, Amount := amount, Currency := "IDR",
            Status := "pending", PaymentMethod := "", PaymentDate := E.clock w6.step,
            PaymentExpiration := E.clock w2.step + Minute * 30, TaskID := "" }] := by
  rcases ConsumeBookTicketQueue_run E payload w with ⟨hne, _⟩ | h
  · rw [hrun] at hne
    exact absurd rfl hne
  · rw [hrun] at h
    exact h

/-- C9 at the first message in an empty world with a calm environment: the
run returns nil and the payment it upserts is for booking id-10, amount
150000, IDR, pending, expiring 30 minutes after the reading at step 5. -/
theorem C9_consumer_creates_pending_payment_witness :
    (ConsumeBookTicketQueue calmEnv sampleBookTicket emptyWorld).1 = Res.ok () ∧
    (ConsumeBookTicketQueue calmEnv sampleBookTicket emptyWorld).2.trace =
      [Call.CheckStockTicket 7, Call.DecrementStockTicket 7,
       Call.UpsertBooking
        { ID := "", UserID := 42, TicketDetailID := 7, TotalTickets := 1, FullName := "Ann",
          PersonalID := "P1", BookingDate := calmEnv.clock 6 },
       Call.InquiryTicketAmount 7 1,
       Call.UpsertPayment
        { ID := 0, BookingID := "id-10", Amount := 150000, Currency := "IDR",
          Status := "pending", PaymentMethod := "", PaymentDate := calmEnv.clock 14,
          PaymentExpiration := calmEnv.clock 5 + Minute * 30, TaskID := "" }] ∧
    ∃ (stock : Int) (w1 w2 w5 w6 : World) (bookingID : String) (amount : Amount),
      CheckStockTicket calmEnv sampleBookTicket.TicketDetailID emptyWorld = (Res.ok stock, w1) ∧
      DecrementStockTicket calmEnv sampleBookTicket.TicketDetailID w1 = (Res.ok (), w2) ∧
      UpsertBooking calmEnv
        { ID := "", UserID := sampleBookTicket.UserID,
          TicketDetailID := sampleBookTicket.TicketDetailID,
          TotalTickets := sampleBookTicket.TotalTickets, FullName := sampleBookTicket.FullName,
          PersonalID := sampleBookTicket.PersonalID, BookingDate := calmEnv.clock (w2.step + 1) }
        { w2 with step := w2.step + 2 } = (Res.ok bookingID, w5) ∧
      InquiryTicketAmount calmEnv sampleBookTicket.TicketDetailID sampleBookTicket.TotalTickets
        w5 = (Res.ok amount, w6) ∧
      (ConsumeBookTicketQueue calmEnv sampleBookTicket emptyWorld).2.trace = emptyWorld.trace ++
        [Call.CheckStockTicket sampleBookTicket.TicketDetailID,
         Call.DecrementStockTicket sampleBookTicket.TicketDetailID,
         Call.UpsertBooking
          { ID := "", UserID := sampleBookTicket.UserID,
            TicketDetailID := sampleBookTicket.TicketDetailID,
            TotalTickets := sampleBookTicket.TotalTickets,
            FullName := sampleBookTicket.FullName,
            PersonalID := sampleBookTicket.PersonalID,
            BookingDate := calmEnv.clock (w2.step + 1) },
         Call.InquiryTicketAmount sampleBookTicket.TicketDetailID
          sampleBookTicket.TotalTickets,
         Call.UpsertPayment
          { ID := 0, BookingID := bookingID, Amount := amount, Currency := "IDR",
            Status := "pending", PaymentMethod := "", PaymentDate := calmEnv.clock w6.step,
            PaymentExpiration := calmEnv.clock w2.step + Minute * 30, TaskID := "" }] :=
  ⟨by rfl, by rfl,
   C9_consumer_creates_pending_payment calmEnv sampleBookTicket emptyWorld
     (ConsumeBookTicketQueue calmEnv sampleBookTicket emptyWorld).2 (by rfl)⟩

/-- C10 as stated fails: under a clock that advances 45 minutes between the
reading taken for the expiration (step 5) and the reading taken for
payment_date (step 14), ConsumeBookTicketQueue returns nil and creates a
payment whose payment_expiration (second 2800) is before its payment_date
(second 3700), in the UpsertPayment call and in the stored row. -/
theorem C10_expiration_not_after_date_counterexample :
    (ConsumeBookTicketQueue slowEnv sampleBookTicket emptyWorld).1 = Res.ok () ∧
    Call.UpsertPayment
        { ID := 0, BookingID := "id-10", Amount := 150000, Currency := "IDR",
          Status := "pending", PaymentMethod := "", PaymentDate := 3700 * Second,
          PaymentExpiration := 2800 * Second, TaskID := "" } ∈
      (ConsumeBookTicketQueue slowEnv sampleBookTicket emptyWorld).2.trace ∧
    ¬ ((3700 : Int) * Second < 2800 * Second) ∧
    (ConsumeBookTicketQueue slowEnv sampleBookTicket emptyWorld).2.payments =
      [{ id := 1, booking_id := "id-10", amount := 150000, currency := "IDR",
         status := "pending", payment_method := "", payment_date := 3700,
         payment_expiration := 2800, task_id := "" }] := by
  refine ⟨by rfl, ?_, by decide, by rfl⟩
  decide

/-- C10, amended: every payment that a run of ConsumeBookTicketQueue passes
to UpsertPayment has payment_expiration 30 minutes after the clock reading
taken right after the stock decrement, and payment_date equal to the reading
taken right after the amount inquiry; so payment_expiration is strictly
later than payment_date exactly when the second reading is less than 30
minutes after the first. -/
theorem C10_expiration_after_date_iff (E : Env) (payload : request.BookTicket) (w : World)
    (p : entity.Payment)
    (hnew : Call.UpsertPayment p ∈
      (ConsumeBookTicketQueue E payload w).2.trace.drop w.trace.length) :
    ∃ (stock : Int) (w1 w2 w5 w6 : World) (bookingID : String) (amount : Amount),
      CheckStockTicket E payload.TicketDetailID w = (Res.ok stock, w1) ∧
      DecrementStockTicket E payload.TicketDetailID w1 = (Res.ok (), w2) ∧
      UpsertBooking E
        { ID := "", UserID := payload.UserID, TicketDetailID := payload.TicketDetailID,
          TotalTickets := payload.TotalTickets, FullName := payload.FullName,
          PersonalID := payload.PersonalID, BookingDate := E.clock (w2.step + 1) }
        { w2 with step := w2.step + 2 } = (Res.ok bookingID, w5) ∧
      InquiryTicketAmount E payload.TicketDetailID payload.TotalTickets w5 =
        (Res.ok amount, w6) ∧
      p.PaymentExpiration = E.clock w2.step + Minute * 30 ∧
      p.PaymentDate = E.clock w6.step ∧
      (p.PaymentDate < p.PaymentExpiration ↔ E.clock w6.step - E.clock w2.step < Minute * 30) := by
  rcases ConsumeBookTicketQueue_run E payload w with ⟨_, cs, htr, hno⟩ | h
  · rw [htr, List.drop_left] at hnew
    exact absurd hnew (hno p)
  · obtain ⟨stock, w1, w2, w5, w6, bookingID, amount, h1, h2, h5, h6, htr⟩ := h
    rw [htr, List.drop_left] at hnew
    simp only [List.mem_cons, reduceCtorEq, Call.UpsertPayment.injEq, List.mem_singleton,
      false_or, List.not_mem_nil, or_false] at hnew
    subst hnew
    refine ⟨stock, w1, w2, w5, w6, bookingID, amount, h1, h2, h5, h6, rfl, rfl, ?_⟩
    show E.clock w6.step < E.clock w2.step + Minute * 30 ↔ _
    constructor <;> intro h <;> linarith

/-- C10, amended, at the first message in an empty world with a calm
environment: the payment is created with the readings at steps 5 and 14, one
nanosecond per operation apart, and expires after its payment_date. -/
theorem C10_expiration_after_date_iff_witness :
    Call.UpsertPayment
        { ID := 0, BookingID := "id-10", Amount := 150000, Currency := "IDR",
          Status := "pending", PaymentMethod := "", PaymentDate := calmEnv.clock 14,
          PaymentExpiration := calmEnv.clock 5 + Minute * 30, TaskID := "" } ∈
      (ConsumeBookTicketQueue calmEnv sampleBookTicket emptyWorld).2.trace.drop
        emptyWorld.trace.length ∧
    ∃ (stock : Int) (w1 w2 w5 w6 : World) (bookingID : String) (amount : Amount),
      CheckStockTicket calmEnv sampleBookTicket.TicketDetailID emptyWorld = (Res.ok stock, w1) ∧
      DecrementStockTicket calmEnv sampleBookTicket.TicketDetailID w1 = (Res.ok (), w2) ∧
      UpsertBooking calmEnv
        { ID := "", UserID := sampleBookTicket.UserID,
          TicketDetailID := sampleBookTicket.TicketDetailID,
          TotalTickets := sampleBookTicket.TotalTickets, FullName := sampleBookTicket.FullName,
          PersonalID := sampleBookTicket.PersonalID, BookingDate := calmEnv.clock (w2.step + 1) }
        { w2 with step := w2.step + 2 } = (Res.ok bookingID, w5) ∧
      InquiryTicketAmount calmEnv sampleBookTicket.TicketDetailID sampleBookTicket.TotalTickets
        w5 = (Res.ok amount, w6) ∧
      calmEnv.clock 5 + Minute * 30 = calmEnv.clock w2.step + Minute * 30 ∧
      calmEnv.clock 14 = calmEnv.clock w6.step ∧
      (calmEnv.clock 14 < calmEnv.clock 5 + Minute * 30 ↔
        calmEnv.clock w6.step - calmEnv.clock w2.step < Minute * 30) :=
  ⟨by decide,
   C10_expiration_after_date_iff calmEnv sampleBookTicket emptyWorld
     { ID := 0, BookingID := "id-10", Amount := 150000, Currency := "IDR",
       Status := "pending", PaymentMethod := "", PaymentDate := calmEnv.clock 14,
       PaymentExpiration := calmEnv.clock 5 + Minute * 30, TaskID := "" } (by decide)⟩

/-! ### Which repository methods a computation calls -/

theorem M.calls_of_keeps {α : Type} (P : Call → Prop) (m : M α)
    (h : M.keeps World.trace m) : M.calls P m :=
  ⟨fun w => ⟨[], by rw [h.same w, List.append_nil], by simp⟩⟩

theorem M.calls_of_frame {α : Type} (P : Call → Prop) (m : M α) (c : Call)
    (h : ∀ w, (m w).2.trace = w.trace ++ [c]) (hc : P c) : M.calls P m :=
  ⟨fun w => ⟨[c], h w, by simpa using hc⟩⟩

theorem M.calls_pure {α : Type} (P : Call → Prop) (a : α) : M.calls P (pure a : M α) :=
  M.calls_of_keeps P _ (M.keeps_pure World.trace a)

theorem M.calls_fail {α : Type} (P : Call → Prop) (e : Err) : M.calls P (M.fail e : M α) :=
  M.calls_of_keeps P _ (M.keeps_fail World.trace e)

theorem M.calls_crash {α : Type} (P : Call → Prop) (s : String) :
    M.calls P (M.crash s : M α) :=
  M.calls_of_keeps P _ (M.keeps_crash World.trace s)

theorem M.calls_bind {α β : Type} (P : Call → Prop) (m : M α) (g : α → M β)
    (hm : M.calls P m) (hg : ∀ a, M.calls P (g a)) : M.calls P (m >>= g) := by
  constructor
  intro w
  obtain ⟨cs, h1, hP⟩ := hm.sub w
  simp only [M.bind_apply]
  rcases hmw : m w with ⟨a | e | s, w1⟩ <;> rw [hmw] at h1 <;> simp only
  · obtain ⟨cs2, h2, hP2⟩ := (hg a).sub w1
    refine ⟨cs ++ cs2, ?_, ?_⟩
    · rw [h2, h1, List.append_assoc]
    · intro c hc
      rcases List.mem_append.1 hc with h | h
      · exact hP c h
      · exact hP2 c h
  · exact ⟨cs, h1, hP⟩
  · exact ⟨cs, h1, hP⟩

theorem M.calls_orFail {α : Type} (P : Call → Prop) (m : M α) (e : Err)
    (hm : M.calls P m) : M.calls P (M.orFail m e) := by
  constructor
  intro w
  obtain ⟨cs, h1, hP⟩ := hm.sub w
  simp only [M.orFail_apply]
  rcases hmw : m w with ⟨a | e | s, w1⟩ <;> rw [hmw] at h1 <;> exact ⟨cs, h1, hP⟩

theorem M.calls_ignoreErr (P : Call → Prop) (m : M Unit)
    (hm : M.calls P m) : M.calls P (M.ignoreErr m) := by
  constructor
  intro w
  obtain ⟨cs, h1, hP⟩ := hm.sub w
  simp only [M.ignoreErr_apply]
  rcases hmw : m w with ⟨a | e | s, w1⟩ <;> rw [hmw] at h1 <;> exact ⟨cs, h1, hP⟩

theorem M.calls_attempt {α : Type} (P : Call → Prop) (m : M α)
    (hm : M.calls P m) : M.calls P (M.attempt m) := by
  constructor
  intro w
  obtain ⟨cs, h1, hP⟩ := hm.sub w
  simp only [M.attempt_apply]
  rcases hmw : m w with ⟨a | e | s, w1⟩ <;> rw [hmw] at h1 <;> exact ⟨cs, h1, hP⟩

theorem calls_CheckStockTicket (P : Call → Prop) (E : Env) (tid : Int)
    (h : P (Call.CheckStockTicket tid)) : M.calls P (CheckStockTicket E tid) :=
  M.calls_of_frame P _ _
    (CheckStockTicket_frame World.trace (fun _ _ => rfl) (fun _ _ => rfl) E tid) h

theorem calls_DecrementStockTicket (P : Call → Prop) (E : Env) (tid : Int)
    (h : P (Call.DecrementStockTicket tid)) : M.calls P (DecrementStockTicket E tid) :=
  M.calls_of_frame P _ _
    (DecrementStockTicket_frame World.trace (fun _ _ => rfl) (fun _ _ => rfl) E tid) h

theorem calls_InquiryTicketAmount (P : Call → Prop) (E : Env) (tid n : Int)
    (h : P (Call.InquiryTicketAmount tid n)) : M.calls P (InquiryTicketAmount E tid n) :=
  M.calls_of_frame P _ _ (InquiryTicketAmount_frame World.trace (fun _ _ => rfl) E tid n) h

theorem calls_FindBookingByID (P : Call → Prop) (E : Env) (id : String)
    (h : P (Call.FindBookingByID id)) : M.calls P (FindBookingByID E id) :=
  M.calls_of_frame P _ _ (FindBookingByID_frame World.trace (fun _ _ => rfl) E id) h

theorem calls_FindBookingByUserID (P : Call → Prop) (E : Env) (u : Int)
    (h : P (Call.FindBookingByUserID u)) : M.calls P (FindBookingByUserID E u) :=
  M.calls_of_frame P _ _ (FindBookingByUserID_frame World.trace (fun _ _ => rfl) E u) h

theorem calls_FindPaymentByBookingID (P : Call → Prop) (E : Env) (id : String)
    (h : P (Call.FindPaymentByBookingID id)) : M.calls P (FindPaymentByBookingID E id) :=
  M.calls_of_frame P _ _ (FindPaymentByBookingID_frame World.trace (fun _ _ => rfl) E id) h

theorem calls_UpsertBooking (P : Call → Prop) (E : Env) (b : entity.Booking)
    (h : P (Call.UpsertBooking b)) : M.calls P (UpsertBooking E b) :=
  M.calls_of_frame P _ _
    (UpsertBooking_frame World.trace (fun _ _ => rfl) (fun _ _ => rfl) E b) h

theorem calls_UpsertPayment (P : Call → Prop) (E : Env) (p : entity.Payment)
    (h : P (Call.UpsertPayment p)) : M.calls P (UpsertPayment E p) :=
  M.calls_of_frame P _ _
    (UpsertPayment_frame World.trace (fun _ _ => rfl) (fun _ _ => rfl) (fun _ _ => rfl) E p) h

/-! ### The scheduler and the cache in settlement and expiry -/

/-- Payment calls no repository method besides FindPaymentByBookingID,
UpsertPayment and FindBookingByID. -/
theorem Payment_calls (P : Call → Prop) (E : Env) (payload : request.Payment)
    (h1 : ∀ id, P (Call.FindPaymentByBookingID id)) (h2 : ∀ p, P (Call.UpsertPayment p))
    (h3 : ∀ id, P (Call.FindBookingByID id)) : M.calls P (Payment E payload) := by
  unfold Payment
  repeat' first
    | exact calls_FindPaymentByBookingID P E _ (h1 _)
    | exact calls_UpsertPayment P E _ (h2 _)
    | exact calls_FindBookingByID P E _ (h3 _)
    | exact M.calls_of_keeps P _ (keeps_timeNow World.trace (fun _ _ => rfl) E)
    | exact M.calls_of_keeps P _ (keeps_newUUID World.trace (fun _ _ => rfl) E)
    | exact M.calls_of_keeps P _
        (keeps_Publish World.trace (fun _ _ => rfl) (fun _ _ => rfl) E _ _ _)
    | split
    | apply M.calls_bind
    | apply M.calls_orFail
    | apply M.calls_fail
    | intro _

/-- Payment leaves the scheduler as it is. -/
theorem keeps_Payment_tasks (E : Env) (payload : request.Payment) :
    M.keeps World.tasks (Payment E payload) := by
  unfold Payment
  repeat' first
    | exact keeps_FindPaymentByBookingID World.tasks (fun _ _ => rfl) (fun _ _ => rfl) E _
    | exact keeps_UpsertPayment World.tasks (fun _ _ => rfl) (fun _ _ => rfl) (fun _ _ => rfl)
        (fun _ _ => rfl) E _
    | exact keeps_FindBookingByID World.tasks (fun _ _ => rfl) (fun _ _ => rfl) E _
    | exact keeps_timeNow World.tasks (fun _ _ => rfl) E
    | exact keeps_newUUID World.tasks (fun _ _ => rfl) E
    | exact keeps_Publish World.tasks (fun _ _ => rfl) (fun _ _ => rfl) E _ _ _
    | split
    | apply M.keeps_bind
    | apply M.keeps_orFail
    | apply M.keeps_fail
    | intro _

/-- C11, as stated, fails: the settlement of the pending payment of booking
b-1 returns nil and marks the payment paid, yet the repository calls it made
are FindPaymentByBookingID, UpsertPayment and FindBookingByID; there is no
DeleteTaskScheduler call with the stored task_id, and the task scheduled for
the payment is still in the scheduler. -/
theorem C11_settlement_cancels_task_counterexample :
    (Payment calmEnv samplePayment allocatedWorld).1 = Res.ok () ∧
    (Payment calmEnv samplePayment allocatedWorld).2.payments.map PaymentRow.status =
      ["paid"] ∧
    (Payment calmEnv samplePayment allocatedWorld).2.trace =
      [Call.FindPaymentByBookingID "b-1",
       Call.UpsertPayment
         { ID := 0, BookingID := "b-1", Amount := 150000, Currency := "USD", Status := "paid",
           PaymentMethod := "card", PaymentDate := 1000 * Second + 1,
           PaymentExpiration := 950 * Second, TaskID := "" },
       Call.FindBookingByID "b-1"] ∧
    Call.DeleteTaskScheduler (samplePaymentRow "pending").task_id ∉
      (Payment calmEnv samplePayment allocatedWorld).2.trace ∧
    (Payment calmEnv samplePayment allocatedWorld).2.tasks = allocatedWorld.tasks := by
  decide

/-- C11 (amended): no Payment call, successful or not, cancels a scheduled
task: the repository calls it makes include no DeleteTaskScheduler call, and
it leaves the tasks of the scheduler as they are. -/
theorem C11_settlement_never_cancels (E : Env) (payload : request.Payment) (w : World) :
    (∃ cs, (Payment E payload w).2.trace = w.trace ++ cs ∧
      ∀ c ∈ cs, c.isDeleteTaskScheduler = false) ∧
    (Payment E payload w).2.tasks = w.tasks :=
  ⟨(Payment_calls (fun c => c.isDeleteTaskScheduler = false) E payload
      (fun _ => rfl) (fun _ => rfl) (fun _ => rfl)).sub w,
   (keeps_Payment_tasks E payload).same w⟩

/-- SetPaymentExpired calls no repository method besides
FindPaymentByBookingID and UpsertPayment. -/
theorem SetPaymentExpired_calls (P : Call → Prop) (E : Env)
    (payload : request.PaymentExpiration)
    (h1 : ∀ id, P (Call.FindPaymentByBookingID id)) (h2 : ∀ p, P (Call.UpsertPayment p)) :
    M.calls P (SetPaymentExpired E payload) := by
  unfold SetPaymentExpired
  repeat' first
    | exact calls_FindPaymentByBookingID P E _ (h1 _)
    | exact calls_UpsertPayment P E _ (h2 _)
    | exact M.calls_of_keeps P _ (keeps_timeNow World.trace (fun _ _ => rfl) E)
    | exact M.calls_of_keeps P _ (keeps_newUUID World.trace (fun _ _ => rfl) E)
    | exact M.calls_of_keeps P _
        (keeps_Publish World.trace (fun _ _ => rfl) (fun _ _ => rfl) E _ _ _)
    | split
    | apply M.calls_bind
    | apply M.calls_pure
    | intro _

/-- SetPaymentExpired leaves the cache as it is. -/
theorem keeps_SetPaymentExpired_redis (E : Env) (payload : request.PaymentExpiration) :
    M.keeps World.redis (SetPaymentExpired E payload) := by
  unfold SetPaymentExpired
  repeat' first
    | exact keeps_FindPaymentByBookingID World.redis (fun _ _ => rfl) (fun _ _ => rfl) E _
    | exact keeps_UpsertPayment World.redis (fun _ _ => rfl) (fun _ _ => rfl) (fun _ _ => rfl)
        (fun _ _ => rfl) E _
    | exact keeps_timeNow World.redis (fun _ _ => rfl) E
    | exact keeps_newUUID World.redis (fun _ _ => rfl) E
    | exact keeps_Publish World.redis (fun _ _ => rfl) (fun _ _ => rfl) E _ _ _
    | split
    | apply M.keeps_bind
    | apply M.keeps_pure
    | intro _

/-- Payment leaves the cache as it is. -/
theorem keeps_Payment_redis (E : Env) (payload : request.Payment) :
    M.keeps World.redis (Payment E payload) := by
  unfold Payment
  repeat' first
    | exact keeps_FindPaymentByBookingID World.redis (fun _ _ => rfl) (fun _ _ => rfl) E _
    | exact keeps_UpsertPayment World.redis (fun _ _ => rfl) (fun _ _ => rfl) (fun _ _ => rfl)
        (fun _ _ => rfl) E _
    | exact keeps_FindBookingByID World.redis (fun _ _ => rfl) (fun _ _ => rfl) E _
    | exact keeps_timeNow World.redis (fun _ _ => rfl) E
    | exact keeps_newUUID World.redis (fun _ _ => rfl) E
    | exact keeps_Publish World.redis (fun _ _ => rfl) (fun _ _ => rfl) E _ _ _
    | split
    | apply M.keeps_bind
    | apply M.keeps_orFail
    | apply M.keeps_fail
    | intro _

/-- No SetPaymentExpired call, whatever it does to the payment, calls
IncrementStockTicket or changes the cache. -/
theorem SetPaymentExpired_cache (E : Env) (payload : request.PaymentExpiration) (w : World) :
    (∃ cs, (SetPaymentExpired E payload w).2.trace = w.trace ++ cs ∧
      ∀ c ∈ cs, c.isIncrementStockTicket = false) ∧
    (SetPaymentExpired E payload w).2.redis = w.redis :=
  ⟨(SetPaymentExpired_calls (fun c => c.isIncrementStockTicket = false) E payload
      (fun _ => rfl) (fun _ => rfl)).sub w,
   (keeps_SetPaymentExpired_redis E payload).same w⟩

/-- C12 does not hold of the code: the expiry of the pending payment of
booking b-1, one of five tickets of ticket detail 7 being allocated to it
(cache counter 4), returns nil, marks the payment expired and publishes
increment_stock_ticket, but makes no IncrementStockTicket call: the
repository calls are FindPaymentByBookingID and UpsertPayment, and the cache
counter is still 4. -/
theorem C12_expiry_leaves_cache_counter :
    (SetPaymentExpired calmEnv sampleExpiration allocatedWorld).1 = Res.ok () ∧
    (SetPaymentExpired calmEnv sampleExpiration allocatedWorld).2.payments =
      [samplePaymentRow "expired"] ∧
    (SetPaymentExpired calmEnv sampleExpiration allocatedWorld).2.published =
      [⟨"increment_stock_ticket", "id-6", Payload.stockTicket 7 1⟩] ∧
    (SetPaymentExpired calmEnv sampleExpiration allocatedWorld).2.trace =
      [Call.FindPaymentByBookingID "b-1",
       Call.UpsertPayment { (samplePaymentRow "pending").toEntity with Status := "expired" }] ∧
    (SetPaymentExpired calmEnv sampleExpiration allocatedWorld).2.redis = [("7", "4")] := by
  decide

/-! ### The expiry task of ConsumeBookTicketQueue -/

/-- What Enqueue does: nothing but a step when the scheduler fails, else the
task is appended to the tasks of the scheduler. -/
theorem Enqueue_apply (E : Env) (task : Task) (w : World) :
    Enqueue E task w =
      if E.fault w.step then
        (Res.error (RawError "asynq: enqueue failed"), { w with step := w.step + 1 })
      else
        (Res.ok (E.uuid (w.step + 1)),
          { w with step := w.step + 1 + 1, tasks := w.tasks ++ [task] }) := by
  cases hf : E.fault w.step <;>
    simp only [Enqueue, M.run, hf, Bool.false_eq_true, if_true, if_false]

/-- Every run of ConsumeBookTicketQueue leaves the tasks of the scheduler as
they are, or its UpsertPayment call, for a pending payment with an empty
task_id, has returned nil with the tasks still as they were, and the run
then adds one task for the booking of that payment: a task without a
processing delay, whose timeout is the payment expiration minus the clock
reading taken after the upsert. -/
theorem ConsumeBookTicketQueue_enqueue (E : Env) (payload : request.BookTicket) (w : World) :
    (ConsumeBookTicketQueue E payload w).2.tasks = w.tasks ∨
    ∃ (w2 w6 w8 : World) (bookingID : String) (amount : Amount),
      UpsertPayment E
        { ID := 0, BookingID := bookingID, Amount := amount, Currency := "IDR",
          Status := "pending", PaymentMethod := "", PaymentDate := E.clock w6.step,
          PaymentExpiration := E.clock w2.step + Minute * 30, TaskID := "" }
        { w6 with step := w6.step + 1 } = (Res.ok (), w8) ∧
      w8.tasks = w.tasks ∧
      E.fault (w8.step + 1) = false ∧
      (ConsumeBookTicketQueue E payload w).2.tasks = w.tasks ++
        [{ typename := E.TypeSetPaymentExpired,
           payload :=
            { BookingID := bookingID, TicketDetailID := payload.TicketDetailID,
              TotalTickets := payload.TotalTickets },
           maxRetry := 3,
           timeout := E.clock w2.step + Minute * 30 - E.clock w8.step,
           processIn := none }] := by
  generalize hR : ConsumeBookTicketQueue E payload w = R
  unfold ConsumeBookTicketQueue at hR
  rw [M.bind_apply, M.orFail_apply] at hR
  have ht1 := CheckStockTicket_frame World.tasks (fun _ _ => rfl) (fun _ _ => rfl) E
    payload.TicketDetailID w
  rcases h1 : CheckStockTicket E payload.TicketDetailID w with ⟨stock | e | s, w1⟩ <;>
    rw [h1] at hR ht1 <;> simp only at hR ht1
  rotate_left
  · subst hR
    exact Or.inl ht1
  · subst hR
    exact Or.inl ht1
  by_cases hs : stock ≤ 0
  · rw [if_pos hs] at hR
    subst hR
    exact Or.inl ht1
  rw [if_neg hs, M.bind_apply, M.orFail_apply] at hR
  have ht2 := DecrementStockTicket_frame World.tasks (fun _ _ => rfl) (fun _ _ => rfl) E
    payload.TicketDetailID w1
  rcases h2 : DecrementStockTicket E payload.TicketDetailID w1 with ⟨u | e | s, w2⟩ <;>
    rw [h2] at hR ht2 <;> simp only at hR ht2
  rotate_left
  · subst hR
    exact Or.inl (ht2.trans ht1)
  · subst hR
    exact Or.inl (ht2.trans ht1)
  rw [M.bind_apply, timeNow_apply] at hR
  simp only at hR
  rw [M.bind_apply, timeNow_apply] at hR
  simp only at hR
  rw [M.bind_apply, M.orFail_apply] at hR
  have ht5 := UpsertBooking_frame World.tasks (fun _ _ => rfl) (fun _ _ => rfl) E
    { ID := "", UserID := payload.UserID, TicketDetailID := payload.TicketDetailID,
      TotalTickets := payload.TotalTickets, FullName := payload.FullName,
      PersonalID := payload.PersonalID, BookingDate := E.clock (w2.step + 1) }
    { w2 with step := w2.step + 1 + 1 }
  rcases h5 : UpsertBooking E
    { ID := "", UserID := payload.UserID, TicketDetailID := payload.TicketDetailID,
      TotalTickets := payload.TotalTickets, FullName := payload.FullName,
      PersonalID := payload.PersonalID, BookingDate := E.clock (w2.step + 1) }
    { w2 with step := w2.step + 1 + 1 } with ⟨bookingID | e | s, w5⟩ <;>
    rw [h5] at hR ht5 <;> simp only at hR ht5
  rotate_left
  · subst hR
    exact Or.inl (ht5.trans (ht2.trans ht1))
  · subst hR
    exact Or.inl (ht5.trans (ht2.trans ht1))
  rw [M.bind_apply, M.orFail_apply] at hR
  have ht6 := InquiryTicketAmount_frame World.tasks (fun _ _ => rfl) E
    payload.TicketDetailID payload.TotalTickets w5
  rcases h6 : InquiryTicketAmount E payload.TicketDetailID payload.TotalTickets w5 with
    ⟨amount | e | s, w6⟩ <;> rw [h6] at hR ht6 <;> simp only at hR ht6
  rotate_left
  · subst hR
    exact Or.inl (ht6.trans (ht5.trans (ht2.trans ht1)))
  · subst hR
    exact Or.inl (ht6.trans (ht5.trans (ht2.trans ht1)))
  rw [M.bind_apply, timeNow_apply] at hR
  simp only at hR
  rw [M.bind_apply, M.orFail_apply] at hR
  have ht8 := UpsertPayment_frame World.tasks (fun _ _ => rfl) (fun _ _ => rfl)
    (fun _ _ => rfl) E
    { ID := 0, BookingID := bookingID, Amount := amount, Currency := "IDR",
      Status := "pending", PaymentMethod := "", PaymentDate := E.clock w6.step,
      PaymentExpiration := E.clock w2.step + Minute * 30, TaskID := "" }
    { w6 with step := w6.step + 1 }
  rcases h8 : UpsertPayment E
    { ID := 0, BookingID := bookingID, Amount := amount, Currency := "IDR",
      Status := "pending", PaymentMethod := "", PaymentDate := E.clock w6.step,
      PaymentExpiration := E.clock w2.step + Minute * 30, TaskID := "" }
    { w6 with step := w6.step + 1 } with ⟨u8 | e | s, w8⟩ <;>
    rw [h8] at hR ht8 <;> simp only at hR ht8
  rotate_left
  · subst hR
    exact Or.inl (ht8.trans (ht6.trans (ht5.trans (ht2.trans ht1))))
  · subst hR
    exact Or.inl (ht8.trans (ht6.trans (ht5.trans (ht2.trans ht1))))
  have hw8 : w8.tasks = w.tasks := ht8.trans (ht6.trans (ht5.trans (ht2.trans ht1)))
  rw [M.bind_apply] at hR
  have hd : DurationCalculation E (E.clock w2.step + Minute * 30) w8 =
      (Res.ok (E.clock w2.step + Minute * 30 - E.clock w8.step),
        { w8 with step := w8.step + 1 }) := rfl
  rw [hd] at hR
  simp only at hR
  rw [M.bind_apply, M.orFail_apply, Enqueue_apply] at hR
  cases hf : E.fault (w8.step + 1)
  · right
    simp only [hf, Bool.false_eq_true, if_false] at hR
    refine ⟨w2, w6, w8, bookingID, amount, h8, hw8, hf, ?_⟩
    have hkeep : ∀ (m : M Unit) (wa : World), M.keeps World.tasks m →
        (m wa).2.tasks = wa.tasks := fun m wa hm => hm.same wa
    rw [← hR, hkeep _ _ ?_, ← hw8]
    repeat' first
      | exact keeps_newUUID World.tasks (fun _ _ => rfl) E
      | exact keeps_Publish World.tasks (fun _ _ => rfl) (fun _ _ => rfl) E _ _ _
      | apply M.keeps_bind
      | apply M.keeps_ignoreErr
      | intro _
  · left
    simp only [hf, if_true] at hR
    subst hR
    exact hw8

/-- C13 does not hold of the code: the run of ConsumeBookTicketQueue for one
ticket of ticket detail 7 returns nil and leaves one task in the scheduler,
for booking id-10, enqueued without a processing delay: the time left until
the payment expiration (30 minutes less 14 ns) is its timeout. The method
SetTaskScheduler, given the same duration and payload, enqueues the task
with that duration as its processing delay. -/
theorem C13_expiry_task_has_no_delay :
    (ConsumeBookTicketQueue calmEnv sampleBookTicket emptyWorld).1 = Res.ok () ∧
    (ConsumeBookTicketQueue calmEnv sampleBookTicket emptyWorld).2.tasks =
      [{ typename := "payment:expired",
         payload := { BookingID := "id-10", TicketDetailID := 7, TotalTickets := 1 },
         maxRetry := 3, timeout := 30 * Minute - 14, processIn := none }] ∧
    (SetTaskScheduler calmEnv (30 * Minute - 14)
        { BookingID := "id-10", TicketDetailID := 7, TotalTickets := 1 } emptyWorld).2.tasks =
      [{ typename := "payment:expired",
         payload := { BookingID := "id-10", TicketDetailID := 7, TotalTickets := 1 },
         maxRetry := 3, timeout := 30 * Minute - 14,
         processIn := some (30 * Minute - 14) }] := by
  decide

/-- C14, as stated, fails. In the run of ConsumeBookTicketQueue for one
ticket of ticket detail 7 that returns nil, the pending payment is stored
with an empty task_id although a task was enqueued; and in the run in which
the enqueue (operation 20) fails, the pending payment of booking id-10 stays
in the store while the scheduler holds no task. -/
theorem C14_pending_payment_has_task_counterexample :
    (ConsumeBookTicketQueue calmEnv sampleBookTicket emptyWorld).1 = Res.ok () ∧
    (ConsumeBookTicketQueue calmEnv sampleBookTicket emptyWorld).2.payments =
      [{ id := 1, booking_id := "id-10", amount := 150000, currency := "IDR",
         status := "pending", payment_method := "", payment_date := 1000,
         payment_expiration := 2800, task_id := "" }] ∧
    (ConsumeBookTicketQueue calmEnv sampleBookTicket emptyWorld).2.tasks.length = 1 ∧
    (ConsumeBookTicketQueue (faultAt 20) sampleBookTicket emptyWorld).1 =
      Res.error (InternalServerError "error enqueue task payment expired") ∧
    (ConsumeBookTicketQueue (faultAt 20) sampleBookTicket emptyWorld).2.payments =
      [{ id := 1, booking_id := "id-10", amount := 150000, currency := "IDR",
         status := "pending", payment_method := "", payment_date := 1000,
         payment_expiration := 2800, task_id := "" }] ∧
    (ConsumeBookTicketQueue (faultAt 20) sampleBookTicket emptyWorld).2.tasks = [] := by
  decide

/-- C14 (amended): in ConsumeBookTicketQueue the pending payment is upserted
before the expiry task is enqueued, and with an empty task_id. A run either
stops before the payment upsert, with an error or a panic, no UpsertPayment
call and the tasks of the scheduler as they were; or it goes through the
stock check, the decrement, the booking upsert and the amount inquiry, with
the tasks still as they were, and calls UpsertPayment once, for a pending
payment with an empty task_id. If that call does not return nil, the run
does not either and the tasks are as they were: nothing was enqueued and
nothing is cancelled. If it returns nil, the tasks are as they were in the
world `w8` it leaves, and the enqueue follows: it is operation `w8.step + 1`,
after the clock reading `w8.step` of the duration, and the run either fails
at it, the tasks staying as they were, or adds exactly one task, whose
payload carries the booking_id of the payment and which the payment does not
name. -/
theorem C14_payment_is_upserted_before_enqueue (E : Env) (payload : request.BookTicket)
    (w : World) :
    ((ConsumeBookTicketQueue E payload w).1 ≠ Res.ok () ∧
      (∃ cs, (ConsumeBookTicketQueue E payload w).2.trace = w.trace ++ cs ∧
        ∀ p, Call.UpsertPayment p ∉ cs) ∧
      (ConsumeBookTicketQueue E payload w).2.tasks = w.tasks) ∨
    ∃ (stock : Int) (w1 w2 w5 w6 : World) (bookingID : String) (amount : Amount),
      CheckStockTicket E payload.TicketDetailID w = (Res.ok stock, w1) ∧
      DecrementStockTicket E payload.TicketDetailID w1 = (Res.ok (), w2) ∧
      UpsertBooking E
        { ID := "", UserID := payload.UserID, TicketDetailID := payload.TicketDetailID,
          TotalTickets := payload.TotalTickets, FullName := payload.FullName,
          PersonalID := payload.PersonalID, BookingDate := E.clock (w2.step + 1) }
        { w2 with step := w2.step + 2 } = (Res.ok bookingID, w5) ∧
      InquiryTicketAmount E payload.TicketDetailID payload.TotalTickets w5 =
        (Res.ok amount, w6) ∧
      w6.tasks = w.tasks ∧
      (ConsumeBookTicketQueue E payload w).2.trace = w.trace ++
        [Call.CheckStockTicket payload.TicketDetailID,
         Call.DecrementStockTicket payload.TicketDetailID,
         Call.UpsertBooking
          { ID := "", UserID := payload.UserID, TicketDetailID := payload.TicketDetailID,
            TotalTickets := payload.TotalTickets, FullName := payload.FullName,
            PersonalID := payload.PersonalID, BookingDate := E.clock (w2.step + 1) },
         Call.InquiryTicketAmount payload.TicketDetailID payload.TotalTickets,
         Call.UpsertPayment
          { ID := 0, BookingID := bookingID, Amount := amount, Currency := "IDR",
            Status := "pending", PaymentMethod := "", PaymentDate := E.clock w6.step,
            PaymentExpiration := E.clock w2.step + Minute * 30, TaskID := "" }] ∧
      (((UpsertPayment E
            { ID := 0, BookingID := bookingID, Amount := amount, Currency := "IDR",
              Status := "pending", PaymentMethod := "", PaymentDate := E.clock w6.step,
              PaymentExpiration := E.clock w2.step + Minute * 30, TaskID := "" }
            { w6 with step := w6.step + 1 }).1 ≠ Res.ok () ∧
          (ConsumeBookTicketQueue E payload w).1 ≠ Res.ok () ∧
          (ConsumeBookTicketQueue E payload w).2.tasks = w.tasks) ∨
        ∃ w8 : World,
          UpsertPayment E
            { ID := 0, BookingID := bookingID, Amount := amount, Currency := "IDR",
              Status := "pending", PaymentMethod := "", PaymentDate := E.clock w6.step,
              PaymentExpiration := E.clock w2.step + Minute * 30, TaskID := "" }
            { w6 with step := w6.step + 1 } = (Res.ok (), w8) ∧
          w8.tasks = w.tasks ∧
          ((E.fault (w8.step + 1) = true ∧
              (ConsumeBookTicketQueue E payload w).1 =
                Res.error (InternalServerError "error enqueue task payment expired") ∧
              (ConsumeBookTicketQueue E payload w).2.tasks = w.tasks) ∨
            (E.fault (w8.step + 1) = false ∧
              (ConsumeBookTicketQueue E payload w).2.tasks = w.tasks ++
                [{ typename := E.TypeSetPaymentExpired,
                   payload :=
                    { BookingID := bookingID, TicketDetailID := payload.TicketDetailID,
                      TotalTickets := payload.TotalTickets },
                   maxRetry := 3,
                   timeout := E.clock w2.step + Minute * 30 - E.clock w8.step,
                   processIn := none }]))) := by
  generalize hR : ConsumeBookTicketQueue E payload w = R
  unfold ConsumeBookTicketQueue at hR
  rw [M.bind_apply, M.orFail_apply] at hR
  have ht1 := CheckStockTicket_frame World.trace (fun _ _ => rfl) (fun _ _ => rfl) E
    payload.TicketDetailID w
  have hk1 := CheckStockTicket_frame World.tasks (fun _ _ => rfl) (fun _ _ => rfl) E
    payload.TicketDetailID w
  rcases h1 : CheckStockTicket E payload.TicketDetailID w with ⟨stock | e | s, w1⟩ <;>
    rw [h1] at hR ht1 hk1 <;> simp only at hR ht1 hk1
  rotate_left
  · subst hR
    exact Or.inl ⟨by simp, ⟨_, ht1, by simp⟩, hk1⟩
  · subst hR
    exact Or.inl ⟨by simp, ⟨_, ht1, by simp⟩, hk1⟩
  by_cases hs : stock ≤ 0
  · rw [if_pos hs] at hR
    subst hR
    exact Or.inl ⟨by simp, ⟨_, ht1, by simp⟩, hk1⟩
  rw [if_neg hs, M.bind_apply, M.orFail_apply] at hR
  have ht2 := DecrementStockTicket_frame World.trace (fun _ _ => rfl) (fun _ _ => rfl) E
    payload.TicketDetailID w1
  have hk2 := DecrementStockTicket_frame World.tasks (fun _ _ => rfl) (fun _ _ => rfl) E
    payload.TicketDetailID w1
  rcases h2 : DecrementStockTicket E payload.TicketDetailID w1 with ⟨u | e | s, w2⟩ <;>
    rw [h2] at hR ht2 hk2 <;> simp only at hR ht2 hk2
  rotate_left
  · subst hR
    have htr := ht2
    rw [ht1, List.append_assoc] at htr
    exact Or.inl ⟨by simp, ⟨_, htr, by simp⟩, hk2.trans hk1⟩
  · subst hR
    have htr := ht2
    rw [ht1, List.append_assoc] at htr
    exact Or.inl ⟨by simp, ⟨_, htr, by simp⟩, hk2.trans hk1⟩
  rw [M.bind_apply, timeNow_apply] at hR
  simp only at hR
  rw [M.bind_apply, timeNow_apply] at hR
  simp only at hR
  rw [M.bind_apply, M.orFail_apply] at hR
  have ht5 := UpsertBooking_frame World.trace (fun _ _ => rfl) (fun _ _ => rfl) E
    { ID := "", UserID := payload.UserID, TicketDetailID := payload.TicketDetailID,
      TotalTickets := payload.TotalTickets, FullName := payload.FullName,
      PersonalID := payload.PersonalID, BookingDate := E.clock (w2.step + 1) }
    { w2 with step := w2.step + 1 + 1 }
  have hk5 := UpsertBooking_frame World.tasks (fun _ _ => rfl) (fun _ _ => rfl) E
    { ID := "", UserID := payload.UserID, TicketDetailID := payload.TicketDetailID,
      TotalTickets := payload.TotalTickets, FullName := payload.FullName,
      PersonalID := payload.PersonalID, BookingDate := E.clock (w2.step + 1) }
    { w2 with step := w2.step + 1 + 1 }
  rcases h5 : UpsertBooking E
    { ID := "", UserID := payload.UserID, TicketDetailID := payload.TicketDetailID,
      TotalTickets := payload.TotalTickets, FullName := payload.FullName,
      PersonalID := payload.PersonalID, BookingDate := E.clock (w2.step + 1) }
    { w2 with step := w2.step + 1 + 1 } with ⟨bookingID | e | s, w5⟩ <;>
    rw [h5] at hR ht5 hk5 <;> simp only at hR ht5 hk5
  rotate_left
  · subst hR
    have htr := ht5
    rw [ht2, ht1, List.append_assoc, List.append_assoc] at htr
    exact Or.inl ⟨by simp, ⟨_, htr, by simp⟩, hk5.trans (hk2.trans hk1)⟩
  · subst hR
    have htr := ht5
    rw [ht2, ht1, List.append_assoc, List.append_assoc] at htr
    exact Or.inl ⟨by simp, ⟨_, htr, by simp⟩, hk5.trans (hk2.trans hk1)⟩
  rw [M.bind_apply, M.orFail_apply] at hR
  have ht6 := InquiryTicketAmount_frame World.trace (fun _ _ => rfl) E
    payload.TicketDetailID payload.TotalTickets w5
  have hk6 := InquiryTicketAmount_frame World.tasks (fun _ _ => rfl) E
    payload.TicketDetailID payload.TotalTickets w5
  rcases h6 : InquiryTicketAmount E payload.TicketDetailID payload.TotalTickets w5 with
    ⟨amount | e | s, w6⟩ <;> rw [h6] at hR ht6 hk6 <;> simp only at hR ht6 hk6
  rotate_left
  · subst hR
    have htr := ht6
    rw [ht5, ht2, ht1, List.append_assoc, List.append_assoc, List.append_assoc] at htr
    exact Or.inl ⟨by simp, ⟨_, htr, by simp⟩, hk6.trans (hk5.trans (hk2.trans hk1))⟩
  · subst hR
    have htr := ht6
    rw [ht5, ht2, ht1, List.append_assoc, List.append_assoc, List.append_assoc] at htr
    exact Or.inl ⟨by simp, ⟨_, htr, by simp⟩, hk6.trans (hk5.trans (hk2.trans hk1))⟩
  have hw6 : w6.tasks = w.tasks := hk6.trans (hk5.trans (hk2.trans hk1))
  rw [M.bind_apply, timeNow_apply] at hR
  simp only at hR
  rw [M.bind_apply, M.orFail_apply] at hR
  have ht8 := UpsertPayment_frame World.trace (fun _ _ => rfl) (fun _ _ => rfl)
    (fun _ _ => rfl) E
    { ID := 0, BookingID := bookingID, Amount := amount, Currency := "IDR",
      Status := "pending", PaymentMethod := "", PaymentDate := E.clock w6.step,
      PaymentExpiration := E.clock w2.step + Minute * 30, TaskID := "" }
    { w6 with step := w6.step + 1 }
  have hk8 := UpsertPayment_frame World.tasks (fun _ _ => rfl) (fun _ _ => rfl)
    (fun _ _ => rfl) E
    { ID := 0, BookingID := bookingID, Amount := amount, Currency := "IDR",
      Status := "pending", PaymentMethod := "", PaymentDate := E.clock w6.step,
      PaymentExpiration := E.clock w2.step + Minute * 30, TaskID := "" }
    { w6 with step := w6.step + 1 }
  right
  refine ⟨stock, w1, w2, w5, w6, bookingID, amount, rfl, h2, h5, h6, hw6, ?_⟩
  rcases h8 : UpsertPayment E
    { ID := 0, BookingID := bookingID, Amount := amount, Currency := "IDR",
      Status := "pending", PaymentMethod := "", PaymentDate := E.clock w6.step,
      PaymentExpiration := E.clock w2.step + Minute * 30, TaskID := "" }
    { w6 with step := w6.step + 1 } with ⟨u8 | e | s, w8⟩ <;>
    rw [h8] at hR ht8 hk8 <;> simp only at hR ht8 hk8
  rotate_left
  · subst hR
    refine ⟨?_, Or.inl ⟨by simp, by simp, hk8.trans hw6⟩⟩
    simp only [ht8, ht6, ht5, ht2, ht1, List.append_assoc, List.cons_append, List.nil_append]
  · subst hR
    refine ⟨?_, Or.inl ⟨by simp, by simp, hk8.trans hw6⟩⟩
    simp only [ht8, ht6, ht5, ht2, ht1, List.append_assoc, List.cons_append, List.nil_append]
  have hw8 : w8.tasks = w.tasks := hk8.trans hw6
  have htrace : R.2.trace = w8.trace := by
    have hkeep : ∀ (m : M Unit) (wa : World), M.keeps World.trace m →
        (m wa).2.trace = wa.trace := fun m wa hm => hm.same wa
    rw [← hR, hkeep _ _ ?_]
    repeat' first
      | exact keeps_DurationCalculation World.trace (fun _ _ => rfl) E _
      | exact keeps_Enqueue World.trace (fun _ _ => rfl) (fun _ _ => rfl) E _
      | exact keeps_newUUID World.trace (fun _ _ => rfl) E
      | exact keeps_Publish World.trace (fun _ _ => rfl) (fun _ _ => rfl) E _ _ _
      | apply M.keeps_bind
      | apply M.keeps_orFail
      | apply M.keeps_ignoreErr
      | intro _
  refine ⟨?_, Or.inr ⟨w8, rfl, hw8, ?_⟩⟩
  · rw [htrace]
    simp only [ht8, ht6, ht5, ht2, ht1, List.append_assoc, List.cons_append, List.nil_append]
  rw [M.bind_apply] at hR
  have hd : DurationCalculation E (E.clock w2.step + Minute * 30) w8 =
      (Res.ok (E.clock w2.step + Minute * 30 - E.clock w8.step),
        { w8 with step := w8.step + 1 }) := rfl
  rw [hd] at hR
  simp only at hR
  rw [M.bind_apply, M.orFail_apply, Enqueue_apply] at hR
  cases hf : E.fault (w8.step + 1)
  · right
    simp only [hf, Bool.false_eq_true, if_false] at hR
    refine ⟨rfl, ?_⟩
    have hkeep : ∀ (m : M Unit) (wa : World), M.keeps World.tasks m →
        (m wa).2.tasks = wa.tasks := fun m wa hm => hm.same wa
    rw [← hR, hkeep _ _ ?_, ← hw8]
    repeat' first
      | exact keeps_newUUID World.tasks (fun _ _ => rfl) E
      | exact keeps_Publish World.tasks (fun _ _ => rfl) (fun _ _ => rfl) E _ _ _
      | apply M.keeps_bind
      | apply M.keeps_ignoreErr
      | intro _
  · left
    simp only [hf, if_true] at hR
    subst hR
    exact ⟨rfl, rfl, hw8⟩

/-! ### Stock and quota over sequences of calls -/

/-- C15 does not hold of the code. From a cache counter of 5 for ticket
detail 7 and no payment: a ConsumeBookTicketQueue run whose booking upsert
fails (operation 4) returns an error after the decrement, leaving the
counter at 4 with no seat held; and an allocation followed by the expiry of
its payment leaves the counter at 4 with no seat held, the counter plus the
held seats being 5 in between. -/
theorem C15_stock_is_not_conserved :
    stockCounter 7 stockWorld = some 5 ∧ heldSeats 7 stockWorld = 0 ∧
    (ConsumeBookTicketQueue (faultAt 4) sampleBookTicket stockWorld).1 =
      Res.error (InternalServerError "error upsert booking") ∧
    stockCounter 7
      (runStockOps (faultAt 4) [StockOp.consume sampleBookTicket] stockWorld) = some 4 ∧
    heldSeats 7 (runStockOps (faultAt 4) [StockOp.consume sampleBookTicket] stockWorld) = 0 ∧
    stockCounter 7
      (runStockOps slowEnv [StockOp.consume sampleBookTicket] stockWorld) = some 4 ∧
    heldSeats 7 (runStockOps slowEnv [StockOp.consume sampleBookTicket] stockWorld) = 1 ∧
    (runStockOps slowEnv
      [StockOp.consume sampleBookTicket,
       StockOp.expire { BookingID := "id-7", TicketDetailID := 7, TotalTickets := 1 }]
      stockWorld).payments.map PaymentRow.status = ["expired"] ∧
    stockCounter 7
      (runStockOps slowEnv
        [StockOp.consume sampleBookTicket,
         StockOp.expire { BookingID := "id-7", TicketDetailID := 7, TotalTickets := 1 }]
        stockWorld) = some 4 ∧
    heldSeats 7
      (runStockOps slowEnv
        [StockOp.consume sampleBookTicket,
         StockOp.expire { BookingID := "id-7", TicketDetailID := 7, TotalTickets := 1 }]
        stockWorld) = 0 := by
  decide

/-- C16 does not hold of the code. From a cache counter of 5 for ticket
detail 7 and no booking, three BookTicket calls of user 42 for one ticket
each, each followed by its ConsumeBookTicketQueue call, leave three bookings
of the user with three tickets in all; and one BookTicket call for three
tickets, followed by its ConsumeBookTicketQueue call, leaves a booking of
three tickets. -/
theorem C16_quota_is_exceeded :
    (bookingsOfUser 42
      (runBookings calmEnv
        [(sampleBookTicket, 42), (sampleBookTicket, 42), (sampleBookTicket, 42)]
        stockWorld)).length = 3 ∧
    ticketsOfUser 42
      (runBookings calmEnv
        [(sampleBookTicket, 42), (sampleBookTicket, 42), (sampleBookTicket, 42)]
        stockWorld) = 3 ∧
    (bookingsOfUser 42
      (runBookings calmEnv [({ sampleBookTicket with TotalTickets := 3 }, 42)]
        stockWorld)).length = 1 ∧
    ticketsOfUser 42
      (runBookings calmEnv [({ sampleBookTicket with TotalTickets := 3 }, 42)]
        stockWorld) = 3 := by
  decide

/-! ### Decimal text of an integer -/

/-- One step of reading decimal digits, as in `digitsValue`. -/
theorem digitStep (d : Nat) (hd : d < 10) :
    (Nat.digitChar d).isDigit = true ∧ (Nat.digitChar d).toNat - 48 = d ∧
    Nat.digitChar d ≠ '+' ∧ Nat.digitChar d ≠ '-' := by
  interval_cases d <;> decide

theorem toDigitsCore_append (fuel n : Nat) (ds : List Char) :
    Nat.toDigitsCore 10 fuel n ds = Nat.toDigitsCore 10 fuel n [] ++ ds := by
  induction fuel generalizing n ds with
  | zero => simp [Nat.toDigitsCore]
  | succ fuel ih =>
    simp only [Nat.toDigitsCore]
    split
    · simp
    · rw [ih (n / 10) (Nat.digitChar (n % 10) :: ds), ih (n / 10) [Nat.digitChar (n % 10)]]
      simp

theorem toDigitsCore_value (fuel n : Nat) (h : n < fuel) :
    (Nat.toDigitsCore 10 fuel n []).foldl
      (fun acc c => acc.bind fun n => if c.isDigit then some (10 * n + (c.toNat - 48)) else none)
      (some 0) = some n := by
  induction fuel generalizing n with
  | zero => omega
  | succ fuel ih =>
    have hd := digitStep (n % 10) (Nat.mod_lt _ (by decide))
    simp only [Nat.toDigitsCore]
    split
    · rename_i h0
      simp only [List.foldl_cons, List.foldl_nil, Option.some_bind, hd.1, if_true, hd.2.1]
      congr 1
      omega
    · rename_i h0
      rw [toDigitsCore_append, List.foldl_append, ih (n / 10) (by omega)]
      simp only [List.foldl_cons, List.foldl_nil, Option.some_bind, hd.1, if_true, hd.2.1]
      congr 1
      omega

theorem toDigitsCore_head (fuel n : Nat) :
    ∃ d rest, d < 10 ∧ Nat.toDigitsCore 10 (fuel + 1) n [] = Nat.digitChar d :: rest := by
  induction fuel generalizing n with
  | zero =>
    refine ⟨n % 10, [], Nat.mod_lt _ (by decide), ?_⟩
    simp [Nat.toDigitsCore]
  | succ fuel ih =>
    rw [Nat.toDigitsCore]
    split
    · exact ⟨n % 10, [], Nat.mod_lt _ (by decide), rfl⟩
    · obtain ⟨d, rest, hd, h⟩ := ih (n / 10)
      rw [toDigitsCore_append, h]
      exact ⟨d, rest ++ [Nat.digitChar (n % 10)], hd, rfl⟩

/-- The decimal text of a natural number reads back as that number. -/
theorem digitsValue_repr (n : Nat) : digitsValue (Nat.repr n).toList = some n := by
  obtain ⟨d, rest, _, h⟩ := toDigitsCore_head n n
  have hv := toDigitsCore_value (n + 1) n (Nat.lt_succ_self n)
  show digitsValue (Nat.toDigits 10 n) = some n
  unfold digitsValue Nat.toDigits
  rw [if_neg (by rw [h]; simp)]
  exact hv

/-- ParseInt reads the decimal text of a 64-bit integer back as that
integer. -/
theorem ParseInt_toString (s : Int) (h1 : minInt64 ≤ s) (h2 : s ≤ maxInt64) :
    ParseInt (toString s) = some s := by
  cases s with
  | ofNat m =>
    obtain ⟨d, rest, hd, h⟩ := toDigitsCore_head m m
    have hl : (toString (Int.ofNat m)).toList = Nat.digitChar d :: rest := h
    have hv : digitsValue (toString (Int.ofNat m)).toList = some m := digitsValue_repr m
    have hs := digitStep d hd
    have hin : inInt64 (Int.ofNat m) = some (Int.ofNat m) := if_pos ⟨h1, h2⟩
    unfold ParseInt
    split
    · rename_i cs hcs
      rw [hl] at hcs
      exact absurd (List.cons.inj hcs).1 hs.2.2.1
    · rename_i cs hcs
      rw [hl] at hcs
      exact absurd (List.cons.inj hcs).1 hs.2.2.2
    · rw [hv]
      exact hin
  | negSucc m =>
    have hl : (toString (Int.negSucc m)).toList = '-' :: (Nat.repr (m + 1)).toList := by
      show ("-" ++ Nat.repr (m + 1)).toList = _
      simp [String.toList]
    have hv := digitsValue_repr (m + 1)
    have hin : inInt64 (Int.negSucc m) = some (Int.negSucc m) := if_pos ⟨h1, h2⟩
    unfold ParseInt
    split
    · rename_i cs hcs
      rw [hl] at hcs
      exact absurd (List.cons.inj hcs).1 (by decide)
    · rename_i cs hcs
      rw [hl] at hcs
      rw [← (List.cons.inj hcs).2, hv, Option.some_bind,
        show -(Int.ofNat (m + 1)) = Int.negSucc m from rfl]
      exact hin
    · rename_i _ hno
      exact absurd hl (hno _)

/-! ### The cache-aside stock check -/

/-- A check that finds an integer in the cache returns it after the one
cache read. -/
theorem CheckStockTicket_hit (E : Env) (tid : Int) (w : World) (v : String) (n : Int)
    (hk : kvLookup (toString tid) w.redis = some v) (hp : ParseInt v = some n)
    (hf : E.fault w.step = false) :
    CheckStockTicket E tid w =
      (Res.ok n,
        { w with step := w.step + 1, trace := w.trace ++ [Call.CheckStockTicket tid] }) := by
  simp only [CheckStockTicket, redisGet, M.run, hf, hk, hp, Bool.false_eq_true, if_false]

/-- A check that finds nothing in the cache, with the circuit closed, a
reply 200 carrying stock `s` and a successful cache write, stores the text
of `s` and returns `s`. -/
theorem CheckStockTicket_miss (E : Env) (tid : Int) (w : World) (d : RespData) (s : Int)
    (hk : kvLookup (toString tid) w.redis = none)
    (hready : E.ready (w.step + 1) = true)
    (hhttp : E.http (w.step + 1 + 1) = HttpResp.resp 200 (Body.envelope (some d)))
    (hstock : d.stock = some s) (h1 : minInt64 ≤ s) (h2 : s ≤ maxInt64)
    (hset : E.fault (w.step + 1 + 1 + 1) = false) :
    CheckStockTicket E tid w =
      (Res.ok s,
        { w with
          redis := kvStore (toString tid) (toString s) w.redis,
          step := w.step + 1 + 1 + 1 + 1,
          trace := w.trace ++ [Call.CheckStockTicket tid] }) := by
  have hp := ParseInt_toString s h1 h2
  cases hf : E.fault w.step <;>
    simp only [CheckStockTicket, redisGet, stockLookup, redisSet, M.run, hf, hk, hready, hhttp,
      hstock, hset, hp, Bool.false_eq_true, Bool.not_true, if_true, if_false, ne_eq,
      not_true_eq_false]

/-- C17: the stock check is cache-aside. If the cache holds, under the
decimal text of the ticket detail id, a text that ParseInt reads as `n`, and
the cache read does not fail, CheckStockTicket returns `n` after that one
operation: no request is sent to the ticket service. If the cache holds
nothing under the key, the circuit is closed, the ticket service replies 200
with stock `s` (a 64-bit integer) and the cache write does not fail,
CheckStockTicket stores the decimal text of `s` under the key (a SET with
expiration 0) and returns `s`; the next CheckStockTicket, its cache read not
failing, returns `s` after one operation, from the cache. -/
theorem C17_cache_aside_check (E : Env) (tid : Int) (w : World) :
    (∀ (v : String) (n : Int),
      kvLookup (toString tid) w.redis = some v → ParseInt v = some n →
      E.fault w.step = false →
      CheckStockTicket E tid w =
        (Res.ok n,
          { w with step := w.step + 1, trace := w.trace ++ [Call.CheckStockTicket tid] })) ∧
    (∀ (d : RespData) (s : Int),
      kvLookup (toString tid) w.redis = none →
      E.ready (w.step + 1) = true →
      E.http (w.step + 2) = HttpResp.resp 200 (Body.envelope (some d)) →
      d.stock = some s → minInt64 ≤ s → s ≤ maxInt64 →
      E.fault (w.step + 3) = false →
      CheckStockTicket E tid w =
        (Res.ok s,
          { w with
            redis := kvStore (toString tid) (toString s) w.redis,
            step := w.step + 4,
            trace := w.trace ++ [Call.CheckStockTicket tid] }) ∧
      (E.fault (w.step + 4) = false →
        CheckStockTicket E tid
          { w with
            redis := kvStore (toString tid) (toString s) w.redis,
            step := w.step + 4,
            trace := w.trace ++ [Call.CheckStockTicket tid] } =
          (Res.ok s,
            { w with
              redis := kvStore (toString tid) (toString s) w.redis,
              step := w.step + 5,
              trace := w.trace ++ [Call.CheckStockTicket tid] ++
                [Call.CheckStockTicket tid] }))) := by
  refine ⟨fun v n hk hp hf => CheckStockTicket_hit E tid w v n hk hp hf, ?_⟩
  intro d s hk hready hhttp hstock h1 h2 hset
  refine ⟨CheckStockTicket_miss E tid w d s hk hready hhttp hstock h1 h2 hset, ?_⟩
  intro hf
  exact CheckStockTicket_hit E tid _ (toString s) s (kvLookup_kvStore _ _ _)
    (ParseInt_toString s h1 h2) hf

/-- C17 at ticket detail 7: with the text 5 in the cache the check returns 5
after one operation; with an empty cache and the reply 200 with stock 5 it
stores the text 5 and returns 5, and the check after it returns 5 after one
operation. -/
theorem C17_cache_aside_check_witness :
    CheckStockTicket calmEnv 7 stockWorld =
      (Res.ok 5, { stockWorld with step := 1, trace := [Call.CheckStockTicket 7] }) ∧
    CheckStockTicket calmEnv 7 emptyWorld =
      (Res.ok 5,
        { emptyWorld with
          redis := [("7", "5")], step := 4, trace := [Call.CheckStockTicket 7] }) ∧
    CheckStockTicket calmEnv 7
        { emptyWorld with
          redis := [("7", "5")], step := 4, trace := [Call.CheckStockTicket 7] } =
      (Res.ok 5,
        { emptyWorld with
          redis := [("7", "5")], step := 5,
          trace := [Call.CheckStockTicket 7, Call.CheckStockTicket 7] }) :=
  ⟨(C17_cache_aside_check calmEnv 7 stockWorld).1 "5" 5 (by rfl) (by rfl) (by rfl),
   ((C17_cache_aside_check calmEnv 7 emptyWorld).2
      ⟨some 5, some 1, some 150000, none, none, none⟩ 5
      (by rfl) (by rfl) (by rfl) (by rfl) (by decide) (by decide) (by rfl)).1,
   ((C17_cache_aside_check calmEnv 7 emptyWorld).2
      ⟨some 5, some 1, some 150000, none, none, none⟩ 5
      (by rfl) (by rfl) (by rfl) (by rfl) (by decide) (by decide) (by rfl)).2 (by rfl)⟩

/-! ### The status of an upstream reply -/

/-- C18, as stated, fails: with the circuit closed and the upstream reply
201 Created, a 2xx status, each of the five outbound operations returns its
BadRequest error; the same reply with status 200 makes each of them
succeed. -/
theorem C18_status_2xx_is_accepted_counterexample :
    (SubmitPayment createdEnv "b-1" 150000 "card" 0 emptyWorld).1 =
      Res.error (BadRequest "Submit payment failed") ∧
    (DeleteTaskScheduler createdEnv "t-1" emptyWorld).1 =
      Res.error (BadRequest "Delete task scheduler failed") ∧
    (InquiryTicketAmount createdEnv 7 1 emptyWorld).1 =
      Res.error (BadRequest "Inquiry ticket amount failed") ∧
    (BookingService.ValidateToken createdEnv "tok" emptyWorld).1 =
      Res.error (BadRequest "Invalid token") ∧
    (CheckStockTicket createdEnv 7 emptyWorld).1 =
      Res.error (BadRequest "Get stock ticket failed") ∧
    (SubmitPayment okEnv "b-1" 150000 "card" 0 emptyWorld).1 = Res.ok () ∧
    (DeleteTaskScheduler okEnv "t-1" emptyWorld).1 = Res.ok () ∧
    (InquiryTicketAmount okEnv 7 1 emptyWorld).1 = Res.ok 150000 ∧
    (BookingService.ValidateToken okEnv "tok" emptyWorld).1 =
      Res.ok { IsValid := true, UserID := 42, EmailUser := "ann@example.org" } ∧
    (CheckStockTicket okEnv 7 emptyWorld).1 = Res.ok 5 := by
  decide

/-- C18 (amended): the status that is accepted is 200 alone. With the
circuit closed and an upstream reply of status `status`: when `status` is
not 200, each of SubmitPayment, DeleteTaskScheduler, InquiryTicketAmount,
ValidateToken and the stock lookup of CheckStockTicket returns its
BadRequest error; when `status` is 200, SubmitPayment and
DeleteTaskScheduler return nil, and the other three return what the body
carries (the amount, the user of a valid token, the text of the stock). -/
theorem C18_status_other_than_200_is_bad_request (E : Env) (w : World) (status : Nat)
    (body : Body) (hready : E.ready w.step = true)
    (hhttp : E.http (w.step + 1) = HttpResp.resp status body) :
    (status ≠ 200 →
      (∀ id amount method date,
        (SubmitPayment E id amount method date w).1 =
          Res.error (BadRequest "Submit payment failed")) ∧
      (∀ taskID,
        (DeleteTaskScheduler E taskID w).1 =
          Res.error (BadRequest "Delete task scheduler failed")) ∧
      (∀ tid n,
        (InquiryTicketAmount E tid n w).1 =
          Res.error (BadRequest "Inquiry ticket amount failed")) ∧
      (∀ token,
        (BookingService.ValidateToken E token w).1 = Res.error (BadRequest "Invalid token")) ∧
      (stockLookup E w).1 = Res.error (BadRequest "Get stock ticket failed")) ∧
    (status = 200 →
      (∀ id amount method date, (SubmitPayment E id amount method date w).1 = Res.ok ()) ∧
      (∀ taskID, (DeleteTaskScheduler E taskID w).1 = Res.ok ()) ∧
      (∀ d t a tid n, body = Body.envelope (some d) → d.total_ticket = some t →
        d.total_amount = some a → (InquiryTicketAmount E tid n w).1 = Res.ok a) ∧
      (∀ d u e token, body = Body.envelope (some d) → d.is_valid = some true →
        d.user_id = some u → d.email_user = some e →
        (BookingService.ValidateToken E token w).1 =
          Res.ok { IsValid := true, UserID := u, EmailUser := e }) ∧
      (∀ d s, body = Body.envelope (some d) → d.stock = some s →
        (stockLookup E w).1 = Res.ok (toString s))) := by
  constructor
  · intro hs
    refine ⟨?_, ?_, ?_, ?_, ?_⟩
    · intro id amount method date
      simp only [SubmitPayment, M.run, hready, hhttp, hs, Bool.not_true, Bool.false_eq_true,
        if_false, ne_eq, not_false_eq_true, if_true]
    · intro taskID
      simp only [DeleteTaskScheduler, M.run, hready, hhttp, hs, Bool.not_true,
        Bool.false_eq_true, if_false, ne_eq, not_false_eq_true, if_true]
    · intro tid n
      simp only [InquiryTicketAmount, M.run, hready, hhttp, hs, Bool.not_true,
        Bool.false_eq_true, if_false, ne_eq, not_false_eq_true, if_true]
    · intro token
      simp only [BookingService.ValidateToken, M.run, hready, hhttp, hs, Bool.not_true,
        Bool.false_eq_true, if_false, ne_eq, not_false_eq_true, if_true]
    · simp only [stockLookup, M.run, hready, hhttp, hs, Bool.not_true, Bool.false_eq_true,
        if_false, ne_eq, not_false_eq_true, if_true]
  · intro hs
    subst hs
    refine ⟨?_, ?_, ?_, ?_, ?_⟩
    · intro id amount method date
      simp only [SubmitPayment, M.run, hready, hhttp, Bool.not_true, Bool.false_eq_true,
        if_false, ne_eq, not_true_eq_false]
    · intro taskID
      simp only [DeleteTaskScheduler, M.run, hready, hhttp, Bool.not_true,
        Bool.false_eq_true, if_false, ne_eq, not_true_eq_false]
    · intro d t a tid n hb ht ha
      subst hb
      simp only [InquiryTicketAmount, M.run, hready, hhttp, ht, ha, Bool.not_true,
        Bool.false_eq_true, if_false, ne_eq, not_true_eq_false]
    · intro d u e token hb hv hu he
      subst hb
      simp only [BookingService.ValidateToken, M.run, hready, hhttp, hv, hu, he, Bool.not_true,
        Bool.false_eq_true, if_false, ne_eq, not_true_eq_false]
    · intro d s hb hst
      subst hb
      simp only [stockLookup, M.run, hready, hhttp, hst, Bool.not_true, Bool.false_eq_true,
        if_false, ne_eq, not_true_eq_false]

/-- C18 (amended) at the reply 201 Created, where SubmitPayment and the
stock lookup return their BadRequest errors, and at the reply 200, where
DeleteTaskScheduler returns nil and InquiryTicketAmount the amount of the
body. -/
theorem C18_status_other_than_200_is_bad_request_witness :
    (SubmitPayment createdEnv "b-1" 150000 "card" 0 emptyWorld).1 =
      Res.error (BadRequest "Submit payment failed") ∧
    (stockLookup createdEnv emptyWorld).1 = Res.error (BadRequest "Get stock ticket failed") ∧
    (DeleteTaskScheduler okEnv "t-1" emptyWorld).1 = Res.ok () ∧
    (InquiryTicketAmount okEnv 7 1 emptyWorld).1 = Res.ok 150000 :=
  ⟨((C18_status_other_than_200_is_bad_request createdEnv emptyWorld 201
      (Body.envelope
        (some ⟨some 5, some 1, some 150000, some true, some 42, some "ann@example.org"⟩))
      (by rfl) (by rfl)).1 (by decide)).1 "b-1" 150000 "card" 0,
   ((C18_status_other_than_200_is_bad_request createdEnv emptyWorld 201
      (Body.envelope
        (some ⟨some 5, some 1, some 150000, some true, some 42, some "ann@example.org"⟩))
      (by rfl) (by rfl)).1 (by decide)).2.2.2.2,
   ((C18_status_other_than_200_is_bad_request okEnv emptyWorld 200
      (Body.envelope
        (some ⟨some 5, some 1, some 150000, some true, some 42, some "ann@example.org"⟩))
      (by rfl) (by rfl)).2 (by rfl)).2.1 "t-1",
   ((C18_status_other_than_200_is_bad_request okEnv emptyWorld 200
      (Body.envelope
        (some ⟨some 5, some 1, some 150000, some true, some 42, some "ann@example.org"⟩))
      (by rfl) (by rfl)).2 (by rfl)).2.2.1
      ⟨some 5, some 1, some 150000, some true, some 42, some "ann@example.org"⟩
      1 150000 7 1 (by rfl) (by rfl) (by rfl)⟩

/-! ### Upserts, twice -/

theorem findBooking_updateBookings_same (k : String) (b : entity.Booking)
    (rows : List BookingRow) (r : BookingRow) (h : findBooking k rows = some r) :
    findBooking k (updateBookings k b rows) =
      some { r with user_id := b.UserID, ticket_detail_id := b.TicketDetailID,
                    total_tickets := b.TotalTickets, full_name := b.FullName,
                    personal_id := b.PersonalID, booking_date := formatTime b.BookingDate } := by
  induction rows with
  | nil => simp [findBooking] at h
  | cons x rest ih =>
    by_cases hx : x.id = k
    · simp only [findBooking, hx, if_true, Option.some.injEq] at h
      subst h
      simp [updateBookings, findBooking, hx]
    · simp only [findBooking, hx, if_false] at h
      simp [updateBookings, findBooking, hx, ih h]

theorem updateBookings_twice (k : String) (b : entity.Booking) (rows : List BookingRow) :
    updateBookings k b (updateBookings k b rows) = updateBookings k b rows := by
  induction rows with
  | nil => rfl
  | cons x rest ih =>
    by_cases hx : x.id = k
    · simp [updateBookings, hx, ih]
    · simp [updateBookings, hx, ih]

theorem findBooking_append_none (k : String) (rows : List BookingRow) (r : BookingRow)
    (h : findBooking k rows = none) (hr : r.id ≠ k) : findBooking k (rows ++ [r]) = none := by
  induction rows with
  | nil => simp [findBooking, hr]
  | cons x rest ih =>
    by_cases hx : x.id = k
    · simp [findBooking, hx] at h
    · simp only [findBooking, hx, if_false] at h
      simp only [List.cons_append, findBooking, hx, if_false]
      exact ih h

theorem updatePayments_twice (k : String) (p : entity.Payment) (rows : List PaymentRow) :
    updatePayments k p (updatePayments k p rows) = updatePayments k p rows := by
  induction rows with
  | nil => rfl
  | cons x rest ih =>
    by_cases hx : x.booking_id = k
    · simp [updatePayments, hx, ih]
    · simp [updatePayments, hx, ih]

theorem updatePayments_none (k : String) (p : entity.Payment) (rows : List PaymentRow)
    (h : findPayment k rows = none) : updatePayments k p rows = rows := by
  induction rows with
  | nil => rfl
  | cons x rest ih =>
    by_cases hx : x.booking_id = k
    · simp [findPayment, hx] at h
    · simp only [findPayment, hx, if_false] at h
      simp [updatePayments, hx, ih h]

theorem updatePayments_append (k : String) (p : entity.Payment) (rows more : List PaymentRow) :
    updatePayments k p (rows ++ more) = updatePayments k p rows ++ updatePayments k p more := by
  induction rows with
  | nil => rfl
  | cons x rest ih => simp [updatePayments, ih]

theorem findPayment_append_none (k : String) (rows : List PaymentRow) (r : PaymentRow)
    (h : findPayment k rows = none) (hr : r.booking_id = k) :
    findPayment k (rows ++ [r]) = some r := by
  induction rows with
  | nil => simp [findPayment, hr]
  | cons x rest ih =>
    by_cases hx : x.booking_id = k
    · simp [findPayment, hx] at h
    · simp only [findPayment, hx, if_false] at h
      simp only [List.cons_append, findPayment, hx, if_false]
      exact ih h

theorem filter_key_none (k : String) (rows : List PaymentRow)
    (h : findPayment k rows = none) :
    rows.filter (fun r => decide (r.booking_id = k)) = [] := by
  induction rows with
  | nil => rfl
  | cons x rest ih =>
    by_cases hx : x.booking_id = k
    · simp [findPayment, hx] at h
    · simp only [findPayment, hx, if_false] at h
      simp [List.filter, hx, ih h]

/-- UpsertBooking of a stored id, no operation failing: the row is
updated. -/
theorem UpsertBooking_update (E : Env) (hf : ∀ n, E.fault n = false) (b : entity.Booking)
    (w : World) (r : BookingRow) (h : findBooking (canon E b.ID) w.bookings = some r) :
    UpsertBooking E b w =
      (Res.ok r.id,
        { w with
          bookings := updateBookings (canon E b.ID) b w.bookings,
          step := w.step + 4,
          trace := w.trace ++ [Call.UpsertBooking b] }) := by
  simp only [UpsertBooking, M.run, hf, h, Bool.false_eq_true, if_false]

/-- UpsertBooking of an id that is not stored, no operation failing: a row
with a generated id is added. -/
theorem UpsertBooking_insert (E : Env) (hf : ∀ n, E.fault n = false) (b : entity.Booking)
    (w : World) (h : findBooking (canon E b.ID) w.bookings = none) :
    UpsertBooking E b w =
      (Res.ok (E.uuid (w.step + 3)),
        { w with
          bookings := w.bookings ++
            [{ id := E.uuid (w.step + 3), user_id := b.UserID,
               ticket_detail_id := b.TicketDetailID, total_tickets := b.TotalTickets,
               full_name := b.FullName, personal_id := b.PersonalID,
               booking_date := formatTime b.BookingDate }],
          step := w.step + 5,
          trace := w.trace ++ [Call.UpsertBooking b] }) := by
  simp only [UpsertBooking, M.run, hf, h, Bool.false_eq_true, if_false]

/-- UpsertPayment for a booking with a stored payment, no operation failing:
the rows of the booking are updated. -/
theorem UpsertPayment_update (E : Env) (hf : ∀ n, E.fault n = false) (p : entity.Payment)
    (w : World) (r : PaymentRow) (h : findPayment (canon E p.BookingID) w.payments = some r) :
    UpsertPayment E p w =
      (Res.ok (),
        { w with
          payments := updatePayments (canon E p.BookingID) p w.payments,
          step := w.step + 4,
          trace := w.trace ++ [Call.UpsertPayment p] }) := by
  simp only [UpsertPayment, M.run, hf, h, Bool.false_eq_true, if_false]

/-- UpsertPayment for a booking without a stored payment, no operation
failing: a row is added. -/
theorem UpsertPayment_insert (E : Env) (hf : ∀ n, E.fault n = false) (p : entity.Payment)
    (w : World) (h : findPayment (canon E p.BookingID) w.payments = none) :
    UpsertPayment E p w =
      (Res.ok (),
        { w with
          payments := w.payments ++
            [{ id := Int.ofNat (w.paymentSeq + 1), booking_id := canon E p.BookingID,
               amount := p.Amount, currency := p.Currency, status := p.Status,
               payment_method := p.PaymentMethod, payment_date := formatTime p.PaymentDate,
               payment_expiration := formatTime p.PaymentExpiration, task_id := p.TaskID }],
          paymentSeq := w.paymentSeq + 1,
          step := w.step + 4,
          trace := w.trace ++ [Call.UpsertPayment p] }) := by
  simp only [UpsertPayment, M.run, hf, h, Bool.false_eq_true, if_false]

/-- C19, as stated, fails: UpsertBooking called twice with the booking that
ConsumeBookTicketQueue builds (empty ID), or with the ID b-9 that is not
stored, leaves two rows and returns two different ids, where one call leaves
one row. -/
theorem C19_upsert_booking_twice_counterexample :
    (UpsertBooking calmEnv sampleBooking emptyWorld).1 = Res.ok "id-3" ∧
    (UpsertBooking calmEnv sampleBooking emptyWorld).2.bookings.length = 1 ∧
    (UpsertBooking calmEnv sampleBooking
      (UpsertBooking calmEnv sampleBooking emptyWorld).2).1 = Res.ok "id-8" ∧
    (UpsertBooking calmEnv sampleBooking
      (UpsertBooking calmEnv sampleBooking emptyWorld).2).2.bookings.map BookingRow.id =
      ["id-3", "id-8"] ∧
    (UpsertBooking calmEnv { sampleBooking with ID := "b-9" }
      (UpsertBooking calmEnv { sampleBooking with ID := "b-9" } emptyWorld).2).1 =
      Res.ok "id-8" ∧
    (UpsertBooking calmEnv { sampleBooking with ID := "b-9" }
      (UpsertBooking calmEnv { sampleBooking with ID := "b-9" }
        emptyWorld).2).2.bookings.map BookingRow.id = ["id-3", "id-8"] := by
  decide

/-- C19 (amended): when no operation fails, UpsertBooking is idempotent for
a booking whose ID is stored: two calls leave table bookings as one call
does and both return that id; for a booking whose ID is not stored each call
adds a row under a newly generated id and returns that id. UpsertPayment is
idempotent for every payment: two calls leave table payments as one call
does, with exactly one row of the booking if it had none. -/
theorem C19_upsert_twice (E : Env) (hf : ∀ n, E.fault n = false) (w : World) :
    (∀ (b : entity.Booking) (r : BookingRow),
      findBooking (canon E b.ID) w.bookings = some r →
      (UpsertBooking E b w).1 = Res.ok r.id ∧
      (UpsertBooking E b (UpsertBooking E b w).2).1 = Res.ok r.id ∧
      (UpsertBooking E b (UpsertBooking E b w).2).2.bookings =
        (UpsertBooking E b w).2.bookings) ∧
    (∀ (b : entity.Booking),
      findBooking (canon E b.ID) w.bookings = none → E.uuid (w.step + 3) ≠ canon E b.ID →
      (UpsertBooking E b w).1 = Res.ok (E.uuid (w.step + 3)) ∧
      (UpsertBooking E b (UpsertBooking E b w).2).1 = Res.ok (E.uuid (w.step + 8)) ∧
      (UpsertBooking E b (UpsertBooking E b w).2).2.bookings =
        (UpsertBooking E b w).2.bookings ++
          [{ id := E.uuid (w.step + 8), user_id := b.UserID,
             ticket_detail_id := b.TicketDetailID, total_tickets := b.TotalTickets,
             full_name := b.FullName, personal_id := b.PersonalID,
             booking_date := formatTime b.BookingDate }]) ∧
    (∀ (p : entity.Payment),
      (UpsertPayment E p w).1 = Res.ok () ∧
      (UpsertPayment E p (UpsertPayment E p w).2).1 = Res.ok () ∧
      (UpsertPayment E p (UpsertPayment E p w).2).2.payments =
        (UpsertPayment E p w).2.payments ∧
      (findPayment (canon E p.BookingID) w.payments = none →
        ((UpsertPayment E p (UpsertPayment E p w).2).2.payments.filter
          fun r => decide (r.booking_id = canon E p.BookingID)).length = 1)) := by
  refine ⟨?_, ?_, ?_⟩
  · intro b r h
    have h1 := UpsertBooking_update E hf b w r h
    have h2 := UpsertBooking_update E hf b (UpsertBooking E b w).2 _
      (by rw [h1]; exact findBooking_updateBookings_same _ b _ r h)
    refine ⟨by rw [h1], by rw [h2], ?_⟩
    rw [h2, h1]
    exact updateBookings_twice _ _ _
  · intro b h hne
    have h1 := UpsertBooking_insert E hf b w h
    have h2 := UpsertBooking_insert E hf b (UpsertBooking E b w).2
      (by rw [h1]; exact findBooking_append_none _ _ _ h hne)
    refine ⟨by rw [h1], ?_, ?_⟩
    · rw [h2, h1]
    · rw [h2, h1]
  · intro p
    cases h : findPayment (canon E p.BookingID) w.payments with
    | none =>
      have h1 := UpsertPayment_insert E hf p w h
      have h2 := UpsertPayment_update E hf p (UpsertPayment E p w).2 _
        (by rw [h1]; exact findPayment_append_none _ _ _ h rfl)
      have hsame : (UpsertPayment E p (UpsertPayment E p w).2).2.payments =
          (UpsertPayment E p w).2.payments := by
        rw [h2, h1]
        simp only [updatePayments_append, updatePayments_none _ p _ h, updatePayments,
          if_true]
      refine ⟨by rw [h1], by rw [h2], hsame, ?_⟩
      intro _
      rw [hsame, h1]
      simp only [List.filter_append, filter_key_none _ _ h, List.nil_append]
      simp
    | some r =>
      have h1 := UpsertPayment_update E hf p w r h
      have h2 := UpsertPayment_update E hf p (UpsertPayment E p w).2 _
        (by rw [h1]; exact findPayment_updatePayments_same _ p _ r h)
      refine ⟨by rw [h1], by rw [h2], ?_, ?_⟩
      · rw [h2, h1]
        exact updatePayments_twice _ _ _
      · intro hn
        exact absurd hn (by simp)

/-- C19 (amended) at the stored booking b-1, at a booking with an empty ID
in an empty table, and at the payment of booking b-1. -/
theorem C19_upsert_twice_witness :
    ((UpsertBooking calmEnv { sampleBooking with ID := "b-1" }
        (UpsertBooking calmEnv { sampleBooking with ID := "b-1" }
          (paymentWorld "pending")).2).1 = Res.ok "b-1" ∧
      (UpsertBooking calmEnv { sampleBooking with ID := "b-1" }
        (UpsertBooking calmEnv { sampleBooking with ID := "b-1" }
          (paymentWorld "pending")).2).2.bookings =
        (UpsertBooking calmEnv { sampleBooking with ID := "b-1" }
          (paymentWorld "pending")).2.bookings) ∧
    (UpsertBooking calmEnv sampleBooking
      (UpsertBooking calmEnv sampleBooking emptyWorld).2).1 = Res.ok "id-8" ∧
    (UpsertPayment calmEnv (samplePaymentRow "pending").toEntity
      (UpsertPayment calmEnv (samplePaymentRow "pending").toEntity emptyWorld).2).2.payments =
      (UpsertPayment calmEnv (samplePaymentRow "pending").toEntity emptyWorld).2.payments :=
  ⟨((C19_upsert_twice calmEnv (fun _ => rfl) (paymentWorld "pending")).1
      { sampleBooking with ID := "b-1" } sampleBookingRow (by rfl)).2,
   ((C19_upsert_twice calmEnv (fun _ => rfl) emptyWorld).2.1 sampleBooking (by rfl)
      (by decide)).2.1,
   ((C19_upsert_twice calmEnv (fun _ => rfl) emptyWorld).2.2
      (samplePaymentRow "pending").toEntity).2.2.1⟩

/-! ### The middleware -/

/-- A header that is not empty and shorter than 7 bytes makes the slice
expression of Middleware.ValidateToken panic, before any repository call. -/
theorem Middleware.ValidateToken_short (E : Env) (auth : String) (w : World)
    (h0 : auth ≠ "") (h7 : auth.utf8ByteSize < 7) :
    Middleware.ValidateToken E auth w = (Res.panic "slice bounds out of range", w) := by
  have hs : sliceString auth 7 auth.utf8ByteSize = none := by
    unfold sliceString
    rw [if_neg]
    omega
  simp only [Middleware.ValidateToken, M.run, h0, if_false, hs]

/-- The slice expression of Middleware.ValidateToken is out of range exactly
for the headers shorter than 7 bytes. -/
theorem sliceString_header (auth : String) :
    sliceString auth 7 auth.utf8ByteSize = none ↔ auth.utf8ByteSize < 7 := by
  unfold sliceString
  by_cases h : 7 ≤ auth.utf8ByteSize
  · rw [if_pos ⟨h, Nat.le_refl _⟩]
    simp only [reduceCtorEq, false_iff]
    omega
  · rw [if_neg (fun hc => h hc.1)]
    simp only [true_iff]
    omega

/-- C20 does not hold of the code: for the headers abc and Bearer, which are
not empty and shorter than 7 bytes, Middleware.ValidateToken panics at the
slice expression, without answering; the empty header is answered 401
Unauthorized, and the header of a valid token of user 42 is passed on with
the token that follows the first 7 bytes. -/
theorem C20_short_header_panics :
    Middleware.ValidateToken calmEnv "abc" emptyWorld =
      (Res.panic "slice bounds out of range", emptyWorld) ∧
    Middleware.ValidateToken calmEnv "Bearer" emptyWorld =
      (Res.panic "slice bounds out of range", emptyWorld) ∧
    Middleware.ValidateToken calmEnv "" emptyWorld =
      (Res.ok (Answer.status 401 "Unauthorized"), emptyWorld) ∧
    Middleware.ValidateToken okEnv "Bearer tok" emptyWorld =
      (Res.ok (Answer.next 42),
        { emptyWorld with step := 2, trace := [Call.ValidateToken "tok"] }) := by
  decide

/-! ### Settlement: the amount, and failures after the upsert -/

/-- The steps of Payment after the upsert, by their first failing
operation: the booking lookup, the publish of decrement_stock_ticket, the
publish of notification, or none. -/
theorem Payment_after_upsert_apply (E : Env) (payload : request.Payment) (w : World) :
    ((do
      let dataBooking ← M.orFail (FindBookingByID E payload.BookingID)
        (InternalServerError "error find booking by booking id")
      let messageUUID ← newUUID E
      M.orFail
        (Publish E "decrement_stock_ticket" messageUUID
          (Payload.stockTicket dataBooking.TicketDetailID 1))
        (InternalServerError "error publish decrement stock ticket")
      let notificationUUID ← newUUID E
      M.orFail
        (Publish E "notification" notificationUUID (Payload.text "your payment has been paid"))
        (InternalServerError "error publish notification") : M Unit) w) =
      if E.fault w.step then
        (Res.error (InternalServerError "error find booking by booking id"),
          { w with step := w.step + 1,
                   trace := w.trace ++ [Call.FindBookingByID payload.BookingID] })
      else if E.fault (w.step + 2) then
        (Res.error (InternalServerError "error publish decrement stock ticket"),
          { w with step := w.step + 3,
                   trace := w.trace ++ [Call.FindBookingByID payload.BookingID] })
      else if E.fault (w.step + 4) then
        (Res.error (InternalServerError "error publish notification"),
          { w with
            published := w.published ++
              [⟨"decrement_stock_ticket", E.uuid (w.step + 1),
                Payload.stockTicket (bookingOf (canon E payload.BookingID) w).TicketDetailID 1⟩],
            step := w.step + 5,
            trace := w.trace ++ [Call.FindBookingByID payload.BookingID] })
      else
        (Res.ok (),
          { w with
            published := w.published ++
              [⟨"decrement_stock_ticket", E.uuid (w.step + 1),
                Payload.stockTicket (bookingOf (canon E payload.BookingID) w).TicketDetailID 1⟩,
               ⟨"notification", E.uuid (w.step + 3),
                Payload.text "your payment has been paid"⟩],
            step := w.step + 5,
            trace := w.trace ++ [Call.FindBookingByID payload.BookingID] }) := by
  cases h1 : E.fault w.step <;> cases h2 : E.fault (w.step + 2) <;>
    cases h3 : E.fault (w.step + 4) <;>
    cases hb : findBooking (canon E payload.BookingID) w.bookings <;>
    simp only [FindBookingByID, Publish, M.run, bookingOf, h1, h2, h3, hb, Bool.false_eq_true,
      if_true, if_false, List.append_assoc, List.cons_append, List.nil_append, Nat.add_assoc,
      Nat.reduceAdd]

/-- Payment on a payment that is not pending: an error after the lookup,
which is the only operation. -/
theorem Payment_not_pending (E : Env) (req : request.Payment) (w : World)
    (k : String) (r : PaymentRow) (hk : E.uuidParse req.BookingID = some k)
    (hr : findPayment k w.payments = some r) (hid : r.id ≠ 0) (hs : r.status ≠ "pending") :
    Payment E req w =
      (Res.error
        (if E.fault w.step then
          InternalServerError "error repository find payment by booking id"
        else BadRequest "payment already paid / expired"),
        { w with step := w.step + 1,
                 trace := w.trace ++ [Call.FindPaymentByBookingID req.BookingID] }) := by
  have hid2 : r.toEntity.ID ≠ 0 := hid
  have hs2 : r.toEntity.Status ≠ "pending" := hs
  cases hf : E.fault w.step <;>
    simp only [Payment, FindPaymentByBookingID, M.run, hf, hk, hr,
      Bool.false_eq_true, if_false, if_true, hid2, hs2, ne_eq, not_false_eq_true]

/-- Retries of a settlement request on a payment that is not pending change
neither table `payments` nor the bus. -/
theorem Payment_retries (E : Env) (req : request.Payment) (k : String) (r : PaymentRow)
    (hk : E.uuidParse req.BookingID = some k) (hid : r.id ≠ 0) (hs : r.status ≠ "pending")
    (n : Nat) (w : World) (hr : findPayment k w.payments = some r) :
    (runOps E (List.replicate n (PaymentOp.payment req)) w).payments = w.payments ∧
    (runOps E (List.replicate n (PaymentOp.payment req)) w).published = w.published := by
  induction n generalizing w with
  | zero => exact ⟨rfl, rfl⟩
  | succ n ih =>
    have h1 := Payment_not_pending E req w k r hk hr hid hs
    have h2 : (Payment E req w).2.payments = w.payments := by rw [h1]
    have h3 : (Payment E req w).2.published = w.published := by rw [h1]
    have := ih (Payment E req w).2 (by rw [h2]; exact hr)
    simp only [List.replicate_succ, runOps, PaymentOp.apply]
    exact ⟨this.1.trans h2, this.2.trans h3⟩

/-- C21, for an amount of at most six decimals and a payment method without
a quote character: settlement does not check the amount. For a stored
pending payment and a request with any TotalAmount that is a whole number of
millionths (zero and negative ones included), no operation failing, Payment
returns nil; afterwards the payment of the booking has the request's
TotalAmount as its amount, whatever amount was stored, and the currency
"USD"; and the decrement_stock_ticket message it publishes carries
total_tickets 1, whatever the total_tickets of the booking.  The amount is
rendered with `%f` and the method pasted between quote characters into the
text of the UPDATE statement: for an amount with more than six decimals, or
a method with a quote character, the claim does not hold of the code. -/
theorem C21_settlement_takes_request_amount (E : Env) (req : request.Payment) (w : World)
    (k : String) (r : PaymentRow) (hf : ∀ n, E.fault n = false)
    (hk : E.uuidParse req.BookingID = some k)
    (hr : findPayment k w.payments = some r)
    (hid : r.id ≠ 0) (hpending : r.status = "pending")
    (_hq : quoteFree req.PaymetMethod) :
    (Payment E req w).1 = Res.ok () ∧
    findPayment k (Payment E req w).2.payments =
      some { r with amount := req.TotalAmount, currency := "USD", status := "paid",
                    payment_method := req.PaymetMethod,
                    payment_date := formatTime (E.clock (w.step + 1)), task_id := "" } ∧
    (Payment E req w).2.published = w.published ++
      [⟨"decrement_stock_ticket", E.uuid (w.step + 7),
          Payload.stockTicket (bookingOf k w).TicketDetailID 1⟩,
       ⟨"notification", E.uuid (w.step + 9), Payload.text "your payment has been paid"⟩] := by
  rw [Payment_calm E req w k r hf hk hr hid hpending]
  refine ⟨rfl, ?_, rfl⟩
  show findPayment k (updatePayments k _ w.payments) = _
  rw [findPayment_updatePayments_same k _ w.payments r hr]
  simp only [formatTime_parseTime]

/-- C21 at the pending payment of booking b-1, stored with amount 150000 for
a booking of two tickets, and a request with TotalAmount -5 and the method
card: Payment returns nil, the stored amount is -5 in "USD", and the
decrement_stock_ticket message is for one ticket. -/
theorem C21_settlement_takes_request_amount_witness :
    findPayment "b-1" pairWorld.payments = some (samplePaymentRow "pending") ∧
    (bookingOf "b-1" pairWorld).TotalTickets = 2 ∧
    quoteFree oddPayment.PaymetMethod ∧
    (Payment calmEnv oddPayment pairWorld).1 = Res.ok () ∧
    findPayment "b-1" (Payment calmEnv oddPayment pairWorld).2.payments =
      some { id := 1, booking_id := "b-1", amount := -5, currency := "USD", status := "paid",
             payment_method := "card", payment_date := 1000, payment_expiration := 950,
             task_id := "" } ∧
    (Payment calmEnv oddPayment pairWorld).2.published =
      [⟨"decrement_stock_ticket", "id-7", Payload.stockTicket 7 1⟩,
       ⟨"notification", "id-9", Payload.text "your payment has been paid"⟩] :=
  ⟨by rfl, by rfl, by decide,
   C21_settlement_takes_request_amount calmEnv oddPayment pairWorld "b-1"
     (samplePaymentRow "pending") (fun _ => rfl) (by rfl) (by rfl) (by decide) (by rfl)
     (by decide)⟩

/-- C22: settlement is not atomic on error. If the lookup finds a pending
payment and the upsert returns nil, but Payment does not return nil, then
Payment returns one of the three InternalServerError values of the steps
after the upsert (the booking lookup, the publish of decrement_stock_ticket,
the publish of notification); the stored payment of the booking is "paid";
of the two messages at most decrement_stock_ticket was published. After any
number of retries of the same request table `payments` and the bus are as
that run left them, and the next retry publishes nothing and, its lookup not
failing, returns the BadRequest error "payment already paid / expired". -/
theorem C22_settlement_is_not_atomic (E : Env) (req : request.Payment) (w w1 w3 : World)
    (p : entity.Payment)
    (hfind : FindPaymentByBookingID E req.BookingID w = (Res.ok p, w1))
    (hid : p.ID ≠ 0) (hpending : p.Status = "pending")
    (hupsert : UpsertPayment E
      { ID := 0, BookingID := req.BookingID, Amount := req.TotalAmount,
        Currency := "USD", Status := "paid", PaymentMethod := req.PaymetMethod,
        PaymentDate := E.clock w1.step, PaymentExpiration := p.PaymentExpiration,
        TaskID := "" } { w1 with step := w1.step + 1 } = (Res.ok (), w3))
    (hfail : (Payment E req w).1 ≠ Res.ok ()) :
    ((Payment E req w).1 =
        Res.error (InternalServerError "error find booking by booking id") ∨
      (Payment E req w).1 =
        Res.error (InternalServerError "error publish decrement stock ticket") ∨
      (Payment E req w).1 = Res.error (InternalServerError "error publish notification")) ∧
    (∃ k r, E.uuidParse req.BookingID = some k ∧
      findPayment k (Payment E req w).2.payments = some r ∧ r.status = "paid") ∧
    (topicsSince w (Payment E req w).2 = [] ∨
      topicsSince w (Payment E req w).2 = ["decrement_stock_ticket"]) ∧
    ∀ n : Nat,
      (runOps E (List.replicate n (PaymentOp.payment req)) (Payment E req w).2).payments =
        (Payment E req w).2.payments ∧
      (runOps E (List.replicate n (PaymentOp.payment req)) (Payment E req w).2).published =
        (Payment E req w).2.published ∧
      (Payment E req
        (runOps E (List.replicate n (PaymentOp.payment req)) (Payment E req w).2)).2.published =
        (Payment E req w).2.published ∧
      (E.fault (runOps E (List.replicate n (PaymentOp.payment req)) (Payment E req w).2).step =
          false →
        (Payment E req
          (runOps E (List.replicate n (PaymentOp.payment req)) (Payment E req w).2)).1 =
          Res.error (BadRequest "payment already paid / expired")) := by
  have hw1 : (FindPaymentByBookingID E req.BookingID w).2 = w1 := by rw [hfind]
  have hp1 : w1.payments = w.payments := by
    rw [← hw1]; exact FindPaymentByBookingID_frame World.payments (fun _ _ => rfl) E _ w
  have hb1 : w1.published = w.published := by
    rw [← hw1]; exact FindPaymentByBookingID_frame World.published (fun _ _ => rfl) E _ w
  obtain ⟨k, hk, hp⟩ := FindPaymentByBookingID_ok E _ w w1 p hfind
  obtain ⟨r, hr⟩ : ∃ r, findPayment k w.payments = some r := by
    cases hr : findPayment k w.payments with
    | none => rw [hr] at hp; exact absurd (by rw [hp]; rfl) hid
    | some r => exact ⟨r, rfl⟩
  rw [hr] at hp
  simp only at hp
  have hrid : r.id ≠ 0 := by rw [hp] at hid; exact hid
  -- the upsert wrote the row
  have hpu := UpsertPayment_payments E
    { ID := 0, BookingID := req.BookingID, Amount := req.TotalAmount,
      Currency := "USD", Status := "paid", PaymentMethod := req.PaymetMethod,
      PaymentDate := E.clock w1.step, PaymentExpiration := p.PaymentExpiration,
      TaskID := "" } { w1 with step := w1.step + 1 }
  have hb3 := UpsertPayment_frame World.published (fun _ _ => rfl) (fun _ _ => rfl)
    (fun _ _ => rfl) E
    { ID := 0, BookingID := req.BookingID, Amount := req.TotalAmount,
      Currency := "USD", Status := "paid", PaymentMethod := req.PaymetMethod,
      PaymentDate := E.clock w1.step, PaymentExpiration := p.PaymentExpiration,
      TaskID := "" } { w1 with step := w1.step + 1 }
  rw [hupsert] at hpu hb3
  simp only [upsertedPayments, canon_of_parse E _ k hk, hp1, hr, ne_eq, not_true_eq_false,
    false_and, or_false, true_and] at hpu
  have hb3w : w3.published = w.published := hb3.trans hb1
  have hrow := findPayment_updatePayments_same k
    { ID := 0, BookingID := req.BookingID, Amount := req.TotalAmount,
      Currency := "USD", Status := "paid", PaymentMethod := req.PaymetMethod,
      PaymentDate := E.clock w1.step, PaymentExpiration := p.PaymentExpiration,
      TaskID := "" } w.payments r hr
  rw [← hpu] at hrow
  obtain ⟨r2, hrow, hid2, hs2⟩ : ∃ r2, findPayment k w3.payments = some r2 ∧
      r2.id = r.id ∧ r2.status = "paid" := ⟨_, hrow, rfl, rfl⟩
  have hrid2 : r2.id ≠ 0 := by rw [hid2]; exact hrid
  have hnp : r2.status ≠ "pending" := by rw [hs2]; decide
  -- the run is the steps after the upsert, from the world the upsert left
  have hrun := Payment_pending E req w w1 p hfind hid hpending
  rw [M.bind_apply, M.orFail_apply, hupsert] at hrun
  simp only at hrun
  rw [Payment_after_upsert_apply] at hrun
  have hpay : (Payment E req w).2.payments = w3.payments := by
    rw [hrun]; split_ifs <;> rfl
  have hretry : ∀ n : Nat, ∀ W : World, W.payments = w3.payments →
      (runOps E (List.replicate n (PaymentOp.payment req)) W).payments = W.payments ∧
      (runOps E (List.replicate n (PaymentOp.payment req)) W).published = W.published ∧
      (Payment E req (runOps E (List.replicate n (PaymentOp.payment req)) W)).2.published =
        W.published ∧
      (E.fault (runOps E (List.replicate n (PaymentOp.payment req)) W).step = false →
        (Payment E req (runOps E (List.replicate n (PaymentOp.payment req)) W)).1 =
          Res.error (BadRequest "payment already paid / expired")) := by
    intro n W hW
    have hrW : findPayment k W.payments = some r2 := by rw [hW]; exact hrow
    have hn := Payment_retries E req k r2 hk hrid2 hnp n W hrW
    have hlast := Payment_not_pending E req
      (runOps E (List.replicate n (PaymentOp.payment req)) W) k r2 hk
      (by rw [hn.1]; exact hrW) hrid2 hnp
    refine ⟨hn.1, hn.2, ?_, ?_⟩
    · rw [hlast]; exact hn.2
    · intro hf0
      rw [hlast, hf0]
      rfl
  refine ⟨?_, ⟨k, r2, hk, by rw [hpay]; exact hrow, hs2⟩, ?_, fun n => hretry n _ hpay⟩
  · rw [hrun] at hfail ⊢
    split_ifs at hfail ⊢
    · exact Or.inl rfl
    · exact Or.inr (Or.inl rfl)
    · exact Or.inr (Or.inr rfl)
    · exact absurd rfl hfail
  · rw [hrun] at hfail ⊢
    split_ifs at hfail ⊢
    · left; simp [topicsSince, hb3w]
    · left; simp [topicsSince, hb3w]
    · right; simp [topicsSince, hb3w]
    · exact absurd rfl hfail

/-- C22 at the pending payment of booking b-1 when the publish of
decrement_stock_ticket (operation 8) fails: Payment returns an error, the
stored payment is "paid", and the third try of the same request returns the
BadRequest error with the bus still empty. -/
theorem C22_settlement_is_not_atomic_witness :
    (Payment (faultAt 8) samplePayment (paymentWorld "pending")).1 =
      Res.error (InternalServerError "error publish decrement stock ticket") ∧
    (∃ k r, (faultAt 8).uuidParse samplePayment.BookingID = some k ∧
      findPayment k (Payment (faultAt 8) samplePayment (paymentWorld "pending")).2.payments =
        some r ∧ r.status = "paid") ∧
    (Payment (faultAt 8) samplePayment
      (runOps (faultAt 8) (List.replicate 2 (PaymentOp.payment samplePayment))
        (Payment (faultAt 8) samplePayment (paymentWorld "pending")).2)).2.published =
      (Payment (faultAt 8) samplePayment (paymentWorld "pending")).2.published ∧
    (Payment (faultAt 8) samplePayment
      (runOps (faultAt 8) (List.replicate 2 (PaymentOp.payment samplePayment))
        (Payment (faultAt 8) samplePayment (paymentWorld "pending")).2)).1 =
      Res.error (BadRequest "payment already paid / expired") :=
  ⟨by decide,
   (C22_settlement_is_not_atomic (faultAt 8) samplePayment (paymentWorld "pending")
      { (paymentWorld "pending") with step := 1, trace := [Call.FindPaymentByBookingID "b-1"] }
      { (paymentWorld "pending") with
        payments :=
          [{ id := 1, booking_id := "b-1", amount := 150000, currency := "USD",
             status := "paid", payment_method := "card", payment_date := 1000,
             payment_expiration := 950, task_id := "" }],
        step := 6,
        trace := [Call.FindPaymentByBookingID "b-1",
          Call.UpsertPayment
            { ID := 0, BookingID := "b-1", Amount := 150000, Currency := "USD",
              Status := "paid", PaymentMethod := "card", PaymentDate := 1000 * Second + 1,
              PaymentExpiration := 950 * Second, TaskID := "" }] }
      (samplePaymentRow "pending").toEntity (by rfl) (by decide) (by rfl) (by rfl)
      (by decide)).2.1,
   ((C22_settlement_is_not_atomic (faultAt 8) samplePayment (paymentWorld "pending")
      { (paymentWorld "pending") with step := 1, trace := [Call.FindPaymentByBookingID "b-1"] }
      { (paymentWorld "pending") with
        payments :=
          [{ id := 1, booking_id := "b-1", amount := 150000, currency := "USD",
             status := "paid", payment_method := "card", payment_date := 1000,
             payment_expiration := 950, task_id := "" }],
        step := 6,
        trace := [Call.FindPaymentByBookingID "b-1",
          Call.UpsertPayment
            { ID := 0, BookingID := "b-1", Amount := 150000, Currency := "USD",
              Status := "paid", PaymentMethod := "card", PaymentDate := 1000 * Second + 1,
              PaymentExpiration := 950 * Second, TaskID := "" }] }
      (samplePaymentRow "pending").toEntity (by rfl) (by decide) (by rfl) (by rfl)
      (by decide)).2.2.2 2).2.2.1,
   ((C22_settlement_is_not_atomic (faultAt 8) samplePayment (paymentWorld "pending")
      { (paymentWorld "pending") with step := 1, trace := [Call.FindPaymentByBookingID "b-1"] }
      { (paymentWorld "pending") with
        payments :=
          [{ id := 1, booking_id := "b-1", amount := 150000, currency := "USD",
             status := "paid", payment_method := "card", payment_date := 1000,
             payment_expiration := 950, task_id := "" }],
        step := 6,
        trace := [Call.FindPaymentByBookingID "b-1",
          Call.UpsertPayment
            { ID := 0, BookingID := "b-1", Amount := 150000, Currency := "USD",
              Status := "paid", PaymentMethod := "card", PaymentDate := 1000 * Second + 1,
              PaymentExpiration := 950 * Second, TaskID := "" }] }
      (samplePaymentRow "pending").toEntity (by rfl) (by decide) (by rfl) (by rfl)
      (by decide)).2.2.2 2).2.2.2 (by rfl)⟩

/-! ### Values pasted into a statement text -/

theorem sqlLiteralBody_quoteFree (s : List Char) (acc rest : List Char)
    (hs : Char.ofNat 39 ∉ s) (hrest : ∀ c tl, rest = c :: tl → c ≠ Char.ofNat 39) :
    sqlLiteralBody acc (s ++ Char.ofNat 39 :: rest) = some (acc.reverse ++ s, rest) := by
  induction s generalizing acc with
  | nil =>
    cases rest with
    | nil => simp [sqlLiteralBody]
    | cons d tl =>
      have hd := hrest d tl rfl
      simp [sqlLiteralBody, hd]
  | cons c s ih =>
    have hc : c ≠ Char.ofNat 39 := fun h => hs (by rw [h]; exact List.mem_cons_self _ _)
    have hs2 : Char.ofNat 39 ∉ s := fun h => hs (List.mem_cons_of_mem _ h)
    have hne : ∃ d tl, s ++ Char.ofNat 39 :: rest = d :: tl := by
      cases s with
      | nil => exact ⟨_, _, rfl⟩
      | cons d tl => exact ⟨_, _, rfl⟩
    obtain ⟨d, tl, hdt⟩ := hne
    rw [List.cons_append, hdt, sqlLiteralBody, if_neg hc, ← hdt, ih (c :: acc) hs2]
    simp

/-- A value without a quote character, pasted between quotes and followed by
text that does not begin with a quote, is read back as one literal with this
very value, and the text after it is the text that followed. -/
theorem sqlLiteral_quoted (s : String) (rest : List Char) (hs : quoteFree s)
    (hrest : ∀ c tl, rest = c :: tl → c ≠ Char.ofNat 39) :
    sqlLiteral (sqlQuoted s ++ rest) = some (s.toList, rest) := by
  have h := sqlLiteralBody_quoteFree s.toList [] rest hs hrest
  simp only [sqlQuoted, sqlLiteral, List.cons_append, List.append_assoc, List.singleton_append,
    List.nil_append, if_true]
  rw [h]
  rfl

/-- A value with a quote character is not read back as given: the method
"a''b" is read as "a'b"; and the literal of the method
"x' WHERE false; SELECT 1 FROM payments --" ends after x, what follows
being read as statement text. -/
theorem sqlLiteral_with_quote :
    sqlLiteral (sqlQuoted "a''b" ++ ", payment_date".toList) =
      some ("a'b".toList, ", payment_date".toList) ∧
    sqlLiteral
        (sqlQuoted "x' WHERE false; SELECT 1 FROM payments --" ++ ", payment_date".toList) =
      some ("x".toList, " WHERE false; SELECT 1 FROM payments --', payment_date".toList) := by
  decide

end BookingService
